import Mathlib

/-!
api-geo: geometry codec and accommodation ingestion.

A shallow embedding of `model/models.go` (the GeoJSON-like `Geometry`, its
`MarshalJSON` and the four `encode*` converters), of `repository/repository.go`
(`InsertAccommodation`, the store calls it makes, and the two spatial queries),
of the two lookups by query of `repository/repositoryV1.go` and of
`service/geo.go` (`GetEntitiesByIataCode` and its two goroutines), followed by
the properties proved about them.

Conventions of the embedding.

* A Go `interface{}` holding a decoded coordinate payload is a `Value`.
* A run-time panic or an error returned by `json.Marshal` is `Except.error`.
* A Go slice is a `List`; a nil slice and an empty slice are both `[]`
  (the code only ranges over slices, appends to them and takes `len`).
* The bytes written by `json.Marshal` are kept as the JSON tree they spell:
  an ordered list of members for the object, a `JSON` for each value.
* The database is explicit state; what the backend does to each call is part
  of that state.
* Two goroutines run as a schedule says, one step at a time; a statement
  `x = append(x, ...)` on a shared `x` is a read of `x` followed by a write.
-/

namespace ApiGeo

/-! ## Values held by `interface{}` and JSON trees -/

/-- A Go `float64`. The codec never computes with one, it only moves it, so the
value is kept as data: a finite number `mantissa * 2 ^ exponent`, an infinity,
or NaN. -/
inductive Float64
  | finite (mantissa : Int) (exponent : Int)
  | inf (negative : Bool)
  | nan
deriving DecidableEq, Repr

/-- Finite values are the ones JSON can spell (`math.IsInf` and `math.IsNaN`
both false). -/
def Float64.isFinite : Float64 → Bool
  | .finite _ _ => true
  | _ => false

/-- The integer `n` as a `float64` (`float64(n)` in the tests). -/
def Float64.ofInt (n : Int) : Float64 := .finite n 0

/-- What an `interface{}` of a decoded document holds: `nil`, `bool`,
`float64`, `string`, `[]interface{}` or `map[string]interface{}`. -/
inductive Value
  | null
  | bool (b : Bool)
  | float64 (x : Float64)
  | string (s : String)
  | slice (xs : List Value)
  | map (kvs : List (String × Value))

/-- A JSON text, as a tree. Object members keep the order in which they are
written. -/
inductive JSON
  | null
  | bool (b : Bool)
  | num (x : Float64)
  | str (s : String)
  | arr (xs : List JSON)
  | obj (kvs : List (String × JSON))

/-- The two ways the Go code of the geometry codec stops without a value. -/
inductive Failure
  /-- A failed type assertion `x.(T)`: the run-time panic
  `interface conversion`. -/
  | interfaceConversion
  /-- The `UnsupportedValueError` of `json.Marshal` for NaN and the infinities. -/
  | unsupportedValue
deriving DecidableEq, Repr

/-- The type assertion `co.([]interface{})`. -/
def assertSlice : Value → Except Failure (List Value)
  | .slice xs => .ok xs
  | _ => .error .interfaceConversion

/-- The type assertion `v.(float64)`. -/
def assertFloat64 : Value → Except Failure Float64
  | .float64 x => .ok x
  | _ => .error .interfaceConversion

/-! ## `json.Marshal` and `json.Unmarshal` on values -/

/-- How `json.Marshal` writes one `float64`. -/
def marshalFloat64 (x : Float64) : Except Failure JSON :=
  if x.isFinite then .ok (.num x) else .error .unsupportedValue

mutual
/-- How `json.Marshal` writes an `interface{}`. -/
def marshalValue : Value → Except Failure JSON
  | .null => .ok .null
  | .bool b => .ok (.bool b)
  | .float64 x => marshalFloat64 x
  | .string s => .ok (.str s)
  | .slice xs =>
    match marshalValues xs with
    | .ok js => .ok (.arr js)
    | .error e => .error e
  | .map kvs =>
    match marshalMembers kvs with
    | .ok js => .ok (.obj js)
    | .error e => .error e
/-- The elements of a `[]interface{}`, written in order. -/
def marshalValues : List Value → Except Failure (List JSON)
  | [] => .ok []
  | v :: vs =>
    match marshalValue v with
    | .error e => .error e
    | .ok j =>
      match marshalValues vs with
      | .ok js => .ok (j :: js)
      | .error e => .error e
/-- The entries of a `map[string]interface{}`, written in the order they are
listed (the list stands for the map in key order). -/
def marshalMembers : List (String × Value) → Except Failure (List (String × JSON))
  | [] => .ok []
  | (k, v) :: kvs =>
    match marshalValue v with
    | .error e => .error e
    | .ok j =>
      match marshalMembers kvs with
      | .ok js => .ok ((k, j) :: js)
      | .error e => .error e
end

mutual
/-- What `json.Unmarshal` stores in an `interface{}` for a JSON text. -/
def unmarshalValue : JSON → Value
  | .null => .null
  | .bool b => .bool b
  | .num x => .float64 x
  | .str s => .string s
  | .arr xs => .slice (unmarshalValues xs)
  | .obj kvs => .map (unmarshalMembers kvs)
/-- The elements of a JSON array, read in order. -/
def unmarshalValues : List JSON → List Value
  | [] => []
  | j :: js => unmarshalValue j :: unmarshalValues js
/-- The members of a JSON object, read in order. -/
def unmarshalMembers : List (String × JSON) → List (String × Value)
  | [] => []
  | (k, j) :: kvs => (k, unmarshalValue j) :: unmarshalMembers kvs
end

/-- The loop `for _, c := range co { p := f(c); pt = append(pt, p) }` started
with `pt` as accumulated so far; a panic in `f` ends it. -/
def rangeAppend {α β : Type} (f : α → Except Failure β) :
    List α → List β → Except Failure (List β)
  | [], pt => .ok pt
  | c :: co, pt =>
    match f c with
    | .error e => .error e
    | .ok p => rangeAppend f co (pt ++ [p])

/-- How `json.Marshal` writes a `[]float64`. -/
def marshalPoint (pt : List Float64) : Except Failure JSON :=
  match rangeAppend marshalFloat64 pt [] with
  | .ok js => .ok (.arr js)
  | .error e => .error e

/-- How `json.Marshal` writes a `[][]float64`. -/
def marshalMultiPoint (pts : List (List Float64)) : Except Failure JSON :=
  match rangeAppend marshalPoint pts [] with
  | .ok js => .ok (.arr js)
  | .error e => .error e

/-- How `json.Marshal` writes a `[][][]float64`. -/
def marshalPolygon (rings : List (List (List Float64))) : Except Failure JSON :=
  match rangeAppend marshalMultiPoint rings [] with
  | .ok js => .ok (.arr js)
  | .error e => .error e

/-- How `json.Marshal` writes a `[][][][]float64`. -/
def marshalMultiPolygon (polys : List (List (List (List Float64)))) : Except Failure JSON :=
  match rangeAppend marshalPolygon polys [] with
  | .ok js => .ok (.arr js)
  | .error e => .error e

/-! ## `model/models.go`: geometry -/

/-- `type GeometryType string`. -/
abbrev GeometryType := String

def GeometryPoint : GeometryType := "Point"
def GeometryMultiPolygon : GeometryType := "MultiPolygon"
def GeometryPolygon : GeometryType := "Polygon"
def GeometryMultiPoint : GeometryType := "MultiPoint"

/-- The struct `Geometry`. The field `Type` is spelled `Typ` (`Type` is reserved). -/
structure Geometry where
  Typ : GeometryType
  Coordinates : List Value
  MultiPolygon : List (List (List (List Float64)))
  Polygon : List (List (List Float64))
  Point : List Float64
  MultiPoint : List (List Float64)

/-- The zero value of `Geometry`. -/
def Geometry.zero : Geometry :=
  { Typ := "", Coordinates := [], MultiPolygon := [], Polygon := [], Point := [], MultiPoint := [] }

/-- `encodePoint`: both occurrences of `co.([]interface{})` and the loop of
`v.(float64)`. -/
def encodePoint (co : Value) : Except Failure (List Float64) :=
  assertSlice co >>= fun xs => rangeAppend assertFloat64 xs []

/-- `encodeMultiPoint`. -/
def encodeMultiPoint (co : List Value) : Except Failure (List (List Float64)) :=
  rangeAppend encodePoint co []

/-- `encodePolygon`: each element is asserted to be a `[]interface{}` and
handed to `encodeMultiPoint`. -/
def encodePolygon (co : List Value) : Except Failure (List (List (List Float64))) :=
  rangeAppend (fun c => assertSlice c >>= encodeMultiPoint) co []

/-- `encodeMultiPolygon`. -/
def encodeMultiPolygon (co : List Value) : Except Failure (List (List (List (List Float64)))) :=
  rangeAppend (fun c => assertSlice c >>= encodePolygon) co []

/-- The struct `geometry` local to `MarshalJSON`, whose field order is the
order of the JSON members. -/
structure geometry where
  Typ : GeometryType
  MultiPolygon : List (List (List (List Float64)))
  Polygon : List (List (List Float64))
  Point : List Float64
  MultiPoint : List (List Float64)
  Coordinates : List Value

/-- One struct field tagged `omitempty`: nothing is written for a slice of
length 0, the member `name` with the written value otherwise. -/
def omitempty {α : Type} (name : String) (write : List α → Except Failure JSON)
    (v : List α) : Except Failure (List (String × JSON)) :=
  if v.isEmpty then .ok []
  else
    match write v with
    | .ok j => .ok [(name, j)]
    | .error e => .error e

/-- `json.Marshal(geo)` for the local struct: the members in field order,
`type` always, the five others under `omitempty`. -/
def jsonMarshal (geo : geometry) : Except Failure (List (String × JSON)) := do
  let f1 ← omitempty "multipolygon" marshalMultiPolygon geo.MultiPolygon
  let f2 ← omitempty "polygon" marshalPolygon geo.Polygon
  let f3 ← omitempty "point" marshalPoint geo.Point
  let f4 ← omitempty "multipoint" marshalMultiPoint geo.MultiPoint
  let f5 ← omitempty "coordinates" (fun v => marshalValue (.slice v)) geo.Coordinates
  pure (("type", JSON.str geo.Typ) :: (f1 ++ f2 ++ f3 ++ f4 ++ f5))

/-- `Geometry.MarshalJSON`: the members of the JSON object written, in order. -/
def MarshalJSON (g : Geometry) : Except Failure (List (String × JSON)) := do
  let geo : geometry :=
    { Typ := g.Typ, Coordinates := g.Coordinates,
      MultiPolygon := [], Polygon := [], Point := [], MultiPoint := [] }
  let geo ←
    if g.Typ = GeometryPoint then
      (encodePoint (.slice g.Coordinates)).map (fun v => { geo with Point := v })
    else if g.Typ = GeometryPolygon then
      (encodePolygon g.Coordinates).map (fun v => { geo with Polygon := v })
    else if g.Typ = GeometryMultiPoint then
      (encodeMultiPoint g.Coordinates).map (fun v => { geo with MultiPoint := v })
    else if g.Typ = GeometryMultiPolygon then
      (encodeMultiPolygon g.Coordinates).map (fun v => { geo with MultiPolygon := v })
    else pure geo
  jsonMarshal geo


/-! ## Shapes of coordinate payloads -/

/-- A value nested exactly `depth` arrays deep at every leaf: at depth 0 a
`float64` accepted by `leaf`, at depth `d + 1` an array of values of depth `d`
(an empty array has every depth above 0). -/
def conforms (leaf : Float64 → Bool) : Nat → Value → Bool
  | 0, .float64 x => leaf x
  | 0, _ => false
  | d + 1, .slice xs => xs.all (conforms leaf d)
  | _ + 1, _ => false

/-- The nesting depth the codec walks for each kind. -/
def expectedDepth (k : GeometryType) : Nat :=
  if k = GeometryPoint then 1
  else if k = GeometryPolygon then 3
  else if k = GeometryMultiPoint then 2
  else if k = GeometryMultiPolygon then 4
  else 0

/-- The payload has the shape the codec walks for kind `k`: arrays nested to
the kind's depth with a `float64` at every leaf. -/
def WellShaped (k : GeometryType) (co : List Value) : Bool :=
  conforms (fun _ => true) (expectedDepth k) (.slice co)

/-- The payload is well-formed for kind `k`: it has the kind's shape and every
leaf is a number, that is a finite `float64` (NaN and the infinities are
`float64` values that are not numbers and have no JSON spelling). -/
def WellFormed (k : GeometryType) (co : List Value) : Bool :=
  conforms Float64.isFinite (expectedDepth k) (.slice co)

mutual
/-- Nesting depth of a value: 0 for anything that is not an array, one more
than its deepest element for an array (1 for the empty array). -/
def Value.depth : Value → Nat
  | .slice xs => 1 + Value.depthList xs
  | _ => 0
/-- Depth of the deepest element of a list of values, 0 for no element. -/
def Value.depthList : List Value → Nat
  | [] => 0
  | v :: vs => max (Value.depth v) (Value.depthList vs)
end

mutual
/-- Every leaf (every value that is not an array) is a `float64`. -/
def Value.leavesNumeric : Value → Bool
  | .float64 _ => true
  | .slice xs => Value.leavesNumericList xs
  | _ => false
/-- Every leaf of every listed value is a `float64`. -/
def Value.leavesNumericList : List Value → Bool
  | [] => true
  | v :: vs => Value.leavesNumeric v && Value.leavesNumericList vs
end

mutual
/-- No array in the value, at any level, is empty. -/
def Value.noEmptyArray : Value → Bool
  | .slice xs => !xs.isEmpty && Value.noEmptyArrayList xs
  | _ => true
/-- No array in any of the listed values is empty. -/
def Value.noEmptyArrayList : List Value → Bool
  | [] => true
  | v :: vs => Value.noEmptyArray v && Value.noEmptyArrayList vs
end

/-- The typed coordinates of a geometry: the value of the one typed field its
kind selects. -/
inductive Typed
  | point (v : List Float64)
  | polygon (v : List (List (List Float64)))
  | multiPoint (v : List (List Float64))
  | multiPolygon (v : List (List (List (List Float64))))

/-- The `switch` on the kind that `MarshalJSON` and `MapCoordinates` share: the
typed coordinates derived from the raw ones, none for a kind outside the four. -/
def decode (k : GeometryType) (co : List Value) : Except Failure (Option Typed) :=
  if k = GeometryPoint then
    (encodePoint (.slice co)).map (fun v => some (.point v))
  else if k = GeometryPolygon then
    (encodePolygon co).map (fun v => some (.polygon v))
  else if k = GeometryMultiPoint then
    (encodeMultiPoint co).map (fun v => some (.multiPoint v))
  else if k = GeometryMultiPolygon then
    (encodeMultiPolygon co).map (fun v => some (.multiPolygon v))
  else pure none

/-- The `Coordinates` a reader of the written object gets back: the content of
the member `coordinates`, and the empty slice when the member is absent or is
not an array. -/
def readCoordinates (out : List (String × JSON)) : List Value :=
  match out.lookup "coordinates" with
  | some (.arr js) => unmarshalValues js
  | _ => []

/-- The typed decoding `f`, its JSON form written by `w`, and the JSON form of
the raw value agree on `v`. -/
def Agree {β : Type} (f : Value → Except Failure β) (w : β → Except Failure JSON)
    (v : Value) : Prop :=
  ∃ p j, f v = .ok p ∧ w p = .ok j ∧ marshalValue v = .ok j


/-! ## Geometries of `model/geometry_test.go` -/

/-- The geometry of `TestGeometryMarshalJSONPoint`: a Point with raw
coordinates `[1, 2]`. -/
def testPoint : Geometry :=
  { Typ := GeometryPoint,
    Coordinates := [.float64 (.ofInt 1), .float64 (.ofInt 2)],
    MultiPolygon := [], Polygon := [], Point := [], MultiPoint := [] }

/-- The geometry of `TestGeometryMarshalJSONMultiPoint`: a MultiPoint with raw
coordinates `[[1, 2], [3, 4]]`. -/
def testMultiPoint : Geometry :=
  { Typ := GeometryMultiPoint,
    Coordinates :=
      [.slice [.float64 (.ofInt 1), .float64 (.ofInt 2)],
       .slice [.float64 (.ofInt 3), .float64 (.ofInt 4)]],
    MultiPolygon := [], Polygon := [], Point := [], MultiPoint := [] }

/-- The Point `[1, 2]` again, with typed fields that disagree with its kind and
its raw coordinates. -/
def stalePoint : Geometry :=
  { Typ := GeometryPoint,
    Coordinates := [.float64 (.ofInt 1), .float64 (.ofInt 2)],
    MultiPolygon := [[[[.ofInt 9]]]], Polygon := [[[.ofInt 8]]],
    Point := [.ofInt 7, .ofInt 6], MultiPoint := [[.ofInt 5]] }

/-- A Polygon payload with one ring of three positions. -/
def trianglePolygon : List Value :=
  [.slice [.slice [.float64 (.ofInt 0), .float64 (.ofInt 0)],
           .slice [.float64 (.ofInt 4), .float64 (.ofInt 0)],
           .slice [.float64 (.ofInt 0), .float64 (.ofInt 3)]]]

/-! ## `model/models.go`: regions -/

/-- `type RegionType string`. -/
abbrev RegionType := String

def RegionTypeCity : RegionType := "city"
def RegionTypeCountry : RegionType := "country"
def RegionTypeContinent : RegionType := "continent"
def RegionTypeHighLevelRegion : RegionType := "high_level_region"
def RegionTypeMetroStation : RegionType := "metro_station"
def RegionTypeProvinceState : RegionType := "province_state"
def RegionTypeMultiCityVicinity : RegionType := "multi_city_vicinity"
def RegionTypePOI : RegionType := "point_of_interest"
def RegionTypeNeighborhood : RegionType := "neighborhood"
def RegionTypeTrainStation : RegionType := "train_station"
def RegionTypeAccommodation : RegionType := "accommodation"
def RegionTypeGeo : RegionType := "geo_coordinates"

/-- A `bson.ObjectId`, kept as a number: 0 is the zero value (the empty id),
`bson.NewObjectId()` hands out the numbers from 1 on. -/
abbrev ObjectId := Nat

/-- The struct `BaseRegion`. -/
structure BaseRegion where
  ID : ObjectId
  GeoID : String
  Typ : RegionType
deriving DecidableEq, Repr

/-- The struct `Center`. -/
structure Center where
  Longitude : Float64
  Latitude : Float64
deriving DecidableEq, Repr

/-- The struct `Ancestor`. -/
structure Ancestor where
  ID : String
  Typ : RegionType
deriving DecidableEq, Repr

/-- The struct `Descendants`. -/
structure Descendants where
  Cities : List String
  Countries : List String
  POIs : List String
  HighLevelRegions : List String
  TrainStations : List String
  MetroStations : List String
  Neighbourhoods : List String
  MultiCityVicinities : List String
  ProvinceStates : List String
  Accommodations : List String
deriving DecidableEq, Repr

/-- The struct `Region`; `Name` is the `map[Language]string` as a list of
entries. -/
structure Region extends BaseRegion where
  Name : List (String × String)
  CountryCode : String
  Center : Center
  Ancestors : List Ancestor
  Descendants : Descendants
deriving DecidableEq, Repr

/-- The struct `GeoRegion`. -/
structure GeoRegion extends BaseRegion where
  Geometry : Geometry

/-- The zero value of `Region` (`var r geoModel.Region`). -/
def Region.zero : Region :=
  { ID := 0, GeoID := "", Typ := "", Name := [], CountryCode := "",
    Center := { Longitude := .finite 0 0, Latitude := .finite 0 0 }, Ancestors := [],
    Descendants :=
      { Cities := [], Countries := [], POIs := [], HighLevelRegions := [],
        TrainStations := [], MetroStations := [], Neighbourhoods := [],
        MultiCityVicinities := [], ProvinceStates := [], Accommodations := [] } }

/-! ## The store behind `MongoRepository` -/

/-- An error of the driver: `mgo.ErrNotFound`, or any other one (connection
lost, time-out, write refused, ...). -/
inductive MgoError
  | ErrNotFound
  | fault (msg : String)
deriving DecidableEq, Repr

/-- A Go `error` value returned by the repository. -/
inductive Error
  /-- `pkgErrors.ErrEntityNotFound`. -/
  | ErrEntityNotFound
  /-- `pkgErrors.ErrMissingParameters`. -/
  | ErrMissingParameters
  /-- An error of the driver, as is. -/
  | mgo (e : MgoError)
  /-- `fmt.Errorf(format, args...)` with no `%w` in the format. -/
  | errorf (format : String) (args : List String)
  /-- `fmt.Errorf(format, args..., err)` where the format ends in `%w`: the new
  error wraps `err`. -/
  | wrap (format : String) (args : List String) (err : Error)
deriving DecidableEq, Repr

/-- The `bson.M` that `GetIntersectedRegions` hands to `Find`, and the
projection it hands to `Select`. -/
structure IntersectsQuery where
  /-- `"bounding_polygon": {"$geoIntersects": {"$geometry": geometry}}`. -/
  geometry : Geometry
  /-- `"type": {"$in": regionTypes}`, when the key is set. -/
  typeIn : Option (List RegionType)
  /-- The keys of the `Select` document. -/
  select : List String

/-- The `bson.M` that `GetNearByRegions` hands to `Find`:
`"bounding_polygon": {"$geoWithin": {"$centerSphere": [center, radius]}}`. -/
structure NearbyQuery where
  center : List Float64
  radius : Float64
deriving DecidableEq, Repr

/-- A call made on the session. -/
inductive Call
  /-- `col.Find(dbQuery).Select(...).All(r)` on the geo collection. -/
  | findIntersects (q : IntersectsQuery)
  /-- `C(collection).Find({"geo_id": geoID}).One(r)`. -/
  | findRegion (collection : String) (geoID : String)
  /-- `C(collection).Update({"geo_id": geoID}, doc)`. -/
  | updateRegion (collection : String) (geoID : String) (doc : Region)
  /-- `col.Insert(doc)` on the geo collection. -/
  | insertGeoRegion (doc : GeoRegion)
  /-- `Find(query).All(&regions)` on the geo collection, for a radius query. -/
  | findNearby (q : NearbyQuery)

/-- The state the repository works on: the database, what the backend will do
to the coming calls, the supply of object ids, and what has been called and
logged so far.

The region collections are named after region types and the geo collection by
configuration; they are kept apart here. -/
structure Backend where
  /-- The documents of the region collections, each with the name of its
  collection, in insertion order. -/
  regions : List (String × Region)
  /-- The documents of the geo collection (`geoCoordinatesTable`). -/
  geo : List GeoRegion
  /-- The `$geoIntersects` predicate of the storage engine: stored geometry,
  query geometry. -/
  geoIntersects : Geometry → Geometry → Bool
  /-- What the backend does to the coming calls, one entry per call in order:
  `some e` makes the call fail with `e` without touching the database, `none`
  lets it run. Calls beyond the list run. -/
  faults : List (Option MgoError)
  /-- Number of object ids handed out by `bson.NewObjectId()` so far. -/
  objectIds : Nat
  /-- The calls made so far, oldest first. -/
  calls : List Call
  /-- The lines given to `log.Error` so far, oldest first. -/
  logged : List String

/-- A call reaches the backend: it is recorded, and the backend's verdict on
it is taken from the head of `faults`. -/
def Backend.call (db : Backend) (c : Call) : Option MgoError × Backend :=
  match db.faults with
  | [] => (none, { db with calls := db.calls ++ [c] })
  | f :: fs => (f, { db with faults := fs, calls := db.calls ++ [c] })

/-- `log.Error(fmt.Errorf("region id: %s, Type: %s", t, id))`. -/
def Backend.logError (db : Backend) (t : RegionType) (id : String) : Backend :=
  { db with logged := db.logged ++ ["region id: " ++ t ++ ", Type: " ++ id] }

/-- First document of `collection` whose `geo_id` is `geoID`. -/
def findOne (docs : List (String × Region)) (collection geoID : String) : Option Region :=
  (docs.find? (fun d => d.1 == collection && d.2.GeoID == geoID)).map Prod.snd

/-- The documents with the first document of `collection` whose `geo_id` is
`geoID` replaced by `doc`; `none` when there is no such document. -/
def replaceOne (collection geoID : String) (doc : Region) :
    List (String × Region) → Option (List (String × Region))
  | [] => none
  | d :: ds =>
    if d.1 == collection && d.2.GeoID == geoID then some ((d.1, doc) :: ds)
    else (replaceOne collection geoID doc ds).map (fun ds' => d :: ds')

/-! ## `repository/repository.go` -/

/-- `GetRegionByTypeAndGeoID`: the error returned, the content of `r` after the
call, and the state after it. `One` writes `r` only when it finds a document;
on any failure `r` is as it was. -/
def GetRegionByTypeAndGeoID (regionType : RegionType) (geoID : String) (r : Region)
    (db : Backend) : Option Error × Region × Backend :=
  match db.call (.findRegion regionType geoID) with
  | (some .ErrNotFound, db) =>
    (some (.wrap "failed to get region by type %s and geo id %s. %w" [regionType, geoID]
      .ErrEntityNotFound), r, db)
  | (some err, db) =>
    (some (.wrap "failed to get region by type %s and geo id %s. %w" [regionType, geoID]
      (.mgo err)), r, db)
  | (none, db) =>
    match findOne db.regions regionType geoID with
    | none =>
      (some (.wrap "failed to get region by type %s and geo id %s. %w" [regionType, geoID]
        .ErrEntityNotFound), r, db)
    | some doc => (none, doc, db)

/-- `UpdateRegion`: the document of collection `e.Type` with `e`'s `geo_id` is
replaced by `e`; `Update` reports `mgo.ErrNotFound` when there is none. -/
def UpdateRegion (e : Region) (db : Backend) : Option Error × Backend :=
  match db.call (.updateRegion e.Typ e.GeoID e) with
  | (some err, db) => (some (.wrap "failed to update region. %w" [] (.mgo err)), db)
  | (none, db) =>
    match replaceOne e.Typ e.GeoID e db.regions with
    | none => (some (.wrap "failed to update region. %w" [] (.mgo .ErrNotFound)), db)
    | some docs => (none, { db with regions := docs })

/-- The query `GetIntersectedRegions` builds: the `$geoIntersects` predicate
always, the `type` restriction when `len(regionTypes) > 0`, and the projection
on `type` and `geo_id`. -/
def GetIntersectedRegions.dbQuery (geometry : Geometry) (regionTypes : List RegionType) :
    IntersectsQuery :=
  { geometry := geometry,
    typeIn := if regionTypes.length > 0 then some regionTypes else none,
    select := ["type", "geo_id"] }

/-- `GetIntersectedRegions`: the error returned, the content of `*r` after the
call, and the state after it. `All` sets `*r` to the matching documents
reduced to the selected fields (and `_id`), which are none when the query
fails: what `*r` held before the call is not kept. -/
def GetIntersectedRegions (geometry : Geometry) (regionTypes : List RegionType)
    (r : List GeoRegion) (db : Backend) : Option Error × List GeoRegion × Backend :=
  let dbQuery := GetIntersectedRegions.dbQuery geometry regionTypes
  match db.call (.findIntersects dbQuery) with
  | (some .ErrNotFound, db) => (some .ErrEntityNotFound, [], db)
  | (some err, db) => (some (.wrap "failed to get regions %w" [] (.mgo err)), [], db)
  | (none, db) =>
    let matching := db.geo.filter (fun d =>
      db.geoIntersects d.Geometry dbQuery.geometry &&
        (match dbQuery.typeIn with
          | none => true
          | some ts => ts.contains d.Typ))
    let selected := matching.map (fun d =>
      ({ ID := d.ID, GeoID := d.GeoID, Typ := d.Typ, Geometry := Geometry.zero } : GeoRegion))
    (none, selected, db)

/-- `SaveGeoRegion`: the error returned, the content of `*r` after the call (a
new object id is set before the insert is tried), and the state after it. -/
def SaveGeoRegion (r : GeoRegion) (db : Backend) : Option Error × GeoRegion × Backend :=
  let r := { r with ID := db.objectIds + 1 }
  let db := { db with objectIds := db.objectIds + 1 }
  match db.call (.insertGeoRegion r) with
  | (some _, db) => (some (.errorf "failed to save region" []), r, db)
  | (none, db) => (none, r, { db with geo := db.geo ++ [r] })

/-- One round of the loop of `InsertAccommodation` over the intersected regions,
for the intersected region `e` and the accommodation's `GeoID`. -/
def InsertAccommodation.body (geoID : String) (db : Backend) (e : GeoRegion) : Backend :=
  match GetRegionByTypeAndGeoID e.Typ e.GeoID Region.zero db with
  | (err1, r, db) =>
    let db := if err1.isSome then db.logError e.Typ e.GeoID else db
    if r.Typ = RegionTypeCity ∨ r.Typ = RegionTypeMultiCityVicinity ∨
        r.Typ = RegionTypeNeighborhood then
      let accommodations :=
        if r.Descendants.Accommodations.length = 0 then [] else r.Descendants.Accommodations
      let r := { r with Descendants :=
        { r.Descendants with Accommodations := accommodations ++ [geoID] } }
      match UpdateRegion r db with
      | (err1, db) => if err1.isSome then db.logError e.Typ e.GeoID else db
    else db

/-- `InsertAccommodation`: what is returned (the list with a nil error, or the
error with a nil list), the content of `*accommodation` after the call, and
the state after it. -/
def InsertAccommodation (accommodation : GeoRegion) (db : Backend) :
    Except Error (List GeoRegion) × GeoRegion × Backend :=
  match GetIntersectedRegions accommodation.Geometry [] [] db with
  | (err, intersectedRegions, db) =>
    let accommodation := { accommodation with Typ := RegionTypeAccommodation }
    match err with
    | some err => (.error err, accommodation, db)
    | none =>
      let db := intersectedRegions.foldl (InsertAccommodation.body accommodation.GeoID) db
      match SaveGeoRegion accommodation db with
      | (some err, accommodation, db) => (.error err, accommodation, db)
      | (none, accommodation, db) => (.ok intersectedRegions, accommodation, db)

/-! ## A store with three regions around an accommodation -/

/-- A region document with the given key, type and accommodation descendants. -/
def sampleRegion (id : ObjectId) (geoID : String) (t : RegionType)
    (accommodations : List String) : Region :=
  { Region.zero with
    ID := id, GeoID := geoID, Typ := t,
    Descendants := { Region.zero.Descendants with Accommodations := accommodations } }

/-- The geo document of a region: its key and type, and a point as bounds. -/
def sampleGeoRegion (id : ObjectId) (geoID : String) (t : RegionType) : GeoRegion :=
  { ID := id, GeoID := geoID, Typ := t, Geometry := testPoint }

/-- A store in which the accommodation's point intersects a city, a country and
a neighborhood. The Region record of the country is missing, and the backend
refuses the third call made on it (which is the update of the city). -/
def sampleBackend : Backend :=
  { regions :=
      [("city", sampleRegion 1 "c1" RegionTypeCity ["a0"]),
       ("neighborhood", sampleRegion 2 "n1" RegionTypeNeighborhood [])],
    geo :=
      [sampleGeoRegion 11 "c1" RegionTypeCity,
       sampleGeoRegion 12 "k1" RegionTypeCountry,
       sampleGeoRegion 13 "n1" RegionTypeNeighborhood],
    geoIntersects := fun _ _ => true,
    faults := [none, none, some (.fault "write refused")],
    objectIds := 20,
    calls := [],
    logged := [] }

/-- The accommodation to insert: key `a1`, the test point as geometry, and a
type the caller chose. -/
def sampleAccommodation : GeoRegion :=
  { ID := 0, GeoID := "a1", Typ := "hotel", Geometry := testPoint }

/-- The key of the lookup a call makes, for the calls that are Region lookups. -/
def Call.lookupKey : Call → Option (String × String)
  | .findRegion collection geoID => some (collection, geoID)
  | _ => none

/-- A geo document reduced to `_id`, `geo_id` and `type`, as the intersection
query returns it. -/
def selectedGeoRegion (id : ObjectId) (geoID : String) (t : RegionType) : GeoRegion :=
  { ID := id, GeoID := geoID, Typ := t, Geometry := Geometry.zero }

/-- What the intersection query returns on `sampleBackend`: the city, the
country and the neighborhood. -/
def sampleIntersected : List GeoRegion :=
  [selectedGeoRegion 11 "c1" RegionTypeCity,
   selectedGeoRegion 12 "k1" RegionTypeCountry,
   selectedGeoRegion 13 "n1" RegionTypeNeighborhood]

/-- The state of `sampleBackend` after the intersection query. -/
def sampleAfterQuery : Backend :=
  { sampleBackend with
    faults := [none, some (.fault "write refused")],
    calls := [.findIntersects (GetIntersectedRegions.dbQuery testPoint [])] }

/-- The state of `sampleBackend` after the lookup of the neighborhood `n1`, the
third intersected region: the update of the city was refused and the lookup of
the country found nothing, both were logged. -/
def sampleAfterLookup : Backend :=
  { sampleBackend with
    faults := [],
    calls :=
      [.findIntersects (GetIntersectedRegions.dbQuery testPoint []),
       .findRegion "city" "c1",
       .updateRegion "city" "c1" (sampleRegion 1 "c1" RegionTypeCity ["a0", "a1"]),
       .findRegion "country" "k1",
       .findRegion "neighborhood" "n1"],
    logged := ["region id: city, Type: c1", "region id: country, Type: k1"] }

/-- The update `UpdateRegion(doc)` on `collection` and key `id` is the one due in
the loop of `InsertAccommodation` run from `db0` over `regions`: some
intersected region `e`, looked up in the state its round starts in, is found as
a Region `r` of type city, multi_city_vicinity or neighborhood, and `doc` is `r`
with the accommodation's key appended to its accommodation descendants. -/
def DueUpdate (geoID : String) (regions : List GeoRegion) (db0 : Backend)
    (collection id : String) (doc : Region) : Prop :=
  ∃ pre e post r, regions = pre ++ e :: post ∧
    (GetRegionByTypeAndGeoID e.Typ e.GeoID Region.zero
      (pre.foldl (InsertAccommodation.body geoID) db0)).1 = none ∧
    (GetRegionByTypeAndGeoID e.Typ e.GeoID Region.zero
      (pre.foldl (InsertAccommodation.body geoID) db0)).2.1 = r ∧
    (r.Typ = RegionTypeCity ∨ r.Typ = RegionTypeMultiCityVicinity ∨
      r.Typ = RegionTypeNeighborhood) ∧
    collection = r.Typ ∧ id = r.GeoID ∧
    doc = { r with Descendants :=
      { r.Descendants with Accommodations := r.Descendants.Accommodations ++ [geoID] } }

/-- The store of `sampleBackend` with another script: the backend refuses the
update of the city as before and also the seventh call, which is the insert of
the accommodation. -/
def sampleBackendSaveRefused : Backend :=
  { sampleBackend with
    faults :=
      [none, none, some (.fault "write refused"), none, none, none,
       some (.fault "insert refused")] }

/-- The store of `sampleBackend` when the backend refuses the first call, the
intersection query. -/
def sampleBackendQueryRefused : Backend :=
  { sampleBackend with faults := [some (.fault "no reachable servers")] }

/-- The state of `sampleBackendSaveRefused` after the intersection query. -/
def sampleSaveRefusedAfterQuery : Backend :=
  { sampleBackendSaveRefused with
    faults :=
      [none, some (.fault "write refused"), none, none, none, some (.fault "insert refused")],
    calls := [.findIntersects (GetIntersectedRegions.dbQuery testPoint [])] }

/-! ## `model/modelsV1.go` -/

/-- `type GeoEntityType string`. -/
abbrev GeoEntityType := String

def GeoEntityTypeCountry : GeoEntityType := "COUNTRY"
def GeoEntityTypeCity : GeoEntityType := "CITY"
def GeoEntityTypeState : GeoEntityType := "STATE"
def GeoEntityTypeNeighbourhood : GeoEntityType := "NEIGHBOURHOOD"
def GeoEntityTypeAirport : GeoEntityType := "AIRPORT"
def GeoEntityTypeAccommodation : GeoEntityType := "ACCOMMODATION"

/-- `type Language string`. -/
abbrev Language := String

/-- The struct `BaseEntity`; `Name` is the `map[Language]string` as a list of
entries with distinct keys. -/
structure BaseEntity where
  ID : ObjectId
  Name : List (Language × String)
deriving DecidableEq, Repr

/-- The struct `Airport`. -/
structure Airport extends BaseEntity where
  IataCode : String
  CityID : ObjectId
  CountryID : ObjectId
  CountryCode : String
  StateID : ObjectId
  EanID : Int
deriving DecidableEq, Repr

/-- The struct `City`. -/
structure City extends BaseEntity where
  IataCode : String
  GeoID : String
  CountryID : ObjectId
  StateID : ObjectId
deriving DecidableEq, Repr

/-- The struct `Entity`. -/
structure Entity where
  ID : String
  IataCode : String
  Name : String
  Typ : GeoEntityType
  CountryID : String
deriving DecidableEq, Repr

/-- The map index expression `m[key]`: the value stored under `key`, the zero
value `""` when the map has no such key. -/
def mapIndex (m : List (Language × String)) (key : Language) : String :=
  (m.lookup key).getD ""

/-- `ObjectId.Hex()`: the hexadecimal spelling of the twelve bytes of the id,
which is 24 digits in lower case, and the empty text for the zero value (an id
is a number below `16 ^ 24` here, and 0 is the zero value). -/
def ObjectId.Hex (id : ObjectId) : String :=
  if id = 0 then ""
  else
    String.mk (List.replicate (24 - (Nat.toDigits 16 id).length) '0' ++ Nat.toDigits 16 id)

/-- Value of one hexadecimal digit. -/
def hexDigit (c : Char) : Option Nat :=
  if '0' ≤ c ∧ c ≤ '9' then some (c.toNat - '0'.toNat)
  else if 'a' ≤ c ∧ c ≤ 'f' then some (c.toNat - 'a'.toNat + 10)
  else if 'A' ≤ c ∧ c ≤ 'F' then some (c.toNat - 'A'.toNat + 10)
  else none

/-- The number spelled by hexadecimal digits, read after the value `acc`. -/
def hexValue : List Char → Nat → Option Nat
  | [], acc => some acc
  | c :: cs, acc =>
    match hexDigit c with
    | none => none
    | some d => hexValue cs (16 * acc + d)

/-- `bson.ObjectIdHex(s)`: the id with hexadecimal spelling `s`, which has 24
hexadecimal digits; `none` stands for the run-time panic on a string that is
not such a spelling. -/
def ObjectIdHex (s : String) : Option ObjectId :=
  if s.data.length = 24 then hexValue s.data 0 else none

/-- The lowering of the ASCII letters, which is what `strings.ToLower` computes
on a text of ASCII characters (the Go function also lowers the other upper-case
letters of Unicode). It stands for `strings.ToLower` in the examples, whose
texts are ASCII. -/
def ToLower (s : String) : String :=
  String.mk (s.data.map Char.toLower)

/-- The pieces of a text between commas, `cur` being the piece read so far. -/
def splitAux : List Char → List Char → List String
  | [], cur => [String.mk cur]
  | c :: cs, cur => if c = ',' then String.mk cur :: splitAux cs [] else splitAux cs (cur ++ [c])

/-- `strings.Split(s, ",")`. -/
def Split (s : String) : List String :=
  splitAux s.data []

/-! ## `repository/repositoryV1.go`: the two lookups by query -/

/-- What a Go function that returns `(value, error)` does: it returns a value
with a nil error, returns an error with no value, or panics. -/
inductive Answer (α : Type)
  | value (a : α)
  | error (e : Error)
  | panic (msg : String)
deriving DecidableEq, Repr

/-- The struct `AirportQuery`. -/
structure AirportQuery where
  CountryID : String
  StateID : String
  CityID : String
  IataCode : String
deriving DecidableEq, Repr

/-- The struct `CityQuery`. -/
structure CityQuery where
  CountryID : String
  StateID : String
  IataCode : String
deriving DecidableEq, Repr

/-- The database of `MongoRepositoryV1`, as far as the two lookups read it: the
documents of the cities and of the airports collection, and what the backend
does to a `Find(...).All(...)` on each (`some e` makes it fail with `e`). -/
structure BackendV1 where
  cities : List City
  airports : List Airport
  citiesFault : Option MgoError
  airportsFault : Option MgoError

/-- One key of the `bson.M` query: no condition when the key is not set, and
the test of the document's field otherwise. -/
def holds {α : Type} (condition : Option α) (test : α → Bool) : Bool :=
  match condition with
  | none => true
  | some v => test v

/-- `FindCities`. The query has the key `country_id`, `state_id`, `iata_code`
for each field of `q` that is not empty; `bson.ObjectIdHex` panics on a text
that is not an id. `All` returns the matching documents, with no error when
there is none. -/
def FindCities (q : CityQuery) (db : BackendV1) : Answer (List City) :=
  if q.CountryID ≠ "" ∧ ObjectIdHex q.CountryID = none then .panic "invalid ObjectId"
  else if q.StateID ≠ "" ∧ ObjectIdHex q.StateID = none then .panic "invalid ObjectId"
  else
    let country_id := if q.CountryID ≠ "" then ObjectIdHex q.CountryID else none
    let state_id := if q.StateID ≠ "" then ObjectIdHex q.StateID else none
    let iata_code := if q.IataCode ≠ "" then some (Split q.IataCode) else none
    match db.citiesFault with
    | some .ErrNotFound => .error .ErrEntityNotFound
    | some err => .error (.wrap "failed to get cities %w" [] (.mgo err))
    | none =>
      .value (db.cities.filter (fun d =>
        holds country_id (fun id => d.CountryID == id) &&
        holds state_id (fun id => d.StateID == id) &&
        holds iata_code (fun codes => codes.contains d.IataCode)))

/-- `FindAirports`. As `FindCities`, with the key `city_id` too. The loop over
the airports found assigns to its own copy of each airport, and its
`FindCountryByID` is given a text that is never a valid id, so it reads
nothing: what is returned is what `All` found. -/
def FindAirports (q : AirportQuery) (db : BackendV1) : Answer (List Airport) :=
  if q.CountryID ≠ "" ∧ ObjectIdHex q.CountryID = none then .panic "invalid ObjectId"
  else if q.StateID ≠ "" ∧ ObjectIdHex q.StateID = none then .panic "invalid ObjectId"
  else if q.CityID ≠ "" ∧ ObjectIdHex q.CityID = none then .panic "invalid ObjectId"
  else
    let country_id := if q.CountryID ≠ "" then ObjectIdHex q.CountryID else none
    let state_id := if q.StateID ≠ "" then ObjectIdHex q.StateID else none
    let city_id := if q.CityID ≠ "" then ObjectIdHex q.CityID else none
    let iata_code := if q.IataCode ≠ "" then some (Split q.IataCode) else none
    match db.airportsFault with
    | some .ErrNotFound => .error .ErrEntityNotFound
    | some err => .error (.wrap "failed to get airports %w" [] (.mgo err))
    | none =>
      .value (db.airports.filter (fun d =>
        holds country_id (fun id => d.CountryID == id) &&
        holds state_id (fun id => d.StateID == id) &&
        holds city_id (fun id => d.CityID == id) &&
        holds iata_code (fun codes => codes.contains d.IataCode)))

/-! ## `service/geo.go`: entities by IATA code -/

def ErrorsMaxCount : Nat := 2

/-- `validateRequest`: the error returned, `none` for nil. -/
def validateRequest (iataCode language : String) : Option Error :=
  if iataCode = "" ∨ language = "" then some .ErrMissingParameters else none

/-- `findAirports`. The case tables of `strings.ToLower` are not part of the
program: `lower` stands for that function. -/
def findAirports (lower : String → String) (iataCode language : String) (db : BackendV1) :
    Answer (List Entity) :=
  let aq : AirportQuery := { CountryID := "", StateID := "", CityID := "", IataCode := iataCode }
  match FindAirports aq db with
  | .panic msg => .panic msg
  | .error err => .error (.wrap "error finding airport %w" [] err)
  | .value airports =>
    .value (airports.foldl (fun result airport => result ++
      [{ ID := airport.ID.Hex,
         IataCode := airport.IataCode,
         Name := mapIndex airport.Name (lower language),
         Typ := GeoEntityTypeAirport,
         CountryID := airport.CountryID.Hex }]) [])

/-- `findCities`, with `lower` for `strings.ToLower`. -/
def findCities (lower : String → String) (iataCode language : String) (db : BackendV1) :
    Answer (List Entity) :=
  let cq : CityQuery := { CountryID := "", StateID := "", IataCode := iataCode }
  match FindCities cq db with
  | .panic msg => .panic msg
  | .error err => .error (.wrap "error finding city %w" [] err)
  | .value cities =>
    .value (cities.foldl (fun result city => result ++
      [{ ID := city.ID.Hex,
         IataCode := city.IataCode,
         Name := mapIndex city.Name (lower language),
         Typ := GeoEntityTypeCity,
         CountryID := city.CountryID.Hex }]) [])

/-- The text `fmt.Errorf` makes of a format: each `%s` and `%w` is replaced by
the next argument. -/
def sprintf : List Char → List String → List Char
  | [], _ => []
  | [c], _ => [c]
  | c :: d :: rest, args =>
    if c = '%' ∧ (d = 's' ∨ d = 'w') then
      match args with
      | [] => c :: d :: sprintf rest []
      | a :: as => a.data ++ sprintf rest as
    else c :: sprintf (d :: rest) args

/-- The text an error value gives through its method `Error()`. -/
def Error.text : Error → String
  | .ErrEntityNotFound => "error entity not found"
  | .ErrMissingParameters => "error missing parameters"
  | .mgo .ErrNotFound => "not found"
  | .mgo (.fault msg) => msg
  | .errorf format args => String.mk (sprintf format.data args)
  | .wrap format args err => String.mk (sprintf format.data (args ++ [Error.text err]))

/-- A lookup the service makes on the repository. -/
inductive Lookup
  | FindCities (q : CityQuery)
  | FindAirports (q : AirportQuery)
deriving DecidableEq, Repr

/-- The variables the two goroutines of `GetEntitiesByIataCode` share, and the
lookups made so far. -/
structure Shared where
  result : List Entity
  errs : List String
  lookups : List Lookup
deriving DecidableEq, Repr

/-- Where one of the two goroutines stands. Its statement `x = append(x, ...)`
is a read of `x`, when `append` is evaluated, followed by a write of `x`. -/
inductive Goroutine
  /-- Started, the lookup not yet made. -/
  | start
  /-- The lookup has returned. -/
  | returned (r : Answer (List Entity))
  /-- `append(errs, err.Error())` is evaluated: `v` is to be assigned to `errs`. -/
  | assignErrs (v : List String)
  /-- `append(result, found...)` is evaluated: `v` is to be assigned to `result`. -/
  | assignResult (v : List Entity)
  /-- After `wg.Done()`. -/
  | done
  /-- Stopped by a panic. -/
  | panicked (msg : String)
deriving DecidableEq, Repr

/-- One step of a goroutine whose lookup is `lookup` and answers `find`. -/
def Goroutine.step (lookup : Lookup) (find : Answer (List Entity)) (g : Goroutine)
    (s : Shared) : Goroutine × Shared :=
  match g with
  | .start => (.returned find, { s with lookups := s.lookups ++ [lookup] })
  | .returned (.panic msg) => (.panicked msg, s)
  | .returned (.error err) => (.assignErrs (s.errs ++ [err.text]), s)
  | .returned (.value found) => (.assignResult (s.result ++ found), s)
  | .assignErrs v => (.done, { s with errs := v })
  | .assignResult v => (.done, { s with result := v })
  | .done => (.done, s)
  | .panicked msg => (.panicked msg, s)

/-- The two goroutines and what they share. -/
structure Fanout where
  city : Goroutine
  airport : Goroutine
  shared : Shared
deriving DecidableEq, Repr

/-- The goroutine of the cities takes a step. -/
def Fanout.stepCity (lower : String → String) (iataCode language : String) (db : BackendV1)
    (f : Fanout) : Fanout :=
  match Goroutine.step
    (.FindCities { CountryID := "", StateID := "", IataCode := iataCode })
    (findCities lower iataCode language db) f.city f.shared with
  | (g, s) => { f with city := g, shared := s }

/-- The goroutine of the airports takes a step. -/
def Fanout.stepAirport (lower : String → String) (iataCode language : String)
    (db : BackendV1) (f : Fanout) : Fanout :=
  match Goroutine.step
    (.FindAirports { CountryID := "", StateID := "", CityID := "", IataCode := iataCode })
    (findAirports lower iataCode language db) f.airport f.shared with
  | (g, s) => { f with airport := g, shared := s }

/-- The goroutines run as the schedule says: at each entry the goroutine of the
cities (`true`) or the one of the airports (`false`) takes its next step, if it
has one. -/
def Fanout.run (lower : String → String) (iataCode language : String) (db : BackendV1) :
    List Bool → Fanout → Fanout
  | [], f => f
  | true :: schedule, f =>
    Fanout.run lower iataCode language db schedule (f.stepCity lower iataCode language db)
  | false :: schedule, f =>
    Fanout.run lower iataCode language db schedule (f.stepAirport lower iataCode language db)

/-- `GetEntitiesByIataCode`: what is returned, and the lookups made. The two
goroutines interleave as `schedule` says; `wg.Wait()` then lets each of them
finish what it has left (three steps at most), the cities first. `lower` stands
for `strings.ToLower`. -/
def GetEntitiesByIataCode (lower : String → String) (iataCode language : String)
    (db : BackendV1) (schedule : List Bool) : Answer (List Entity) × List Lookup :=
  match validateRequest iataCode language with
  | some err => (.error err, [])
  | none =>
    let f := Fanout.run lower iataCode language db
      (schedule ++ [true, true, true, false, false, false])
      { city := .start, airport := .start, shared := { result := [], errs := [], lookups := [] } }
    match f.city, f.airport with
    | .panicked msg, _ => (.panic msg, f.shared.lookups)
    | _, .panicked msg => (.panic msg, f.shared.lookups)
    | _, _ =>
      if f.shared.errs.length = ErrorsMaxCount then (.error .ErrEntityNotFound, f.shared.lookups)
      else (.value f.shared.result, f.shared.lookups)

/-! ## A store with one city and one airport -/

/-- A store with the city London (`LON`) and the airport Heathrow (`LHR`, also
listed under `LON`), both with an English and a Spanish name, and a backend
that answers. -/
def sampleV1 : BackendV1 :=
  { cities :=
      [{ ID := 1, Name := [("en", "London"), ("es", "Londres")], IataCode := "LON",
         GeoID := "c1", CountryID := 7, StateID := 0 }],
    airports :=
      [{ ID := 2, Name := [("en", "Heathrow")], IataCode := "LON", CityID := 1,
         CountryID := 7, CountryCode := "GB", StateID := 0, EanID := 0 }],
    citiesFault := none,
    airportsFault := none }

/-- The same store when the backend fails both lookups. -/
def sampleV1Down : BackendV1 :=
  { sampleV1 with
    citiesFault := some (.fault "no reachable servers"),
    airportsFault := some (.fault "no reachable servers") }

/-- An answer that is an error. -/
def Answer.isError {α : Type} : Answer α → Bool
  | .error _ => true
  | _ => false

/-- Whether a goroutine has evaluated its `append`. -/
def Goroutine.hasRead : Goroutine → Bool
  | .assignErrs _ => true
  | .assignResult _ => true
  | .done => true
  | _ => false

/-- 1 for a goroutine whose lookup failed and that has evaluated
`append(errs, ...)`, 0 otherwise. -/
def errWeight (find : Answer (List Entity)) (g : Goroutine) : Nat :=
  if find.isError && g.hasRead then 1 else 0

/-- The goroutine stands where a goroutine whose lookup answers `find` can
stand. -/
def Goroutine.follows (find : Answer (List Entity)) : Goroutine → Prop
  | .start => True
  | .returned r => r = find
  | .assignErrs _ => find.isError = true
  | .assignResult _ => ∃ found, find = .value found
  | .done => ∀ msg, find ≠ .panic msg
  | .panicked msg => find = .panic msg

/-- A store whose only city, London, has its English name under the key `EN`. -/
def sampleV1UpperKey : BackendV1 :=
  { cities :=
      [{ ID := 1, Name := [("EN", "London")], IataCode := "LON",
         GeoID := "c1", CountryID := 7, StateID := 0 }],
    airports := [],
    citiesFault := none,
    airportsFault := none }

/-- What holds of the two goroutines at every moment of a run, the lookups
answering `fc` and `fa`: each stands where its lookup lets it stand, and `errs`,
as well as any value about to be assigned to `errs`, has at most as many
elements as there are goroutines whose lookup failed and that have evaluated
their `append`. -/
def ErrsBounded (fc fa : Answer (List Entity)) (f : Fanout) : Prop :=
  f.city.follows fc ∧ f.airport.follows fa ∧
  f.shared.errs.length ≤ errWeight fc f.city + errWeight fa f.airport ∧
  (∀ v, f.city = .assignErrs v → v.length ≤ errWeight fc f.city + errWeight fa f.airport) ∧
  (∀ v, f.airport = .assignErrs v → v.length ≤ errWeight fc f.city + errWeight fa f.airport)

/-- Where a goroutine whose lookup found no record can stand. -/
def Goroutine.foundNothing (g : Goroutine) : Prop :=
  g = .start ∨ g = .returned (.value []) ∨ g = .assignResult [] ∨ g = .done

/-- What holds at every moment of a run in which both lookups succeed with no
record: `result` and `errs` are empty. -/
def NothingFound (f : Fanout) : Prop :=
  f.shared.result = [] ∧ f.shared.errs = [] ∧ f.city.foundNothing ∧ f.airport.foundNothing

/-! ## `repository/repository.go`: regions in a radius -/

/-- `const earthRadius float64 = 6378.1`: the `float64` nearest to 6378.1, which
is 3506397556559053 / 2 ^ 39. -/
def earthRadius : Float64 := .finite 3506397556559053 (-39)

/-- The query `GetNearByRegions` builds. The division of two `float64` is not
computed here: `div` stands for it. -/
def GetNearByRegions.query (div : Float64 → Float64 → Float64)
    (latitude longitude radius : Float64) : NearbyQuery :=
  { center := [longitude, latitude], radius := div radius earthRadius }

/-- `GetNearByRegions`: the regions and the error returned, and the state after
the call. `div` is the division of `float64` and `centerSphere` the
`$geoWithin` predicate of the storage engine (stored geometry, query). The
parameter `regionTypes` is not used, and an error of `All` is answered with the
empty list and a nil error. -/
def GetNearByRegions (div : Float64 → Float64 → Float64)
    (centerSphere : Geometry → NearbyQuery → Bool)
    (latitude longitude : Float64) (regionTypes : List RegionType) (radius : Float64)
    (db : Backend) : List GeoRegion × Option Error × Backend :=
  let query := GetNearByRegions.query div latitude longitude radius
  match db.call (.findNearby query) with
  | (some _, db) => ([], none, db)
  | (none, db) => (db.geo.filter (fun d => centerSphere d.Geometry query), none, db)

/-! ## `errors.Is` -/

/-- `errors.Is(err, target)`: `err` is `target`, or wraps an error that is. -/
def Error.is : Error → Error → Bool
  | .wrap format args err, target =>
    (Error.wrap format args err == target) || Error.is err target
  | err, target => err == target

/-- The store of `sampleBackend` when the backend reports not-found on the first
call. -/
def sampleBackendNotFound : Backend :=
  { sampleBackend with faults := [some .ErrNotFound] }

/-- An engine for which every stored geometry is within every sphere. -/
def everywhere : Geometry → NearbyQuery → Bool :=
  fun _ _ => true

/-- An engine for which no stored geometry is within any sphere. -/
def nowhere : Geometry → NearbyQuery → Bool :=
  fun _ _ => false

/-- The store of `sampleBackend` with an engine for which no stored geometry
intersects any other, and a backend that refuses nothing. -/
def sampleBackendApart : Backend :=
  { sampleBackend with geoIntersects := fun _ _ => false, faults := [] }

/-- What the backend answers to the next call made on it: the head of the
script, nothing once the script is exhausted. -/
def Backend.verdict (db : Backend) : Option MgoError :=
  match db.faults with
  | [] => none
  | f :: _ => f

/-! ## `model/models.go`: `MapCoordinates` and the constructors -/

/-- `GeoRegion.MapCoordinates`: the region after the call, or the panic of a
failed type assertion. The typed field of the geometry's kind is assigned the
result of the kind's `encode*` function on the raw coordinates; nothing is
assigned for a kind outside the four. -/
def MapCoordinates (g : GeoRegion) : Except Failure GeoRegion :=
  if g.Geometry.Typ = GeometryPoint then
    (encodePoint (.slice g.Geometry.Coordinates)).map
      (fun v => { g with Geometry := { g.Geometry with Point := v } })
  else if g.Geometry.Typ = GeometryPolygon then
    (encodePolygon g.Geometry.Coordinates).map
      (fun v => { g with Geometry := { g.Geometry with Polygon := v } })
  else if g.Geometry.Typ = GeometryMultiPoint then
    (encodeMultiPoint g.Geometry.Coordinates).map
      (fun v => { g with Geometry := { g.Geometry with MultiPoint := v } })
  else if g.Geometry.Typ = GeometryMultiPolygon then
    (encodeMultiPolygon g.Geometry.Coordinates).map
      (fun v => { g with Geometry := { g.Geometry with MultiPolygon := v } })
  else pure g

/-- `NewMultiPointGeometry`: the fields not named in the literal have their zero
value. -/
def NewMultiPointGeometry (coordinate : List (List Float64)) : Geometry :=
  { Geometry.zero with Typ := GeometryMultiPoint, MultiPoint := coordinate }

/-- `NewPointGeometry`. -/
def NewPointGeometry (coordinate : List Value) : Geometry :=
  { Geometry.zero with Typ := GeometryPoint, Coordinates := coordinate }

/-- `NewMultiPolygonGeometry`: the variadic parameter is the slice of the polygons
given. -/
def NewMultiPolygonGeometry (polygons : List (List (List (List Float64)))) : Geometry :=
  { Geometry.zero with Typ := GeometryMultiPolygon, MultiPolygon := polygons }

/-- A geo document whose geometry has a kind outside the four. -/
def sampleLineRegion : GeoRegion :=
  { ID := 14, GeoID := "l1", Typ := "street",
    Geometry := { testPoint with Typ := "LineString" } }

/-- A geo document of kind Polygon with one ring of three positions, and a stale
value in the typed field `Point`. -/
def samplePolygonRegion : GeoRegion :=
  { ID := 15, GeoID := "p1", Typ := RegionTypeCity,
    Geometry :=
      { Geometry.zero with
        Typ := GeometryPolygon, Coordinates := trianglePolygon, Point := [.ofInt 7] } }

/-! ## `repository/repositoryV1.go`: accommodations -/

/-- The struct `Accommodation`. -/
structure Accommodation extends BaseEntity where
  CatalogID : String
  InternalID : String
  ProviderID : String
deriving DecidableEq, Repr

/-- The zero value of `Accommodation`. -/
def Accommodation.zero : Accommodation :=
  { ID := 0, Name := [], CatalogID := "", InternalID := "", ProviderID := "" }

/-- The struct `GeoEntity`. -/
structure GeoEntity where
  ID : ObjectId
  Typ : GeoEntityType
  Geometry : Geometry

/-- The accommodation collection of the V1 store: its documents, what the
backend answers to an `Insert` and to a `FindId` (`none` when it does what it is
asked), and the last object id handed out by `bson.NewObjectId`. -/
structure AccommodationsV1 where
  accommodations : List Accommodation
  insertFault : Option MgoError
  findFault : Option MgoError
  objectIds : Nat

/-- `fmt.Errorf(format, args..., err)` where the format ends in `%w` and `err`
may be nil. The result is never nil: with a nil `err` it is an error that wraps
nothing, whose text has `%!w(<nil>)` in the place of the verb. -/
def Errorf (format : String) (args : List String) (err : Option Error) : Error :=
  match err with
  | some e => .wrap format args e
  | none => .errorf format (args ++ ["%!w(<nil>)"])

/-- `insertEntity` on the accommodation collection: the error returned (`none`
for nil) and the store after the call. The result of `Insert` goes to
`fmt.Errorf` whether it is nil or not. -/
def insertEntity (entity : Accommodation) (db : AccommodationsV1) :
    Option Error × AccommodationsV1 :=
  match db.insertFault with
  | some err => (some (Errorf "error inserting entity %w" [] (some (.mgo err))), db)
  | none =>
    (some (Errorf "error inserting entity %w" [] none),
      { db with accommodations := db.accommodations ++ [entity] })

/-- `InsertAccommodationV1`: what is returned, the id (`*string`) or the error,
and the store after the call. `bson.ObjectIdHex(id)` is applied to the spelling
`Hex()` has just made of the new object id, and gives that id back. -/
def InsertAccommodationV1 (accommodation : Accommodation) (db : AccommodationsV1) :
    Answer String × AccommodationsV1 :=
  let oid : ObjectId := db.objectIds + 1
  let db := { db with objectIds := oid }
  let id := oid.Hex
  let accommodation := { accommodation with ID := oid }
  match insertEntity accommodation db with
  | (some err, db) =>
    if err.is (.mgo .ErrNotFound) then (.error .ErrEntityNotFound, db)
    else (.error (.wrap "error saving accommodation %w" [] err), db)
  | (none, db) => (.value id, db)

/-- `bson.IsObjectIdHex`. -/
def IsObjectIdHex (s : String) : Bool :=
  (ObjectIdHex s).isSome

/-- `validateObjectID`. -/
def validateObjectID (id : String) : Option Error :=
  if !IsObjectIdHex id then some (.errorf "ID[%s] is invalid" [id]) else none

/-- `findEntityByID` on the accommodation collection: the error returned and the
content of `*target` after the call. `One` reports `mgo.ErrNotFound` when no
document has the id. -/
def findEntityByID (id : String) (target : Accommodation) (db : AccommodationsV1) :
    Option Error × Accommodation :=
  match validateObjectID id with
  | some _ => (some (.errorf "id is not in the correct format" []), target)
  | none =>
    match db.findFault with
    | some .ErrNotFound => (some .ErrEntityNotFound, target)
    | some err => (some (.wrap "failed to get entity %w" [] (.mgo err)), target)
    | none =>
      match db.accommodations.find? (fun d => some d.ID == ObjectIdHex id) with
      | none => (some .ErrEntityNotFound, target)
      | some doc => (none, doc)

/-- `FindAccommodationByID`: the pointer and the error returned, `none` for
nil. -/
def FindAccommodationByID (id : String) (db : AccommodationsV1) :
    Option Accommodation × Option Error :=
  match findEntityByID id Accommodation.zero db with
  | (some err, _) =>
    if err.is (.mgo .ErrNotFound) then (none, some .ErrEntityNotFound)
    else (none, some (.wrap "error finding accommodation %w" [] err))
  | (none, accommodation) => (some accommodation, none)

/-! ## `service/geo.go`: geo entities to accommodations -/

/-- `MapGeoEntityToAccommodation`: the pointer and the error returned, `none`
for nil. The error of the lookup goes to `fmt.Errorf` whether it is nil or
not. -/
def MapGeoEntityToAccommodation (geoEntity : GeoEntity) (db : AccommodationsV1) :
    Option Accommodation × Option Error :=
  if geoEntity.Typ = GeoEntityTypeAccommodation then
    match FindAccommodationByID geoEntity.ID.Hex db with
    | (accommodation, err) =>
      (accommodation, some (Errorf "error mapping geo entity, %w" [] err))
  else
    (none, some (.errorf "geo entity %s must be accommodation type" [geoEntity.Typ]))

/-- `m[key] = value` on a map kept as a list of entries with distinct keys. -/
def mapAssign {α : Type} (m : List (String × α)) (key : String) (value : α) :
    List (String × α) :=
  if m.any (fun e => e.1 == key) then
    m.map (fun e => if e.1 == key then (key, value) else e)
  else m ++ [(key, value)]

/-- `MapGeoEntitiesToAccommodation`: the map returned, whose values are
pointers. -/
def MapGeoEntitiesToAccommodation (geoEntities : List GeoEntity) (db : AccommodationsV1) :
    List (String × Option Accommodation) :=
  geoEntities.foldl (fun result geoEntity =>
    match MapGeoEntityToAccommodation geoEntity db with
    | (entity, none) => mapAssign result geoEntity.ID.Hex entity
    | (_, some _) => result) []

/-- A store with one accommodation, whose id is 26 (`1a` in hexadecimal), and a
backend that does what it is asked. -/
def sampleAccommodationsV1 : AccommodationsV1 :=
  { accommodations :=
      [{ ID := 26, Name := [("en", "Grand Hotel")], CatalogID := "c1", InternalID := "i1",
         ProviderID := "p1" }],
    insertFault := none,
    findFault := none,
    objectIds := 26 }

/-- An accommodation to insert, with no id yet. -/
def newAccommodationV1 : Accommodation :=
  { ID := 0, Name := [("en", "Sea View")], CatalogID := "c2", InternalID := "i2",
    ProviderID := "p2" }

/-- The geo entity of the accommodation with id 26. -/
def sampleGeoEntity : GeoEntity :=
  { ID := 26, Typ := GeoEntityTypeAccommodation, Geometry := testPoint }

/-! ## `server/handlers.go`: the two spatial handlers -/

/-- A run-time panic of a handler: an index `index` used on a slice of length
`length`. -/
inductive Panic
  | indexOutOfRange (index length : Nat)
deriving DecidableEq, Repr

/-- What a handler answers with: `api.ErrJSON(status, err, nil)` or
`api.DataJSON(status, data, nil)` with a list of geo regions as data. -/
inductive Response
  | ErrJSON (status : Nat) (err : Error)
  | DataJSON (status : Nat) (data : List GeoRegion)

def StatusOK : Nat := 200
def StatusBadRequest : Nat := 400
def StatusInternalServerError : Nat := 500

/-- The assignment `s[i] = v`: the slice after it, or the panic when `i` is not
below the length of `s`. -/
def assignIndex {α : Type} (s : List α) (i : Nat) (v : α) : Except Panic (List α) :=
  if i < s.length then .ok (s.set i v) else .error (.indexOutOfRange i s.length)

/-- The loop `for i, e := range parts { rts[i] = model.RegionType(e) }`, from the
index `i` on. -/
def rangeAssign : List String → Nat → List RegionType → Except Panic (List RegionType)
  | [], _, rts => .ok rts
  | e :: es, i, rts =>
    match assignIndex rts i e with
    | .error p => .error p
    | .ok rts => rangeAssign es (i + 1) rts

/-- The conversion both handlers make of a comma-separated list: the slice is
made with length 0 (and the capacity given, which no index reads), and the
pieces are assigned by index. -/
def convertTypes (list : String) : Except Panic (List RegionType) :=
  rangeAssign (Split list) 0 []

/-- `getNearbyRegions`: the response or the panic, and the state of the store
after it. The three numbers are what `strconv.ParseFloat` returned for the
parameters `longitude`, `latitude` and `radius`, whose errors are dropped;
`types` is the parameter `types`. -/
def getNearbyRegions (div : Float64 → Float64 → Float64)
    (centerSphere : Geometry → NearbyQuery → Bool)
    (longitude latitude radius : Float64) (types : String) (db : Backend) :
    Except Panic Response × Backend :=
  match convertTypes types with
  | .error p => (.error p, db)
  | .ok regionTypes =>
    match GetNearByRegions div centerSphere latitude longitude regionTypes radius db with
    | (_, some err, db) => (.ok (.ErrJSON StatusInternalServerError err), db)
    | (regions, none, db) => (.ok (.DataJSON StatusOK regions), db)

/-- `getIntersections`: the response or the panic, and the state of the store
after it. `latitude` and `longitude` are what `strconv.ParseFloat` returned for
the two parameters, a number or an error; `regionTypes` is the parameter
`region_types`. -/
def getIntersections (latitude longitude : Except Error Float64) (regionTypes : String)
    (db : Backend) : Except Panic Response × Backend :=
  match latitude with
  | .error err => (.ok (.ErrJSON StatusBadRequest err), db)
  | .ok latitude =>
    match longitude with
    | .error err => (.ok (.ErrJSON StatusBadRequest err), db)
    | .ok longitude =>
      match (if regionTypes.length > 0 then convertTypes regionTypes else .ok []) with
      | .error p => (.error p, db)
      | .ok rts =>
        match GetIntersectedRegions
            (NewPointGeometry [.float64 longitude, .float64 latitude]) rts [] db with
        | (some err, _, db) =>
          if err.is .ErrEntityNotFound then (.ok (.ErrJSON StatusBadRequest err), db)
          else (.ok (.ErrJSON StatusInternalServerError err), db)
        | (none, regions, db) => (.ok (.DataJSON StatusOK regions), db)

/-! ## Lemmas on the loops and the codec -/

theorem rangeAppend_ok_iff {α β : Type} (f : α → Except Failure β) (xs : List α)
    (acc out : List β) :
    rangeAppend f xs acc = .ok out ↔
      ∃ ys, List.Forall₂ (fun x y => f x = .ok y) xs ys ∧ out = acc ++ ys := by
  induction xs generalizing acc with
  | nil =>
    simp only [rangeAppend, Except.ok.injEq, List.forall₂_nil_left_iff]
    constructor
    · intro h; exact ⟨[], rfl, by simp [h]⟩
    · rintro ⟨ys, rfl, h⟩; simp [h]
  | cons x xs ih =>
    cases hx : f x with
    | error e =>
      simp only [rangeAppend, hx]
      constructor
      · intro h; cases h
      · rintro ⟨ys, h, _⟩
        cases h with
        | cons h1 _ => rw [hx] at h1; cases h1
    | ok y =>
      simp only [rangeAppend, hx, ih]
      constructor
      · rintro ⟨ys, h, rfl⟩
        exact ⟨y :: ys, List.Forall₂.cons hx h, by simp⟩
      · rintro ⟨ys, h, rfl⟩
        cases h with
        | cons h1 h2 =>
          rw [hx] at h1
          cases h1
          exact ⟨_, h2, by simp⟩

theorem rangeAppend_error_iff {α β : Type} (f : α → Except Failure β) (xs : List α)
    (acc : List β) :
    (∃ e, rangeAppend f xs acc = .error e) ↔ ∃ x ∈ xs, ∃ e, f x = .error e := by
  induction xs generalizing acc with
  | nil => simp [rangeAppend]
  | cons x xs ih =>
    cases hx : f x with
    | error e => simp [rangeAppend, hx]
    | ok y => simp [rangeAppend, hx, ih]

theorem rangeAppend_isOk {α β : Type} (f : α → Except Failure β) (P : α → Bool)
    (h : ∀ x, (∃ y, f x = .ok y) ↔ P x = true) (xs : List α) :
    (∃ ys, rangeAppend f xs [] = .ok ys) ↔ xs.all P = true := by
  constructor
  · rintro ⟨ys, hys⟩
    obtain ⟨zs, hz, -⟩ := (rangeAppend_ok_iff f xs [] ys).1 hys
    clear hys
    rw [List.all_eq_true]
    intro x hx
    induction hz with
    | nil => cases hx
    | cons h1 _ ih =>
      rcases List.mem_cons.1 hx with rfl | hx
      · exact (h _).1 ⟨_, h1⟩
      · exact ih hx
  · intro hall
    rw [List.all_eq_true] at hall
    have : ∃ ys, List.Forall₂ (fun x y => f x = .ok y) xs ys := by
      induction xs with
      | nil => exact ⟨[], List.Forall₂.nil⟩
      | cons x xs ih =>
        obtain ⟨y, hy⟩ := (h x).2 (hall x (List.mem_cons_self _ _))
        obtain ⟨ys, hys⟩ := ih (fun z hz => hall z (List.mem_cons_of_mem _ hz))
        exact ⟨y :: ys, List.Forall₂.cons hy hys⟩
    obtain ⟨ys, hys⟩ := this
    exact ⟨ys, (rangeAppend_ok_iff f xs [] ys).2 ⟨ys, hys, rfl⟩⟩

theorem bind_assertSlice_isOk {β : Type} (f : List Value → Except Failure β) (v : Value) :
    (∃ y, (assertSlice v >>= f) = .ok y) ↔ ∃ xs, v = .slice xs ∧ ∃ y, f xs = .ok y := by
  cases v <;> simp [assertSlice, bind, Except.bind]

theorem assertFloat64_isOk (v : Value) :
    (∃ x, assertFloat64 v = .ok x) ↔ conforms (fun _ => true) 0 v = true := by
  cases v <;> simp [assertFloat64, conforms]

theorem encodePoint_isOk (v : Value) :
    (∃ pt, encodePoint v = .ok pt) ↔ conforms (fun _ => true) 1 v = true := by
  unfold encodePoint
  rw [bind_assertSlice_isOk]
  cases v <;> simp [conforms, rangeAppend_isOk _ _ assertFloat64_isOk]

theorem encodeMultiPoint_isOk (co : List Value) :
    (∃ pts, encodeMultiPoint co = .ok pts) ↔ conforms (fun _ => true) 2 (.slice co) = true := by
  unfold encodeMultiPoint
  rw [rangeAppend_isOk _ _ encodePoint_isOk]
  simp [conforms]

theorem sliceMultiPoint_isOk (v : Value) :
    (∃ pts, (assertSlice v >>= encodeMultiPoint) = .ok pts) ↔
      conforms (fun _ => true) 2 v = true := by
  rw [bind_assertSlice_isOk]
  cases v <;> simp [conforms, encodeMultiPoint_isOk]

theorem encodePolygon_isOk (co : List Value) :
    (∃ rings, encodePolygon co = .ok rings) ↔
      conforms (fun _ => true) 3 (.slice co) = true := by
  unfold encodePolygon
  rw [rangeAppend_isOk _ _ sliceMultiPoint_isOk]
  simp [conforms]

theorem slicePolygon_isOk (v : Value) :
    (∃ rings, (assertSlice v >>= encodePolygon) = .ok rings) ↔
      conforms (fun _ => true) 3 v = true := by
  rw [bind_assertSlice_isOk]
  cases v <;> simp [conforms, encodePolygon_isOk]

theorem encodeMultiPolygon_isOk (co : List Value) :
    (∃ polys, encodeMultiPolygon co = .ok polys) ↔
      conforms (fun _ => true) 4 (.slice co) = true := by
  unfold encodeMultiPolygon
  rw [rangeAppend_isOk _ _ slicePolygon_isOk]
  simp [conforms]

theorem except_error_iff_not_ok {ε β : Type} (r : Except ε β) :
    (∃ e, r = .error e) ↔ ¬ ∃ y, r = .ok y := by
  cases r <;> simp

/-- A payload accepted with a finiteness test on the leaves is accepted without it. -/
theorem conforms_mono (leaf : Float64 → Bool) :
    ∀ (d : Nat) (v : Value), conforms leaf d v = true → conforms (fun _ => true) d v = true := by
  intro d
  induction d with
  | zero => intro v h; cases v <;> simp_all [conforms]
  | succ d ih =>
    intro v h
    cases v <;> simp_all [conforms]

theorem agree_lift {β : Type} (f : Value → Except Failure β) (w : β → Except Failure JSON)
    (co : List Value) (h : ∀ c ∈ co, Agree f w c) :
    ∃ ps js, rangeAppend f co [] = .ok ps ∧ rangeAppend w ps [] = .ok js ∧
      marshalValues co = .ok js ∧ List.Forall₂ (fun c p => f c = .ok p) co ps := by
  induction co with
  | nil => exact ⟨[], [], rfl, rfl, rfl, List.Forall₂.nil⟩
  | cons c co ih =>
    obtain ⟨p, j, hp, hj, hv⟩ := h c (List.mem_cons_self _ _)
    obtain ⟨ps, js, h1, h2, h3, h4⟩ := ih (fun z hz => h z (List.mem_cons_of_mem _ hz))
    refine ⟨p :: ps, j :: js, ?_, ?_, ?_, List.Forall₂.cons hp h4⟩
    · exact (rangeAppend_ok_iff f _ [] _).2 ⟨_, List.Forall₂.cons hp h4, rfl⟩
    · obtain ⟨ys, hys, rfl⟩ := (rangeAppend_ok_iff w ps [] js).1 h2
      exact (rangeAppend_ok_iff w _ [] _).2 ⟨_, List.Forall₂.cons hj hys, rfl⟩
    · simp [marshalValues, hv, h3]

theorem agree_float64 (v : Value) (h : conforms Float64.isFinite 0 v = true) :
    Agree assertFloat64 marshalFloat64 v := by
  cases v <;> simp_all [conforms, Agree, assertFloat64, marshalValue, marshalFloat64]

theorem agree_slice {β : Type} (f : Value → Except Failure β) (w : β → Except Failure JSON)
    (g : List Value → Except Failure (List β)) (wl : List β → Except Failure JSON)
    (hg : ∀ co, g co = rangeAppend f co [])
    (hw : ∀ ps, wl ps = match rangeAppend w ps [] with
      | .ok js => .ok (.arr js)
      | .error e => .error e)
    (xs : List Value) (h : ∀ c ∈ xs, Agree f w c) :
    Agree (fun c => assertSlice c >>= g) wl (.slice xs) := by
  obtain ⟨ps, js, h1, h2, h3, -⟩ := agree_lift f w xs h
  refine ⟨ps, .arr js, ?_, ?_, ?_⟩
  · simp [assertSlice, bind, Except.bind, hg, h1]
  · rw [hw, h2]
  · simp [marshalValue, h3]

theorem conforms_slice_elim (leaf : Float64 → Bool) (d : Nat) (v : Value)
    (h : conforms leaf (d + 1) v = true) :
    ∃ xs, v = .slice xs ∧ ∀ c ∈ xs, conforms leaf d c = true := by
  cases v <;> simp_all [conforms]

theorem agree_point (v : Value) (h : conforms Float64.isFinite 1 v = true) :
    Agree encodePoint marshalPoint v := by
  obtain ⟨xs, rfl, hxs⟩ := conforms_slice_elim _ _ _ h
  exact agree_slice assertFloat64 marshalFloat64 (fun xs => rangeAppend assertFloat64 xs [])
    marshalPoint (fun _ => rfl) (fun _ => rfl) xs (fun c hc => agree_float64 c (hxs c hc))

theorem agree_multiPoint (v : Value) (h : conforms Float64.isFinite 2 v = true) :
    Agree (fun c => assertSlice c >>= encodeMultiPoint) marshalMultiPoint v := by
  obtain ⟨xs, rfl, hxs⟩ := conforms_slice_elim _ _ _ h
  exact agree_slice encodePoint marshalPoint encodeMultiPoint
    marshalMultiPoint (fun _ => rfl) (fun _ => rfl) xs (fun c hc => agree_point c (hxs c hc))

theorem agree_polygon (v : Value) (h : conforms Float64.isFinite 3 v = true) :
    Agree (fun c => assertSlice c >>= encodePolygon) marshalPolygon v := by
  obtain ⟨xs, rfl, hxs⟩ := conforms_slice_elim _ _ _ h
  exact agree_slice (fun c => assertSlice c >>= encodeMultiPoint) marshalMultiPoint encodePolygon
    marshalPolygon (fun _ => rfl) (fun _ => rfl) xs (fun c hc => agree_multiPoint c (hxs c hc))

theorem agree_multiPolygon (v : Value) (h : conforms Float64.isFinite 4 v = true) :
    Agree (fun c => assertSlice c >>= encodeMultiPolygon) marshalMultiPolygon v := by
  obtain ⟨xs, rfl, hxs⟩ := conforms_slice_elim _ _ _ h
  exact agree_slice (fun c => assertSlice c >>= encodePolygon) marshalPolygon encodeMultiPolygon
    marshalMultiPolygon (fun _ => rfl) (fun _ => rfl) xs (fun c hc => agree_polygon c (hxs c hc))

/-- Reading back what `json.Marshal` wrote for a value gives the value. -/
theorem unmarshal_marshalValue (v : Value) :
    ∀ j, marshalValue v = .ok j → unmarshalValue j = v := by
  refine Value.rec
    (motive_1 := fun v => ∀ j, marshalValue v = .ok j → unmarshalValue j = v)
    (motive_2 := fun vs => ∀ js, marshalValues vs = .ok js → unmarshalValues js = vs)
    (motive_3 := fun kvs => ∀ js, marshalMembers kvs = .ok js → unmarshalMembers js = kvs)
    (motive_4 := fun kv => ∀ j, marshalValue kv.2 = .ok j → unmarshalValue j = kv.2)
    ?_ ?_ ?_ ?_ ?_ ?_ ?_ ?_ ?_ ?_ ?_ v
  · intro j h; simp [marshalValue] at h; subst h; rfl
  · intro b j h; simp [marshalValue] at h; subst h; rfl
  · intro x j h
    simp only [marshalValue, marshalFloat64] at h
    split at h
    · cases h; rfl
    · cases h
  · intro s j h; simp [marshalValue] at h; subst h; rfl
  · intro xs ih j h
    simp only [marshalValue] at h
    split at h
    · rename_i js hjs
      cases h
      simp [unmarshalValue, ih js hjs]
    · cases h
  · intro kvs ih j h
    simp only [marshalValue] at h
    split at h
    · rename_i js hjs
      cases h
      simp [unmarshalValue, ih js hjs]
    · cases h
  · intro js h; simp [marshalValues] at h; subst h; rfl
  · intro v vs ihv ihs js h
    simp only [marshalValues] at h
    split at h
    · cases h
    · rename_i j hj
      split at h
      · rename_i js2 hjs
        cases h
        simp [unmarshalValues, ihv j hj, ihs js2 hjs]
      · cases h
  · intro js h; simp [marshalMembers] at h; subst h; rfl
  · intro kv kvs ihv ihs js h
    obtain ⟨k, v⟩ := kv
    simp only [marshalMembers] at h
    split at h
    · cases h
    · rename_i j hj
      split at h
      · rename_i js2 hjs
        cases h
        simp [unmarshalMembers, ihv j hj, ihs js2 hjs]
      · cases h
  · intro k v ih
    exact ih

theorem rangeAppend_length {α β : Type} (f : α → Except Failure β) (xs : List α)
    (ys : List β) (h : rangeAppend f xs [] = .ok ys) : ys.length = xs.length := by
  obtain ⟨zs, hz, rfl⟩ := (rangeAppend_ok_iff f xs [] ys).1 h
  simpa using hz.length_eq.symm

theorem rangeAppend_forall₂ {α β : Type} (f : α → Except Failure β) (xs : List α)
    (ys : List β) (h : rangeAppend f xs [] = .ok ys) :
    List.Forall₂ (fun x y => f x = .ok y) xs ys := by
  obtain ⟨zs, hz, rfl⟩ := (rangeAppend_ok_iff f xs [] ys).1 h
  simpa using hz

theorem kinds_distinct :
    GeometryPolygon ≠ GeometryPoint ∧ GeometryMultiPoint ≠ GeometryPoint ∧
    GeometryMultiPoint ≠ GeometryPolygon ∧ GeometryMultiPolygon ≠ GeometryPoint ∧
    GeometryMultiPolygon ≠ GeometryPolygon ∧ GeometryMultiPolygon ≠ GeometryMultiPoint := by
  decide

/-- What `MarshalJSON` writes for a Point once the typed coordinates are known. -/
theorem MarshalJSON_point (g : Geometry) (h : g.Typ = GeometryPoint) :
    MarshalJSON g = (encodePoint (.slice g.Coordinates) >>= fun pt => do
      let f3 ← omitempty "point" marshalPoint pt
      let f5 ← omitempty "coordinates" (fun v => marshalValue (.slice v)) g.Coordinates
      pure (("type", JSON.str g.Typ) :: (f3 ++ f5))) := by
  simp only [MarshalJSON, h, if_true]
  cases encodePoint (.slice g.Coordinates) <;>
    simp [jsonMarshal, omitempty, Except.map, bind, Except.bind, pure, Except.pure]

theorem MarshalJSON_polygon (g : Geometry) (h : g.Typ = GeometryPolygon) :
    MarshalJSON g = (encodePolygon g.Coordinates >>= fun v => do
      let f2 ← omitempty "polygon" marshalPolygon v
      let f5 ← omitempty "coordinates" (fun v => marshalValue (.slice v)) g.Coordinates
      pure (("type", JSON.str g.Typ) :: (f2 ++ f5))) := by
  simp only [MarshalJSON, h, kinds_distinct.1, if_true, if_false]
  cases encodePolygon g.Coordinates <;>
    simp [jsonMarshal, omitempty, Except.map, bind, Except.bind, pure, Except.pure]

theorem MarshalJSON_multiPoint (g : Geometry) (h : g.Typ = GeometryMultiPoint) :
    MarshalJSON g = (encodeMultiPoint g.Coordinates >>= fun v => do
      let f4 ← omitempty "multipoint" marshalMultiPoint v
      let f5 ← omitempty "coordinates" (fun v => marshalValue (.slice v)) g.Coordinates
      pure (("type", JSON.str g.Typ) :: (f4 ++ f5))) := by
  simp only [MarshalJSON, h, kinds_distinct.2.1, kinds_distinct.2.2.1, if_true, if_false]
  cases encodeMultiPoint g.Coordinates <;>
    simp [jsonMarshal, omitempty, Except.map, bind, Except.bind, pure, Except.pure]

theorem MarshalJSON_multiPolygon (g : Geometry) (h : g.Typ = GeometryMultiPolygon) :
    MarshalJSON g = (encodeMultiPolygon g.Coordinates >>= fun v => do
      let f1 ← omitempty "multipolygon" marshalMultiPolygon v
      let f5 ← omitempty "coordinates" (fun v => marshalValue (.slice v)) g.Coordinates
      pure (("type", JSON.str g.Typ) :: (f1 ++ f5))) := by
  simp only [MarshalJSON, h, kinds_distinct.2.2.2.1, kinds_distinct.2.2.2.2.1,
    kinds_distinct.2.2.2.2.2, if_true, if_false]
  cases encodeMultiPolygon g.Coordinates <;>
    simp [jsonMarshal, omitempty, Except.map, bind, Except.bind, pure, Except.pure]

theorem MarshalJSON_other (g : Geometry) (h1 : g.Typ ≠ GeometryPoint)
    (h2 : g.Typ ≠ GeometryPolygon) (h3 : g.Typ ≠ GeometryMultiPoint)
    (h4 : g.Typ ≠ GeometryMultiPolygon) :
    MarshalJSON g = (do
      let f5 ← omitempty "coordinates" (fun v => marshalValue (.slice v)) g.Coordinates
      pure (("type", JSON.str g.Typ) :: f5)) := by
  simp [MarshalJSON, h1, h2, h3, h4, jsonMarshal, omitempty, bind, Except.bind, pure,
    Except.pure]

theorem omitempty_nonempty {α : Type} (name : String) (w : List α → Except Failure JSON)
    (v : List α) (j : JSON) (hne : v ≠ []) (hw : w v = .ok j) :
    omitempty name w v = .ok [(name, j)] := by
  cases v with
  | nil => exact absurd rfl hne
  | cons a v => simp [omitempty, hw]

theorem omitempty_ok {α : Type} (name : String) (w : List α → Except Failure JSON)
    (v : List α) (fs : List (String × JSON)) (h : omitempty name w v = .ok fs) :
    (v = [] ∧ fs = []) ∨ (v ≠ [] ∧ ∃ j, w v = .ok j ∧ fs = [(name, j)]) := by
  cases v with
  | nil => left; simp [omitempty] at h; exact ⟨rfl, h⟩
  | cons a v =>
    right
    refine ⟨List.cons_ne_nil _ _, ?_⟩
    simp only [omitempty, List.isEmpty_cons, Bool.false_eq_true, if_false] at h
    split at h
    · rename_i j hj
      cases h
      exact ⟨j, hj, rfl⟩
    · cases h

theorem ne_nil_of_length_eq {α β : Type} (xs : List α) (ys : List β)
    (h : ys.length = xs.length) (hne : xs ≠ []) : ys ≠ [] := by
  intro hy
  subst hy
  cases xs with
  | nil => exact hne rfl
  | cons a xs => simp at h

theorem wellFormed_kind (k : GeometryType) (co : List Value) (h : WellFormed k co = true) :
    k = GeometryPoint ∨ k = GeometryPolygon ∨ k = GeometryMultiPoint ∨
      k = GeometryMultiPolygon := by
  unfold WellFormed expectedDepth at h
  by_cases h1 : k = GeometryPoint
  · exact Or.inl h1
  by_cases h2 : k = GeometryPolygon
  · exact Or.inr (Or.inl h2)
  by_cases h3 : k = GeometryMultiPoint
  · exact Or.inr (Or.inr (Or.inl h3))
  by_cases h4 : k = GeometryMultiPolygon
  · exact Or.inr (Or.inr (Or.inr h4))
  simp [h1, h2, h3, h4, conforms] at h

theorem expectedDepth_point : expectedDepth GeometryPoint = 1 := by decide
theorem expectedDepth_polygon : expectedDepth GeometryPolygon = 3 := by decide
theorem expectedDepth_multiPoint : expectedDepth GeometryMultiPoint = 2 := by decide
theorem expectedDepth_multiPolygon : expectedDepth GeometryMultiPolygon = 4 := by decide

/-- The whole object written for a well-formed, non-empty Point. -/
theorem MarshalJSON_point_wf (g : Geometry) (h : g.Typ = GeometryPoint)
    (hne : g.Coordinates ≠ []) (hwf : WellFormed g.Typ g.Coordinates = true) :
    ∃ pt j, encodePoint (.slice g.Coordinates) = .ok pt ∧ marshalPoint pt = .ok j ∧
      marshalValue (.slice g.Coordinates) = .ok j ∧
      MarshalJSON g = .ok [("type", .str g.Typ), ("point", j), ("coordinates", j)] := by
  rw [WellFormed, h, expectedDepth_point] at hwf
  obtain ⟨pt, j, h1, h2, h3⟩ := agree_point _ hwf
  refine ⟨pt, j, h1, h2, h3, ?_⟩
  have hlen : pt ≠ [] := by
    have h1' := h1
    simp only [encodePoint, assertSlice, bind, Except.bind] at h1'
    exact ne_nil_of_length_eq _ _ (rangeAppend_length _ _ _ h1') hne
  rw [MarshalJSON_point g h, h1]
  simp [bind, Except.bind, omitempty_nonempty "point" marshalPoint pt j hlen h2,
    omitempty_nonempty "coordinates" (fun v => marshalValue (.slice v)) g.Coordinates j hne h3,
    pure, Except.pure]

theorem MarshalJSON_multiPoint_wf (g : Geometry) (h : g.Typ = GeometryMultiPoint)
    (hne : g.Coordinates ≠ []) (hwf : WellFormed g.Typ g.Coordinates = true) :
    ∃ pts j, encodeMultiPoint g.Coordinates = .ok pts ∧ marshalMultiPoint pts = .ok j ∧
      marshalValue (.slice g.Coordinates) = .ok j ∧
      MarshalJSON g = .ok [("type", .str g.Typ), ("multipoint", j), ("coordinates", j)] := by
  rw [WellFormed, h, expectedDepth_multiPoint] at hwf
  obtain ⟨pt, j, h1, h2, h3⟩ := agree_multiPoint _ hwf
  simp only [assertSlice, bind, Except.bind] at h1
  refine ⟨pt, j, h1, h2, h3, ?_⟩
  have hlen : pt ≠ [] := ne_nil_of_length_eq _ _ (rangeAppend_length _ _ _ h1) hne
  rw [MarshalJSON_multiPoint g h, h1]
  simp [bind, Except.bind, omitempty_nonempty "multipoint" marshalMultiPoint pt j hlen h2,
    omitempty_nonempty "coordinates" (fun v => marshalValue (.slice v)) g.Coordinates j hne h3,
    pure, Except.pure]

theorem MarshalJSON_polygon_wf (g : Geometry) (h : g.Typ = GeometryPolygon)
    (hne : g.Coordinates ≠ []) (hwf : WellFormed g.Typ g.Coordinates = true) :
    ∃ rings j, encodePolygon g.Coordinates = .ok rings ∧ marshalPolygon rings = .ok j ∧
      marshalValue (.slice g.Coordinates) = .ok j ∧
      MarshalJSON g = .ok [("type", .str g.Typ), ("polygon", j), ("coordinates", j)] := by
  rw [WellFormed, h, expectedDepth_polygon] at hwf
  obtain ⟨pt, j, h1, h2, h3⟩ := agree_polygon _ hwf
  simp only [assertSlice, bind, Except.bind] at h1
  refine ⟨pt, j, h1, h2, h3, ?_⟩
  have hlen : pt ≠ [] := ne_nil_of_length_eq _ _ (rangeAppend_length _ _ _ h1) hne
  rw [MarshalJSON_polygon g h, h1]
  simp [bind, Except.bind, omitempty_nonempty "polygon" marshalPolygon pt j hlen h2,
    omitempty_nonempty "coordinates" (fun v => marshalValue (.slice v)) g.Coordinates j hne h3,
    pure, Except.pure]

theorem MarshalJSON_multiPolygon_wf (g : Geometry) (h : g.Typ = GeometryMultiPolygon)
    (hne : g.Coordinates ≠ []) (hwf : WellFormed g.Typ g.Coordinates = true) :
    ∃ polys j, encodeMultiPolygon g.Coordinates = .ok polys ∧
      marshalMultiPolygon polys = .ok j ∧
      marshalValue (.slice g.Coordinates) = .ok j ∧
      MarshalJSON g = .ok [("type", .str g.Typ), ("multipolygon", j), ("coordinates", j)] := by
  rw [WellFormed, h, expectedDepth_multiPolygon] at hwf
  obtain ⟨pt, j, h1, h2, h3⟩ := agree_multiPolygon _ hwf
  simp only [assertSlice, bind, Except.bind] at h1
  refine ⟨pt, j, h1, h2, h3, ?_⟩
  have hlen : pt ≠ [] := ne_nil_of_length_eq _ _ (rangeAppend_length _ _ _ h1) hne
  rw [MarshalJSON_multiPolygon g h, h1]
  simp [bind, Except.bind, omitempty_nonempty "multipolygon" marshalMultiPolygon pt j hlen h2,
    omitempty_nonempty "coordinates" (fun v => marshalValue (.slice v)) g.Coordinates j hne h3,
    pure, Except.pure]

theorem except_bind_ok {ε α β : Type} (r : Except ε α) (f : α → Except ε β) (b : β)
    (h : (r >>= f) = .ok b) : ∃ a, r = .ok a ∧ f a = .ok b := by
  cases r with
  | error e => cases h
  | ok a => exact ⟨a, rfl, h⟩

theorem omitempty_keys {α : Type} (name : String) (w : List α → Except Failure JSON)
    (v : List α) (fs : List (String × JSON)) (h : omitempty name w v = .ok fs) :
    fs.map Prod.fst = [] ∨ fs.map Prod.fst = [name] := by
  rcases omitempty_ok name w v fs h with ⟨-, rfl⟩ | ⟨-, j, -, rfl⟩
  · exact Or.inl rfl
  · exact Or.inr rfl

theorem keys_of_members {α : Type} (name : String) (w : List α → Except Failure JSON)
    (v : List α) (wc : List Value → Except Failure JSON) (co : List Value) (t : JSON)
    (out : List (String × JSON))
    (h : (do
      let f ← omitempty name w v
      let f5 ← omitempty "coordinates" wc co
      pure (("type", t) :: (f ++ f5))) = .ok out) :
    ∃ typed coords, out.map Prod.fst = "type" :: (typed ++ coords) ∧
      (typed = [] ∨ typed = [name]) ∧ (coords = [] ∨ coords = ["coordinates"]) := by
  obtain ⟨f, hf, h⟩ := except_bind_ok _ _ _ h
  obtain ⟨f5, hf5, h⟩ := except_bind_ok _ _ _ h
  cases h
  exact ⟨f.map Prod.fst, f5.map Prod.fst, by simp, omitempty_keys _ _ _ _ hf,
    omitempty_keys _ _ _ _ hf5⟩

/-- The member names of any object `MarshalJSON` writes. -/
theorem MarshalJSON_keys (g : Geometry) (out : List (String × JSON))
    (h : MarshalJSON g = .ok out) :
    ∃ typed coords, out.map Prod.fst = "type" :: (typed ++ coords) ∧
      (coords = [] ∨ coords = ["coordinates"]) ∧
      (typed = [] ∨ (typed = ["point"] ∧ g.Typ = GeometryPoint) ∨
        (typed = ["polygon"] ∧ g.Typ = GeometryPolygon) ∨
        (typed = ["multipoint"] ∧ g.Typ = GeometryMultiPoint) ∨
        (typed = ["multipolygon"] ∧ g.Typ = GeometryMultiPolygon)) := by
  by_cases h1 : g.Typ = GeometryPoint
  · rw [MarshalJSON_point g h1] at h
    obtain ⟨v, -, h⟩ := except_bind_ok _ _ _ h
    obtain ⟨typed, coords, hk, ht, hc⟩ := keys_of_members _ _ _ _ _ _ _ h
    refine ⟨typed, coords, hk, hc, ?_⟩
    rcases ht with ht | ht
    · exact Or.inl ht
    · exact Or.inr (Or.inl ⟨ht, h1⟩)
  by_cases h2 : g.Typ = GeometryPolygon
  · rw [MarshalJSON_polygon g h2] at h
    obtain ⟨v, -, h⟩ := except_bind_ok _ _ _ h
    obtain ⟨typed, coords, hk, ht, hc⟩ := keys_of_members _ _ _ _ _ _ _ h
    refine ⟨typed, coords, hk, hc, ?_⟩
    rcases ht with ht | ht
    · exact Or.inl ht
    · exact Or.inr (Or.inr (Or.inl ⟨ht, h2⟩))
  by_cases h3 : g.Typ = GeometryMultiPoint
  · rw [MarshalJSON_multiPoint g h3] at h
    obtain ⟨v, -, h⟩ := except_bind_ok _ _ _ h
    obtain ⟨typed, coords, hk, ht, hc⟩ := keys_of_members _ _ _ _ _ _ _ h
    refine ⟨typed, coords, hk, hc, ?_⟩
    rcases ht with ht | ht
    · exact Or.inl ht
    · exact Or.inr (Or.inr (Or.inr (Or.inl ⟨ht, h3⟩)))
  by_cases h4 : g.Typ = GeometryMultiPolygon
  · rw [MarshalJSON_multiPolygon g h4] at h
    obtain ⟨v, -, h⟩ := except_bind_ok _ _ _ h
    obtain ⟨typed, coords, hk, ht, hc⟩ := keys_of_members _ _ _ _ _ _ _ h
    refine ⟨typed, coords, hk, hc, ?_⟩
    rcases ht with ht | ht
    · exact Or.inl ht
    · exact Or.inr (Or.inr (Or.inr (Or.inr ⟨ht, h4⟩)))
  · rw [MarshalJSON_other g h1 h2 h3 h4] at h
    obtain ⟨f5, hf5, h⟩ := except_bind_ok _ _ _ h
    cases h
    exact ⟨[], f5.map Prod.fst, by simp, omitempty_keys _ _ _ _ hf5, Or.inl rfl⟩

/-! ## Geometry encoding (C1, C2, C6, C7) -/

/-- C1: for every geometry whose kind is Point, MultiPoint, Polygon or
MultiPolygon and whose raw Coordinates are non-empty and well-formed for that
kind, `MarshalJSON` returns an object; the object has the member named after the
kind (`point`, `multipoint`, `polygon`, `multipolygon`), and the value of that
member is the typed decoding of Coordinates (the result of the kind's `encode*`
function) as `json.Marshal` writes it. -/
theorem C1_typed_field_is_decoding (g : Geometry) (hne : g.Coordinates ≠ [])
    (hwf : WellFormed g.Typ g.Coordinates = true) :
    ∃ out, MarshalJSON g = .ok out ∧
      (g.Typ = GeometryPoint ∨ g.Typ = GeometryMultiPoint ∨ g.Typ = GeometryPolygon ∨
        g.Typ = GeometryMultiPolygon) ∧
      (g.Typ = GeometryPoint → ∃ pt j, encodePoint (.slice g.Coordinates) = .ok pt ∧
        marshalPoint pt = .ok j ∧ out.lookup "point" = some j) ∧
      (g.Typ = GeometryMultiPoint → ∃ pts j, encodeMultiPoint g.Coordinates = .ok pts ∧
        marshalMultiPoint pts = .ok j ∧ out.lookup "multipoint" = some j) ∧
      (g.Typ = GeometryPolygon → ∃ rings j, encodePolygon g.Coordinates = .ok rings ∧
        marshalPolygon rings = .ok j ∧ out.lookup "polygon" = some j) ∧
      (g.Typ = GeometryMultiPolygon → ∃ polys j, encodeMultiPolygon g.Coordinates = .ok polys ∧
        marshalMultiPolygon polys = .ok j ∧ out.lookup "multipolygon" = some j) := by
  rcases wellFormed_kind _ _ hwf with h | h | h | h
  · obtain ⟨pt, j, h1, h2, -, h4⟩ := MarshalJSON_point_wf g h hne hwf
    refine ⟨_, h4, Or.inl h, fun _ => ⟨pt, j, h1, h2, by simp [List.lookup]⟩, ?_, ?_, ?_⟩ <;>
      intro h' <;> rw [h] at h' <;> exact absurd h' (by decide)
  · obtain ⟨v, j, h1, h2, -, h4⟩ := MarshalJSON_polygon_wf g h hne hwf
    refine ⟨_, h4, Or.inr (Or.inr (Or.inl h)), ?_, ?_,
      fun _ => ⟨v, j, h1, h2, by simp [List.lookup]⟩, ?_⟩ <;>
      intro h' <;> rw [h] at h' <;> exact absurd h' (by decide)
  · obtain ⟨v, j, h1, h2, -, h4⟩ := MarshalJSON_multiPoint_wf g h hne hwf
    refine ⟨_, h4, Or.inr (Or.inl h), ?_, fun _ => ⟨v, j, h1, h2, by simp [List.lookup]⟩,
      ?_, ?_⟩ <;>
      intro h' <;> rw [h] at h' <;> exact absurd h' (by decide)
  · obtain ⟨v, j, h1, h2, -, h4⟩ := MarshalJSON_multiPolygon_wf g h hne hwf
    refine ⟨_, h4, Or.inr (Or.inr (Or.inr h)), ?_, ?_, ?_,
      fun _ => ⟨v, j, h1, h2, by simp [List.lookup]⟩⟩ <;>
      intro h' <;> rw [h] at h' <;> exact absurd h' (by decide)

/-- C1 at the Point `[1, 2]` of the test: the hypotheses hold and the theorem
applies. -/
theorem C1_typed_field_is_decoding_witness :
    testPoint.Coordinates ≠ [] ∧ WellFormed testPoint.Typ testPoint.Coordinates = true ∧
    ∃ out, MarshalJSON testPoint = .ok out ∧
      (testPoint.Typ = GeometryPoint ∨ testPoint.Typ = GeometryMultiPoint ∨
        testPoint.Typ = GeometryPolygon ∨ testPoint.Typ = GeometryMultiPolygon) ∧
      (testPoint.Typ = GeometryPoint → ∃ pt j,
        encodePoint (.slice testPoint.Coordinates) = .ok pt ∧
        marshalPoint pt = .ok j ∧ out.lookup "point" = some j) ∧
      (testPoint.Typ = GeometryMultiPoint → ∃ pts j,
        encodeMultiPoint testPoint.Coordinates = .ok pts ∧
        marshalMultiPoint pts = .ok j ∧ out.lookup "multipoint" = some j) ∧
      (testPoint.Typ = GeometryPolygon → ∃ rings j,
        encodePolygon testPoint.Coordinates = .ok rings ∧
        marshalPolygon rings = .ok j ∧ out.lookup "polygon" = some j) ∧
      (testPoint.Typ = GeometryMultiPolygon → ∃ polys j,
        encodeMultiPolygon testPoint.Coordinates = .ok polys ∧
        marshalMultiPolygon polys = .ok j ∧ out.lookup "multipolygon" = some j) :=
  ⟨by simp [testPoint], by decide,
    C1_typed_field_is_decoding testPoint (by simp [testPoint]) (by decide)⟩

/-- C2: whatever the typed fields of a geometry hold before encoding, the object
written by `MarshalJSON` has no typed shape member other than the one of the
geometry's own kind: a member `point` only for a Point, `polygon` only for a
Polygon, `multipoint` only for a MultiPoint, `multipolygon` only for a
MultiPolygon. -/
theorem C2_only_own_shape_member (g : Geometry) (out : List (String × JSON))
    (h : MarshalJSON g = .ok out) :
    ("point" ∈ out.map Prod.fst → g.Typ = GeometryPoint) ∧
    ("polygon" ∈ out.map Prod.fst → g.Typ = GeometryPolygon) ∧
    ("multipoint" ∈ out.map Prod.fst → g.Typ = GeometryMultiPoint) ∧
    ("multipolygon" ∈ out.map Prod.fst → g.Typ = GeometryMultiPolygon) := by
  obtain ⟨typed, coords, hk, hc, ht⟩ := MarshalJSON_keys g out h
  rw [hk]
  rcases hc with rfl | rfl <;>
    rcases ht with rfl | ⟨rfl, ht⟩ | ⟨rfl, ht⟩ | ⟨rfl, ht⟩ | ⟨rfl, ht⟩ <;> simp_all

/-- C2 at a Point whose four typed fields hold stale values: only `point` is
written. -/
theorem C2_only_own_shape_member_witness :
    MarshalJSON stalePoint = .ok
      [("type", .str "Point"), ("point", .arr [.num (.ofInt 1), .num (.ofInt 2)]),
       ("coordinates", .arr [.num (.ofInt 1), .num (.ofInt 2)])] ∧
    (("point" ∈ ["type", "point", "coordinates"] → stalePoint.Typ = GeometryPoint) ∧
    ("polygon" ∈ ["type", "point", "coordinates"] → stalePoint.Typ = GeometryPolygon) ∧
    ("multipoint" ∈ ["type", "point", "coordinates"] → stalePoint.Typ = GeometryMultiPoint) ∧
    ("multipolygon" ∈ ["type", "point", "coordinates"] →
      stalePoint.Typ = GeometryMultiPolygon)) :=
  ⟨rfl, C2_only_own_shape_member stalePoint _ rfl⟩

/-- C6: the members of every object written by `MarshalJSON` come in the fixed
order `type`, then the typed shape member (when written), then `coordinates`
(when written): the member names are `type` followed by at most one shape name
followed by at most `coordinates`, so nothing precedes `type` and no typed
member follows `coordinates`. -/
theorem C6_member_order (g : Geometry) (out : List (String × JSON))
    (h : MarshalJSON g = .ok out) :
    ∃ typed coords, out.map Prod.fst = "type" :: (typed ++ coords) ∧
      (typed = [] ∨ typed = ["point"] ∨ typed = ["polygon"] ∨ typed = ["multipoint"] ∨
        typed = ["multipolygon"]) ∧
      (coords = [] ∨ coords = ["coordinates"]) := by
  obtain ⟨typed, coords, hk, hc, ht⟩ := MarshalJSON_keys g out h
  refine ⟨typed, coords, hk, ?_, hc⟩
  rcases ht with ht | ⟨ht, -⟩ | ⟨ht, -⟩ | ⟨ht, -⟩ | ⟨ht, -⟩
  · exact Or.inl ht
  · exact Or.inr (Or.inl ht)
  · exact Or.inr (Or.inr (Or.inl ht))
  · exact Or.inr (Or.inr (Or.inr (Or.inl ht)))
  · exact Or.inr (Or.inr (Or.inr (Or.inr ht)))

/-- C6 at the MultiPoint `[[1, 2], [3, 4]]` of the test: the members are `type`,
`multipoint`, `coordinates`, in that order. -/
theorem C6_member_order_witness :
    MarshalJSON testMultiPoint = .ok
      [("type", .str "MultiPoint"),
       ("multipoint", .arr [.arr [.num (.ofInt 1), .num (.ofInt 2)],
                            .arr [.num (.ofInt 3), .num (.ofInt 4)]]),
       ("coordinates", .arr [.arr [.num (.ofInt 1), .num (.ofInt 2)],
                             .arr [.num (.ofInt 3), .num (.ofInt 4)]])] ∧
    ∃ typed coords, ["type", "multipoint", "coordinates"] = "type" :: (typed ++ coords) ∧
      (typed = [] ∨ typed = ["point"] ∨ typed = ["polygon"] ∨ typed = ["multipoint"] ∨
        typed = ["multipolygon"]) ∧
      (coords = [] ∨ coords = ["coordinates"]) :=
  ⟨rfl, C6_member_order testMultiPoint _ rfl⟩

/-- C7: two geometries with the same Type and the same raw Coordinates get the
same result from `MarshalJSON` (the same object, or the same failure), whatever
their Point, MultiPoint, Polygon and MultiPolygon fields hold. -/
theorem C7_typed_fields_not_read (g₁ g₂ : Geometry) (hT : g₁.Typ = g₂.Typ)
    (hC : g₁.Coordinates = g₂.Coordinates) : MarshalJSON g₁ = MarshalJSON g₂ := by
  simp only [MarshalJSON, hT, hC]

/-- C7 at the Point `[1, 2]` with empty and with stale typed fields. -/
theorem C7_typed_fields_not_read_witness :
    testPoint.Typ = stalePoint.Typ ∧ testPoint.Coordinates = stalePoint.Coordinates ∧
    testPoint.Point ≠ stalePoint.Point ∧ MarshalJSON testPoint = MarshalJSON stalePoint :=
  ⟨rfl, rfl, by decide, C7_typed_fields_not_read testPoint stalePoint rfl rfl⟩

/-! ## Decoding (C3, C4, C5) -/

theorem rangeAppend_eq_mapM {α β : Type} (f : α → Except Failure β) (xs : List α)
    (acc : List β) :
    rangeAppend f xs acc = (fun ys => acc ++ ys) <$> xs.mapM f := by
  induction xs generalizing acc with
  | nil =>
    rw [List.mapM_nil]
    simp [rangeAppend, Functor.map, Except.map, pure, Except.pure]
  | cons x xs ih =>
    rw [List.mapM_cons]
    cases hx : f x with
    | error e => simp [rangeAppend, hx, Functor.map, Except.map, bind, Except.bind]
    | ok y =>
      simp only [rangeAppend, hx, ih]
      cases List.mapM f xs with
      | error e => rfl
      | ok ys => simp [Functor.map, Except.map, bind, Except.bind, pure, Except.pure]

theorem rangeAppend_nil_eq_mapM {α β : Type} (f : α → Except Failure β) (xs : List α) :
    rangeAppend f xs [] = xs.mapM f := by
  rw [rangeAppend_eq_mapM]
  cases List.mapM f xs <;> simp [Functor.map, Except.map]

theorem rangeAppend_float64 (xs : List Float64) (acc : List Float64) :
    rangeAppend assertFloat64 (xs.map Value.float64) acc = .ok (acc ++ xs) := by
  induction xs generalizing acc with
  | nil => simp [rangeAppend]
  | cons x xs ih => simp [rangeAppend, assertFloat64, ih]

/-- C3: decoding is the shape-preserving elementwise conversion. `encodePoint`
returns a flat list of numbers as that same sequence; `encodeMultiPoint` is
`encodePoint` mapped over the elements, `encodePolygon` is `encodeMultiPoint`
mapped over the rings and `encodeMultiPolygon` is `encodePolygon` mapped over the
polygons (inner arrays being taken out of their `interface{}`), and on a
payload of the kind's shape each returns a result with as many elements as the
payload, the i-th being the decoding of the i-th. -/
theorem C3_decoding_is_elementwise (xs : List Float64) (mp pg mpg : List Value)
    (h2 : WellShaped GeometryMultiPoint mp = true)
    (h3 : WellShaped GeometryPolygon pg = true)
    (h4 : WellShaped GeometryMultiPolygon mpg = true) :
    encodePoint (.slice (xs.map Value.float64)) = .ok xs ∧
    (encodeMultiPoint mp = mp.mapM encodePoint ∧
      ∃ pts, encodeMultiPoint mp = .ok pts ∧ pts.length = mp.length ∧
        List.Forall₂ (fun c p => encodePoint c = .ok p) mp pts) ∧
    (encodePolygon pg = pg.mapM (fun c => assertSlice c >>= encodeMultiPoint) ∧
      ∃ rings, encodePolygon pg = .ok rings ∧ rings.length = pg.length ∧
        List.Forall₂ (fun c p => (assertSlice c >>= encodeMultiPoint) = .ok p) pg rings) ∧
    (encodeMultiPolygon mpg = mpg.mapM (fun c => assertSlice c >>= encodePolygon) ∧
      ∃ polys, encodeMultiPolygon mpg = .ok polys ∧ polys.length = mpg.length ∧
        List.Forall₂ (fun c p => (assertSlice c >>= encodePolygon) = .ok p) mpg polys) := by
  refine ⟨?_, ⟨rangeAppend_nil_eq_mapM _ _, ?_⟩, ⟨rangeAppend_nil_eq_mapM _ _, ?_⟩,
    ⟨rangeAppend_nil_eq_mapM _ _, ?_⟩⟩
  · simp [encodePoint, assertSlice, bind, Except.bind, rangeAppend_float64]
  · rw [WellShaped, expectedDepth_multiPoint] at h2
    obtain ⟨pts, hp⟩ := (encodeMultiPoint_isOk mp).2 h2
    exact ⟨pts, hp, rangeAppend_length _ _ _ hp, rangeAppend_forall₂ _ _ _ hp⟩
  · rw [WellShaped, expectedDepth_polygon] at h3
    obtain ⟨v, hp⟩ := (encodePolygon_isOk pg).2 h3
    exact ⟨v, hp, rangeAppend_length _ _ _ hp, rangeAppend_forall₂ _ _ _ hp⟩
  · rw [WellShaped, expectedDepth_multiPolygon] at h4
    obtain ⟨v, hp⟩ := (encodeMultiPolygon_isOk mpg).2 h4
    exact ⟨v, hp, rangeAppend_length _ _ _ hp, rangeAppend_forall₂ _ _ _ hp⟩

/-- C3 at the flat list `[1, 2]`, the MultiPoint `[[1, 2], [3, 4]]`, a triangle
as Polygon and the same triangle as the one polygon of a MultiPolygon. -/
theorem C3_decoding_is_elementwise_witness :
    WellShaped GeometryMultiPoint testMultiPoint.Coordinates = true ∧
    WellShaped GeometryPolygon trianglePolygon = true ∧
    WellShaped GeometryMultiPolygon [.slice trianglePolygon] = true ∧
    (encodePoint (.slice ([Float64.ofInt 1, Float64.ofInt 2].map Value.float64)) =
        .ok [Float64.ofInt 1, Float64.ofInt 2] ∧
    (encodeMultiPoint testMultiPoint.Coordinates =
        testMultiPoint.Coordinates.mapM encodePoint ∧
      ∃ pts, encodeMultiPoint testMultiPoint.Coordinates = .ok pts ∧
        pts.length = testMultiPoint.Coordinates.length ∧
        List.Forall₂ (fun c p => encodePoint c = .ok p) testMultiPoint.Coordinates pts) ∧
    (encodePolygon trianglePolygon =
        trianglePolygon.mapM (fun c => assertSlice c >>= encodeMultiPoint) ∧
      ∃ rings, encodePolygon trianglePolygon = .ok rings ∧
        rings.length = trianglePolygon.length ∧
        List.Forall₂ (fun c p => (assertSlice c >>= encodeMultiPoint) = .ok p)
          trianglePolygon rings) ∧
    (encodeMultiPolygon [.slice trianglePolygon] =
        [Value.slice trianglePolygon].mapM (fun c => assertSlice c >>= encodePolygon) ∧
      ∃ polys, encodeMultiPolygon [.slice trianglePolygon] = .ok polys ∧
        polys.length = [Value.slice trianglePolygon].length ∧
        List.Forall₂ (fun c p => (assertSlice c >>= encodePolygon) = .ok p)
          [Value.slice trianglePolygon] polys)) :=
  ⟨by decide, by decide, by decide,
    C3_decoding_is_elementwise [Float64.ofInt 1, Float64.ofInt 2] testMultiPoint.Coordinates
      trianglePolygon [.slice trianglePolygon] (by decide) (by decide) (by decide)⟩

theorem rangeAppend_error {α β : Type} (f : α → Except Failure β) (xs : List α)
    (acc : List β) (e : Failure) (h : rangeAppend f xs acc = .error e) :
    ∃ x ∈ xs, f x = .error e := by
  induction xs generalizing acc with
  | nil => cases h
  | cons x xs ih =>
    cases hx : f x with
    | error e' =>
      simp only [rangeAppend, hx] at h
      cases h
      exact ⟨x, List.mem_cons_self _ _, hx⟩
    | ok y =>
      simp only [rangeAppend, hx] at h
      obtain ⟨z, hz, hfz⟩ := ih _ h
      exact ⟨z, List.mem_cons_of_mem _ hz, hfz⟩

theorem bind_assertSlice_error {β : Type} (f : List Value → Except Failure β) (v : Value)
    (e : Failure) (h : (assertSlice v >>= f) = .error e) :
    e = .interfaceConversion ∨ ∃ xs, v = .slice xs ∧ f xs = .error e := by
  cases v <;> simp_all [assertSlice, bind, Except.bind]

theorem assertFloat64_error (v : Value) (e : Failure) (h : assertFloat64 v = .error e) :
    e = .interfaceConversion := by
  cases v <;> simp_all [assertFloat64]

theorem encodePoint_error (v : Value) (e : Failure) (h : encodePoint v = .error e) :
    e = .interfaceConversion := by
  rcases bind_assertSlice_error _ v e h with h | ⟨xs, -, h⟩
  · exact h
  · obtain ⟨x, -, hx⟩ := rangeAppend_error _ _ _ _ h
    exact assertFloat64_error x e hx

theorem encodeMultiPoint_error (co : List Value) (e : Failure)
    (h : encodeMultiPoint co = .error e) : e = .interfaceConversion := by
  obtain ⟨x, -, hx⟩ := rangeAppend_error _ _ _ _ h
  exact encodePoint_error x e hx

theorem encodePolygon_error (co : List Value) (e : Failure)
    (h : encodePolygon co = .error e) : e = .interfaceConversion := by
  obtain ⟨x, -, hx⟩ := rangeAppend_error _ _ _ _ h
  rcases bind_assertSlice_error _ x e hx with h | ⟨xs, -, h⟩
  · exact h
  · exact encodeMultiPoint_error xs e h

theorem encodeMultiPolygon_error (co : List Value) (e : Failure)
    (h : encodeMultiPolygon co = .error e) : e = .interfaceConversion := by
  obtain ⟨x, -, hx⟩ := rangeAppend_error _ _ _ _ h
  rcases bind_assertSlice_error _ x e hx with h | ⟨xs, -, h⟩
  · exact h
  · exact encodePolygon_error xs e h

theorem depthList_const (d : Nat) (xs : List Value) (hne : xs ≠ [])
    (h : ∀ c ∈ xs, Value.depth c = d) : Value.depthList xs = d := by
  induction xs with
  | nil => exact absurd rfl hne
  | cons x xs ih =>
    have hx : Value.depth x = d := h x (List.mem_cons_self _ _)
    cases xs with
    | nil => simp [Value.depthList, hx]
    | cons y ys =>
      have := ih (List.cons_ne_nil _ _) (fun c hc => h c (List.mem_cons_of_mem _ hc))
      rw [Value.depthList, hx, this]
      exact Nat.max_self d

theorem leavesNumericList_of_forall (xs : List Value)
    (h : ∀ c ∈ xs, Value.leavesNumeric c = true) : Value.leavesNumericList xs = true := by
  induction xs with
  | nil => rfl
  | cons x xs ih =>
    simp [Value.leavesNumericList, h x (List.mem_cons_self _ _),
      ih (fun c hc => h c (List.mem_cons_of_mem _ hc))]

theorem noEmptyArrayList_forall (xs : List Value) (h : Value.noEmptyArrayList xs = true) :
    ∀ c ∈ xs, Value.noEmptyArray c = true := by
  induction xs with
  | nil => intro c hc; cases hc
  | cons x xs ih =>
    simp only [Value.noEmptyArrayList, Bool.and_eq_true] at h
    intro c hc
    rcases List.mem_cons.1 hc with rfl | hc
    · exact h.1
    · exact ih h.2 c hc

/-- A payload of the shape of depth `d` none of whose arrays is empty has
nesting depth `d` and only numbers as leaves. -/
theorem conforms_depth (d : Nat) :
    ∀ v : Value, conforms (fun _ => true) d v = true → Value.noEmptyArray v = true →
      Value.depth v = d ∧ Value.leavesNumeric v = true := by
  induction d with
  | zero =>
    intro v h _
    cases v <;> simp_all [conforms, Value.depth, Value.leavesNumeric]
  | succ d ih =>
    intro v h hne
    obtain ⟨xs, rfl, hxs⟩ := conforms_slice_elim _ _ _ h
    simp only [Value.noEmptyArray, Bool.and_eq_true, Bool.not_eq_true',
      List.isEmpty_eq_false] at hne
    have hall := noEmptyArrayList_forall xs hne.2
    have hxne : xs ≠ [] := by
      intro hx
      rw [hx] at hne
      simp at hne
    constructor
    · rw [Value.depth, depthList_const d xs hxne (fun c hc => (ih c (hxs c hc) (hall c hc)).1)]
      omega
    · rw [Value.leavesNumeric]
      exact leavesNumericList_of_forall xs (fun c hc => (ih c (hxs c hc) (hall c hc)).2)

theorem except_map_ok_iff {ε α β : Type} (r : Except ε α) (f : α → β) :
    (∃ b, r.map f = .ok b) ↔ ∃ a, r = .ok a := by
  cases r <;> simp [Except.map]

theorem except_map_error {ε α β : Type} (r : Except ε α) (f : α → β) (e : ε)
    (h : r.map f = .error e) : r = .error e := by
  cases r <;> simp_all [Except.map]

/-- Decoding succeeds exactly on the payloads that have the kind's shape. -/
theorem decode_isOk (k : GeometryType) (r : List Value)
    (hk : k = GeometryPoint ∨ k = GeometryMultiPoint ∨ k = GeometryPolygon ∨
      k = GeometryMultiPolygon) :
    (∃ t, decode k r = .ok t) ↔ WellShaped k r = true := by
  rcases hk with rfl | rfl | rfl | rfl
  · rw [WellShaped, expectedDepth_point, ← encodePoint_isOk]
    simp only [decode, if_true]
    exact except_map_ok_iff _ _
  · rw [WellShaped, expectedDepth_multiPoint, ← encodeMultiPoint_isOk]
    simp only [decode, kinds_distinct.2.1, kinds_distinct.2.2.1, if_true, if_false]
    exact except_map_ok_iff _ _
  · rw [WellShaped, expectedDepth_polygon, ← encodePolygon_isOk]
    simp only [decode, kinds_distinct.1, if_true, if_false]
    exact except_map_ok_iff _ _
  · rw [WellShaped, expectedDepth_multiPolygon, ← encodeMultiPolygon_isOk]
    simp only [decode, kinds_distinct.2.2.2.1, kinds_distinct.2.2.2.2.1,
      kinds_distinct.2.2.2.2.2, if_true, if_false]
    exact except_map_ok_iff _ _

/-- The only failure of decoding is the panic of a type assertion. -/
theorem decode_error (k : GeometryType) (r : List Value) (e : Failure)
    (h : decode k r = .error e) : e = .interfaceConversion := by
  unfold decode at h
  split at h
  · exact encodePoint_error _ e (except_map_error _ _ _ h)
  split at h
  · exact encodePolygon_error _ e (except_map_error _ _ _ h)
  split at h
  · exact encodeMultiPoint_error _ e (except_map_error _ _ _ h)
  split at h
  · exact encodeMultiPolygon_error _ e (except_map_error _ _ _ h)
  · cases h

theorem decode_fails_of_not_shaped (k : GeometryType) (r : List Value)
    (hk : k = GeometryPoint ∨ k = GeometryMultiPoint ∨ k = GeometryPolygon ∨
      k = GeometryMultiPolygon)
    (h : WellShaped k r = false) : decode k r = .error .interfaceConversion := by
  cases hd : decode k r with
  | error e => rw [decode_error k r e hd]
  | ok t =>
    have := (decode_isOk k r hk).1 ⟨t, hd⟩
    rw [h] at this
    cases this

/-- C4, as the code has it: for each of the four kinds, decoding succeeds exactly
on the payloads that have the shape of the kind (arrays nested to the kind's
depth, 1 for Point, 2 for MultiPoint, 3 for Polygon, 4 for MultiPolygon, with a
`float64` at every leaf), and on every other payload it fails with the panic of
a type assertion, so no payload lacking the shape is turned into a typed value.
When no array of the payload is empty, this gives the claim: decoding fails if
some leaf is not a number or if the nesting depth differs from the kind's. -/
theorem C4_malformed_payload_fails (k : GeometryType) (r : List Value)
    (hk : k = GeometryPoint ∨ k = GeometryMultiPoint ∨ k = GeometryPolygon ∨
      k = GeometryMultiPolygon) :
    ((∃ t, decode k r = .ok t) ↔ WellShaped k r = true) ∧
    (WellShaped k r = false → decode k r = .error .interfaceConversion) ∧
    (Value.noEmptyArray (.slice r) = true →
      (Value.leavesNumeric (.slice r) = false ∨ Value.depth (.slice r) ≠ expectedDepth k) →
      decode k r = .error .interfaceConversion) := by
  refine ⟨decode_isOk k r hk, decode_fails_of_not_shaped k r hk, ?_⟩
  intro hne hbad
  apply decode_fails_of_not_shaped k r hk
  cases hs : WellShaped k r with
  | false => rfl
  | true =>
    exfalso
    have := conforms_depth (expectedDepth k) (.slice r) hs hne
    rcases hbad with hb | hb
    · rw [this.2] at hb
      cases hb
    · exact hb this.1

/-- C4 at a Polygon payload with only two levels of nesting, `[[1, 2]]`: it has
no empty array, its depth 2 is not the 3 of a Polygon, and decoding fails. -/
theorem C4_malformed_payload_fails_witness :
    Value.noEmptyArray (.slice [.slice [.float64 (.ofInt 1), .float64 (.ofInt 2)]]) = true ∧
    Value.depth (.slice [.slice [.float64 (.ofInt 1), .float64 (.ofInt 2)]]) = 2 ∧
    expectedDepth GeometryPolygon = 3 ∧
    decode GeometryPolygon [.slice [.float64 (.ofInt 1), .float64 (.ofInt 2)]] =
      .error .interfaceConversion :=
  ⟨by decide, by decide, by decide,
    (C4_malformed_payload_fails GeometryPolygon
      [.slice [.float64 (.ofInt 1), .float64 (.ofInt 2)]]
      (Or.inr (Or.inr (Or.inl rfl)))).2.2 (by decide) (Or.inr (by decide))⟩

/-- C4 as stated fails: the Polygon payload `[[]]` has nesting depth 2, not the
3 of a Polygon, yet `encodePolygon` returns the typed value `[[]]` (one ring
with no position) without any failure. -/
theorem C4_counterexample :
    Value.depth (.slice [.slice []]) = 2 ∧ expectedDepth GeometryPolygon = 3 ∧
    encodePolygon [.slice []] = .ok [[]] ∧
    decode GeometryPolygon [.slice []] = .ok (some (.polygon [[]])) :=
  ⟨by decide, by decide, rfl, rfl⟩

theorem decode_some (k : GeometryType) (r : List Value) (o : Option Typed)
    (hk : k = GeometryPoint ∨ k = GeometryMultiPoint ∨ k = GeometryPolygon ∨
      k = GeometryMultiPolygon)
    (h : decode k r = .ok o) : ∃ t, o = some t := by
  rcases hk with rfl | rfl | rfl | rfl
  · simp only [decode, if_true] at h
    cases hx : encodePoint (.slice r) <;> simp_all [Except.map]
    exact ⟨_, h.symm⟩
  · simp only [decode, kinds_distinct.2.1, kinds_distinct.2.2.1, if_true, if_false] at h
    cases hx : encodeMultiPoint r <;> simp_all [Except.map]
    exact ⟨_, h.symm⟩
  · simp only [decode, kinds_distinct.1, if_true, if_false] at h
    cases hx : encodePolygon r <;> simp_all [Except.map]
    exact ⟨_, h.symm⟩
  · simp only [decode, kinds_distinct.2.2.2.1, kinds_distinct.2.2.2.2.1,
      kinds_distinct.2.2.2.2.2, if_true, if_false] at h
    cases hx : encodeMultiPolygon r <;> simp_all [Except.map]
    exact ⟨_, h.symm⟩

/-- What `MarshalJSON` writes for one of the four kinds when the raw coordinates
are empty: the member `type` alone. -/
theorem MarshalJSON_empty (g : Geometry) (hc : g.Coordinates = [])
    (hk : g.Typ = GeometryPoint ∨ g.Typ = GeometryMultiPoint ∨ g.Typ = GeometryPolygon ∨
      g.Typ = GeometryMultiPolygon) :
    MarshalJSON g = .ok [("type", .str g.Typ)] := by
  rcases hk with h | h | h | h
  · rw [MarshalJSON_point g h, hc]; rfl
  · rw [MarshalJSON_multiPoint g h, hc]; rfl
  · rw [MarshalJSON_polygon g h, hc]; rfl
  · rw [MarshalJSON_multiPolygon g h, hc]; rfl

/-- The whole object written for a well-formed, non-empty payload: `type`, the
typed member and `coordinates`, the last two with the same JSON value. -/
theorem MarshalJSON_wf (g : Geometry) (hne : g.Coordinates ≠ [])
    (hwf : WellFormed g.Typ g.Coordinates = true) :
    ∃ key j, key ≠ "coordinates" ∧ marshalValue (.slice g.Coordinates) = .ok j ∧
      MarshalJSON g = .ok [("type", .str g.Typ), (key, j), ("coordinates", j)] := by
  rcases wellFormed_kind _ _ hwf with h | h | h | h
  · obtain ⟨_, j, -, -, h3, h4⟩ := MarshalJSON_point_wf g h hne hwf
    exact ⟨_, j, by decide, h3, h4⟩
  · obtain ⟨_, j, -, -, h3, h4⟩ := MarshalJSON_polygon_wf g h hne hwf
    exact ⟨_, j, by decide, h3, h4⟩
  · obtain ⟨_, j, -, -, h3, h4⟩ := MarshalJSON_multiPoint_wf g h hne hwf
    exact ⟨_, j, by decide, h3, h4⟩
  · obtain ⟨_, j, -, -, h3, h4⟩ := MarshalJSON_multiPolygon_wf g h hne hwf
    exact ⟨_, j, by decide, h3, h4⟩

theorem readCoordinates_of_members (t : JSON) (key : String) (j : JSON) (r : List Value)
    (hkey : key ≠ "coordinates") (hj : marshalValue (.slice r) = .ok j) :
    List.lookup "coordinates" [("type", t), (key, j), ("coordinates", j)] = some j ∧
      readCoordinates [("type", t), (key, j), ("coordinates", j)] = r := by
  have h1 : ("coordinates" == key) = false := by
    simp only [beq_eq_false_iff_ne, ne_eq]
    exact fun h => hkey h.symm
  have hl : List.lookup "coordinates" [("type", t), (key, j), ("coordinates", j)] = some j := by
    simp [List.lookup, h1]
  refine ⟨hl, ?_⟩
  have hu := unmarshal_marshalValue (.slice r) j hj
  simp only [marshalValue] at hj
  split at hj
  · rename_i js hjs
    cases hj
    simp only [unmarshalValue, Value.slice.injEq] at hu
    simp only [readCoordinates, hl, hu]
  · cases hj

/-- C5: round trip. For every geometry whose raw Coordinates `r` are well-formed
for its kind `k`, `MarshalJSON` returns an object, and the `Coordinates` read
back from that object are `r` itself: a non-empty `r` is the value of the member
`coordinates`, an empty `r` is left out of the object and read back as empty.
So decoding the emitted coordinates for kind `k` yields the typed value that
decoding `r` yields. -/
theorem C5_round_trip (g : Geometry) (hwf : WellFormed g.Typ g.Coordinates = true) :
    ∃ out t, MarshalJSON g = .ok out ∧
      readCoordinates out = g.Coordinates ∧
      (g.Coordinates ≠ [] → ∃ j, out.lookup "coordinates" = some j ∧
        unmarshalValue j = .slice g.Coordinates) ∧
      decode g.Typ g.Coordinates = .ok (some t) ∧
      decode g.Typ (readCoordinates out) = .ok (some t) := by
  have hk := wellFormed_kind _ _ hwf
  have hk' : g.Typ = GeometryPoint ∨ g.Typ = GeometryMultiPoint ∨ g.Typ = GeometryPolygon ∨
      g.Typ = GeometryMultiPolygon := by
    rcases hk with h | h | h | h
    · exact Or.inl h
    · exact Or.inr (Or.inr (Or.inl h))
    · exact Or.inr (Or.inl h)
    · exact Or.inr (Or.inr (Or.inr h))
  obtain ⟨o, ho⟩ := (decode_isOk g.Typ g.Coordinates hk').2
    (conforms_mono _ _ _ hwf)
  obtain ⟨t, rfl⟩ := decode_some _ _ o hk' ho
  by_cases hne : g.Coordinates = []
  · have hout := MarshalJSON_empty g hne hk'
    have hr : readCoordinates [("type", JSON.str g.Typ)] = g.Coordinates := by
      rw [hne]; rfl
    exact ⟨_, t, hout, hr, fun h => absurd hne h, ho, by rw [hr]; exact ho⟩
  · obtain ⟨key, j, hkey, hj, hout⟩ := MarshalJSON_wf g hne hwf
    obtain ⟨hl, hr⟩ := readCoordinates_of_members (.str g.Typ) key j g.Coordinates hkey hj
    exact ⟨_, t, hout, hr, fun _ => ⟨j, hl, unmarshal_marshalValue _ j hj⟩, ho,
      by rw [hr]; exact ho⟩

/-- C5 at the MultiPoint `[[1, 2], [3, 4]]` of the test. -/
theorem C5_round_trip_witness :
    WellFormed testMultiPoint.Typ testMultiPoint.Coordinates = true ∧
    ∃ out t, MarshalJSON testMultiPoint = .ok out ∧
      readCoordinates out = testMultiPoint.Coordinates ∧
      (testMultiPoint.Coordinates ≠ [] → ∃ j, out.lookup "coordinates" = some j ∧
        unmarshalValue j = .slice testMultiPoint.Coordinates) ∧
      decode testMultiPoint.Typ testMultiPoint.Coordinates = .ok (some t) ∧
      decode testMultiPoint.Typ (readCoordinates out) = .ok (some t) :=
  ⟨by decide, C5_round_trip testMultiPoint (by decide)⟩

/-! ## Accommodation ingestion (C8, C9, C10) -/

theorem call_calls (db : Backend) (c : Call) : (db.call c).2.calls = db.calls ++ [c] := by
  unfold Backend.call
  split <;> rfl

theorem call_geo (db : Backend) (c : Call) : (db.call c).2.geo = db.geo := by
  unfold Backend.call
  split <;> rfl

theorem call_regions (db : Backend) (c : Call) : (db.call c).2.regions = db.regions := by
  unfold Backend.call
  split <;> rfl

theorem lookup_calls (t : RegionType) (id : String) (r : Region) (db : Backend) :
    (GetRegionByTypeAndGeoID t id r db).2.2.calls = db.calls ++ [.findRegion t id] := by
  have hc := call_calls db (.findRegion t id)
  unfold GetRegionByTypeAndGeoID
  split
  · rename_i h; rw [h] at hc; exact hc
  · rename_i h; rw [h] at hc; exact hc
  · rename_i h; rw [h] at hc
    split <;> exact hc

theorem lookup_geo (t : RegionType) (id : String) (r : Region) (db : Backend) :
    (GetRegionByTypeAndGeoID t id r db).2.2.geo = db.geo := by
  have hc := call_geo db (.findRegion t id)
  unfold GetRegionByTypeAndGeoID
  split
  · rename_i h; rw [h] at hc; exact hc
  · rename_i h; rw [h] at hc; exact hc
  · rename_i h; rw [h] at hc
    split <;> exact hc

/-- A lookup that fails leaves `r` as it was. -/
theorem lookup_failed (t : RegionType) (id : String) (r : Region) (db : Backend)
    (h : (GetRegionByTypeAndGeoID t id r db).1 ≠ none) :
    (GetRegionByTypeAndGeoID t id r db).2.1 = r := by
  unfold GetRegionByTypeAndGeoID at h ⊢
  split
  · rfl
  · rfl
  · split
    · rfl
    · rename_i h1 _ _ h2
      simp [h1, h2] at h

theorem update_calls (e : Region) (db : Backend) :
    (UpdateRegion e db).2.calls = db.calls ++ [.updateRegion e.Typ e.GeoID e] := by
  have hc := call_calls db (.updateRegion e.Typ e.GeoID e)
  unfold UpdateRegion
  split
  · rename_i h; rw [h] at hc; exact hc
  · rename_i h; rw [h] at hc
    split <;> exact hc

theorem update_geo (e : Region) (db : Backend) : (UpdateRegion e db).2.geo = db.geo := by
  have hc := call_geo db (.updateRegion e.Typ e.GeoID e)
  unfold UpdateRegion
  split
  · rename_i h; rw [h] at hc; exact hc
  · rename_i h; rw [h] at hc
    split <;> exact hc

theorem logError_calls (db : Backend) (t : RegionType) (id : String) :
    (db.logError t id).calls = db.calls := rfl

theorem logError_geo (db : Backend) (t : RegionType) (id : String) :
    (db.logError t id).geo = db.geo := rfl

theorem make_if_empty (l : List String) : (if l.length = 0 then [] else l) = l := by
  cases l <;> simp

theorem zero_not_listed :
    ¬ (Region.zero.Typ = RegionTypeCity ∨ Region.zero.Typ = RegionTypeMultiCityVicinity ∨
      Region.zero.Typ = RegionTypeNeighborhood) := by
  decide

/-- The calls of one round of the loop: the lookup of the intersected region,
and then an update exactly when the lookup succeeded with a city, a multi-city
vicinity or a neighborhood; the update carries the Region looked up with the
accommodation's key appended to its accommodation descendants. -/
theorem body_calls (geoID : String) (db : Backend) (e : GeoRegion) :
    (InsertAccommodation.body geoID db e).calls =
      db.calls ++ Call.findRegion e.Typ e.GeoID ::
        (if (GetRegionByTypeAndGeoID e.Typ e.GeoID Region.zero db).1 = none ∧
            ((GetRegionByTypeAndGeoID e.Typ e.GeoID Region.zero db).2.1.Typ = RegionTypeCity ∨
              (GetRegionByTypeAndGeoID e.Typ e.GeoID Region.zero db).2.1.Typ =
                RegionTypeMultiCityVicinity ∨
              (GetRegionByTypeAndGeoID e.Typ e.GeoID Region.zero db).2.1.Typ =
                RegionTypeNeighborhood) then
          [Call.updateRegion (GetRegionByTypeAndGeoID e.Typ e.GeoID Region.zero db).2.1.Typ
            (GetRegionByTypeAndGeoID e.Typ e.GeoID Region.zero db).2.1.GeoID
            { (GetRegionByTypeAndGeoID e.Typ e.GeoID Region.zero db).2.1 with
              Descendants :=
                { (GetRegionByTypeAndGeoID e.Typ e.GeoID Region.zero db).2.1.Descendants with
                  Accommodations :=
                    (GetRegionByTypeAndGeoID e.Typ e.GeoID Region.zero
                      db).2.1.Descendants.Accommodations ++ [geoID] } }]
        else []) := by
  have hc := lookup_calls e.Typ e.GeoID Region.zero db
  have hf := lookup_failed e.Typ e.GeoID Region.zero db
  unfold InsertAccommodation.body
  simp only [make_if_empty]
  generalize GetRegionByTypeAndGeoID e.Typ e.GeoID Region.zero db = L at hc hf ⊢
  obtain ⟨err1, r, db1⟩ := L
  simp only at hc hf ⊢
  by_cases hq : r.Typ = RegionTypeCity ∨ r.Typ = RegionTypeMultiCityVicinity ∨
      r.Typ = RegionTypeNeighborhood
  · have herr : err1 = none := by
      by_contra hne
      rw [hf hne] at hq
      exact zero_not_listed hq
    subst herr
    simp only [hq, Option.isSome_none, Bool.false_eq_true, if_false, if_true, and_self]
    have hu := update_calls { r with Descendants :=
      { r.Descendants with Accommodations := r.Descendants.Accommodations ++ [geoID] } } db1
    generalize UpdateRegion { r with Descendants :=
      { r.Descendants with Accommodations := r.Descendants.Accommodations ++ [geoID] } } db1 = U
      at hu ⊢
    obtain ⟨err2, db2⟩ := U
    simp only at hu ⊢
    split <;> simp [logError_calls, hu, hc]
  · simp only [hq, if_false, and_false]
    split <;> simp [logError_calls, hc]

theorem body_geo (geoID : String) (db : Backend) (e : GeoRegion) :
    (InsertAccommodation.body geoID db e).geo = db.geo := by
  have hg := lookup_geo e.Typ e.GeoID Region.zero db
  unfold InsertAccommodation.body
  simp only [make_if_empty]
  generalize GetRegionByTypeAndGeoID e.Typ e.GeoID Region.zero db = L at hg ⊢
  obtain ⟨err1, r, db1⟩ := L
  simp only at hg ⊢
  have hg1 : (if err1.isSome = true then db1.logError e.Typ e.GeoID else db1).geo = db.geo := by
    split <;> simp [logError_geo, hg]
  split
  · have hu := update_geo { r with Descendants :=
      { r.Descendants with Accommodations := r.Descendants.Accommodations ++ [geoID] } }
      (if err1.isSome = true then db1.logError e.Typ e.GeoID else db1)
    generalize UpdateRegion { r with Descendants :=
      { r.Descendants with Accommodations := r.Descendants.Accommodations ++ [geoID] } }
      (if err1.isSome = true then db1.logError e.Typ e.GeoID else db1) = U at hu ⊢
    obtain ⟨err2, db2⟩ := U
    simp only at hu ⊢
    split <;> simp [logError_geo, hu, hg1]
  · exact hg1

/-- A lookup that succeeds returns the stored document with that key. -/
theorem lookup_ok (t : RegionType) (id : String) (r₀ r : Region) (db db1 : Backend)
    (h : GetRegionByTypeAndGeoID t id r₀ db = (none, r, db1)) :
    findOne db.regions t id = some r := by
  have hr := call_regions db (.findRegion t id)
  unfold GetRegionByTypeAndGeoID at h
  split at h
  · cases h
  · cases h
  · rename_i hcall
    rw [hcall] at hr
    simp only at hr
    split at h
    · cases h
    · rename_i doc hdoc
      cases h
      rw [← hr]
      exact hdoc

theorem foldl_body_geo (geoID : String) (regions : List GeoRegion) (db : Backend) :
    (regions.foldl (InsertAccommodation.body geoID) db).geo = db.geo := by
  induction regions generalizing db with
  | nil => rfl
  | cons e es ih => rw [List.foldl_cons, ih, body_geo]

theorem foldl_body_calls_extend (geoID : String) (regions : List GeoRegion) (db : Backend) :
    ∃ new, (regions.foldl (InsertAccommodation.body geoID) db).calls = db.calls ++ new := by
  induction regions generalizing db with
  | nil => exact ⟨[], by simp⟩
  | cons e es ih =>
    obtain ⟨new, hnew⟩ := ih (InsertAccommodation.body geoID db e)
    rw [List.foldl_cons, hnew, body_calls]
    exact ⟨_, by rw [List.append_assoc]⟩

theorem intersects_calls (g : Geometry) (ts : List RegionType) (r : List GeoRegion)
    (db : Backend) :
    (GetIntersectedRegions g ts r db).2.2.calls = db.calls ++
      [.findIntersects (GetIntersectedRegions.dbQuery g ts)] := by
  have hc := call_calls db (.findIntersects (GetIntersectedRegions.dbQuery g ts))
  unfold GetIntersectedRegions
  simp only
  split
  · rename_i h; rw [h] at hc; exact hc
  · rename_i h; rw [h] at hc; exact hc
  · rename_i h; rw [h] at hc; exact hc

theorem intersects_geo (g : Geometry) (ts : List RegionType) (r : List GeoRegion)
    (db : Backend) : (GetIntersectedRegions g ts r db).2.2.geo = db.geo := by
  have hc := call_geo db (.findIntersects (GetIntersectedRegions.dbQuery g ts))
  unfold GetIntersectedRegions
  simp only
  split
  · rename_i h; rw [h] at hc; exact hc
  · rename_i h; rw [h] at hc; exact hc
  · rename_i h; rw [h] at hc; exact hc

theorem save_calls (r : GeoRegion) (db : Backend) :
    (SaveGeoRegion r db).2.2.calls =
      db.calls ++ [.insertGeoRegion { r with ID := db.objectIds + 1 }] := by
  have hc := call_calls { db with objectIds := db.objectIds + 1 }
    (.insertGeoRegion { r with ID := db.objectIds + 1 })
  unfold SaveGeoRegion
  simp only
  split
  · rename_i h; rw [h] at hc; exact hc
  · rename_i h; rw [h] at hc; exact hc

/-- A save that succeeds appends the document, with its new id, to the geo
collection. -/
theorem save_ok (r : GeoRegion) (db : Backend) (h : (SaveGeoRegion r db).1 = none) :
    (SaveGeoRegion r db).2.1 = { r with ID := db.objectIds + 1 } ∧
    (SaveGeoRegion r db).2.2.geo = db.geo ++ [{ r with ID := db.objectIds + 1 }] := by
  have hg := call_geo { db with objectIds := db.objectIds + 1 }
    (.insertGeoRegion { r with ID := db.objectIds + 1 })
  unfold SaveGeoRegion at h ⊢
  simp only at h ⊢
  split
  · rename_i hcall
    rw [hcall] at h
    simp at h
  · rename_i hcall
    rw [hcall] at hg
    simp only at hg
    exact ⟨rfl, by simp [hg]⟩

/-- `InsertAccommodation` once the intersection query has answered. -/
theorem InsertAccommodation_after_query (acc : GeoRegion) (db db0 : Backend)
    (regions : List GeoRegion)
    (hq : GetIntersectedRegions acc.Geometry [] [] db = (none, regions, db0)) :
    InsertAccommodation acc db =
      (match (SaveGeoRegion { acc with Typ := RegionTypeAccommodation }
          (regions.foldl (InsertAccommodation.body acc.GeoID) db0)).1 with
        | some err => .error err
        | none => .ok regions,
       (SaveGeoRegion { acc with Typ := RegionTypeAccommodation }
          (regions.foldl (InsertAccommodation.body acc.GeoID) db0)).2.1,
       (SaveGeoRegion { acc with Typ := RegionTypeAccommodation }
          (regions.foldl (InsertAccommodation.body acc.GeoID) db0)).2.2) := by
  unfold InsertAccommodation
  rw [hq]
  simp only
  generalize SaveGeoRegion { acc with Typ := RegionTypeAccommodation }
    (regions.foldl (InsertAccommodation.body acc.GeoID) db0) = S
  obtain ⟨err, a, d⟩ := S
  cases err <;> rfl

/-- The calls made from the round of `e` on, when its lookup succeeds with a
Region of one of the three types. -/
theorem calls_from_round (geoID : String) (pre post : List GeoRegion) (e : GeoRegion)
    (db0 db1 : Backend) (r : Region)
    (hlook : GetRegionByTypeAndGeoID e.Typ e.GeoID Region.zero
      (pre.foldl (InsertAccommodation.body geoID) db0) = (none, r, db1))
    (hty : r.Typ = RegionTypeCity ∨ r.Typ = RegionTypeMultiCityVicinity ∨
      r.Typ = RegionTypeNeighborhood) :
    ∃ later, ((pre ++ e :: post).foldl (InsertAccommodation.body geoID) db0).calls =
      (pre.foldl (InsertAccommodation.body geoID) db0).calls ++
        [Call.findRegion e.Typ e.GeoID,
         Call.updateRegion r.Typ r.GeoID
          { r with Descendants :=
            { r.Descendants with
              Accommodations := r.Descendants.Accommodations ++ [geoID] } }] ++ later := by
  obtain ⟨later, hl⟩ := foldl_body_calls_extend geoID post
    (InsertAccommodation.body geoID (pre.foldl (InsertAccommodation.body geoID) db0) e)
  refine ⟨later, ?_⟩
  rw [List.foldl_append, List.foldl_cons, hl, body_calls, hlook]
  simp [hty]

/-- C8: in `InsertAccommodation`, for every intersected GeoRegion `e` whose
Region lookup by (type, geo id) succeeds with a Region `r` (the stored document
with that key) of type city, multi_city_vicinity or neighborhood, the call that
follows the lookup is `UpdateRegion` with `r` changed only in
`Descendants.Accommodations`, which is the list `r` had followed by the
accommodation's GeoID as last element. -/
theorem C8_update_appends_accommodation (acc : GeoRegion) (db db0 db1 : Backend)
    (regions pre post : List GeoRegion) (e : GeoRegion) (r : Region)
    (hq : GetIntersectedRegions acc.Geometry [] [] db = (none, regions, db0))
    (hsplit : regions = pre ++ e :: post)
    (hlook : GetRegionByTypeAndGeoID e.Typ e.GeoID Region.zero
      (pre.foldl (InsertAccommodation.body acc.GeoID) db0) = (none, r, db1))
    (hty : r.Typ = RegionTypeCity ∨ r.Typ = RegionTypeMultiCityVicinity ∨
      r.Typ = RegionTypeNeighborhood) :
    findOne (pre.foldl (InsertAccommodation.body acc.GeoID) db0).regions e.Typ e.GeoID =
      some r ∧
    ∃ later, (InsertAccommodation acc db).2.2.calls =
      (pre.foldl (InsertAccommodation.body acc.GeoID) db0).calls ++
        [Call.findRegion e.Typ e.GeoID,
         Call.updateRegion r.Typ r.GeoID
          { r with Descendants :=
            { r.Descendants with
              Accommodations := r.Descendants.Accommodations ++ [acc.GeoID] } }] ++ later := by
  refine ⟨lookup_ok _ _ _ _ _ _ hlook, ?_⟩
  obtain ⟨later, hl⟩ := calls_from_round acc.GeoID pre post e db0 db1 r hlook hty
  rw [InsertAccommodation_after_query acc db db0 regions hq, save_calls, hsplit, hl]
  exact ⟨_, by rw [List.append_assoc]⟩

/-- C8 on `sampleBackend`, for the neighborhood `n1`, third of the intersected
regions: its lookup succeeds with a Region without accommodations, and the next
call updates that Region with `["a1"]` as accommodations. -/
theorem C8_update_appends_accommodation_witness :
    GetIntersectedRegions sampleAccommodation.Geometry [] [] sampleBackend =
      (none, sampleIntersected, sampleAfterQuery) ∧
    sampleIntersected =
      [selectedGeoRegion 11 "c1" RegionTypeCity, selectedGeoRegion 12 "k1" RegionTypeCountry] ++
        selectedGeoRegion 13 "n1" RegionTypeNeighborhood :: [] ∧
    GetRegionByTypeAndGeoID RegionTypeNeighborhood "n1" Region.zero
      (List.foldl (InsertAccommodation.body "a1") sampleAfterQuery
        [selectedGeoRegion 11 "c1" RegionTypeCity,
         selectedGeoRegion 12 "k1" RegionTypeCountry]) =
      (none, sampleRegion 2 "n1" RegionTypeNeighborhood [], sampleAfterLookup) ∧
    ∃ later, (InsertAccommodation sampleAccommodation sampleBackend).2.2.calls =
      (List.foldl (InsertAccommodation.body "a1") sampleAfterQuery
        [selectedGeoRegion 11 "c1" RegionTypeCity,
         selectedGeoRegion 12 "k1" RegionTypeCountry]).calls ++
        [Call.findRegion RegionTypeNeighborhood "n1",
         Call.updateRegion RegionTypeNeighborhood "n1"
          (sampleRegion 2 "n1" RegionTypeNeighborhood ["a1"])] ++ later :=
  ⟨rfl, rfl, rfl,
    (C8_update_appends_accommodation sampleAccommodation sampleBackend sampleAfterQuery
      sampleAfterLookup sampleIntersected
      [selectedGeoRegion 11 "c1" RegionTypeCity, selectedGeoRegion 12 "k1" RegionTypeCountry]
      [] (selectedGeoRegion 13 "n1" RegionTypeNeighborhood)
      (sampleRegion 2 "n1" RegionTypeNeighborhood [])
      rfl rfl rfl (Or.inr (Or.inr rfl))).2⟩

theorem dueUpdate_snoc (geoID : String) (init : List GeoRegion) (last : GeoRegion)
    (db0 : Backend) (collection id : String) (doc : Region) :
    DueUpdate geoID (init ++ [last]) db0 collection id doc ↔
      DueUpdate geoID init db0 collection id doc ∨
      DueUpdate geoID (init ++ [last]) db0 collection id doc ∧
        ∃ r, (GetRegionByTypeAndGeoID last.Typ last.GeoID Region.zero
            (init.foldl (InsertAccommodation.body geoID) db0)).1 = none ∧
          (GetRegionByTypeAndGeoID last.Typ last.GeoID Region.zero
            (init.foldl (InsertAccommodation.body geoID) db0)).2.1 = r ∧
          (r.Typ = RegionTypeCity ∨ r.Typ = RegionTypeMultiCityVicinity ∨
            r.Typ = RegionTypeNeighborhood) ∧
          collection = r.Typ ∧ id = r.GeoID ∧
          doc = { r with Descendants :=
            { r.Descendants with
              Accommodations := r.Descendants.Accommodations ++ [geoID] } } := by
  constructor
  · rintro ⟨pre, e, post, r, hsplit, h1, h2, h3, h4, h5, h6⟩
    rcases List.eq_nil_or_concat post with rfl | ⟨post', x, rfl⟩
    · obtain ⟨rfl, hx⟩ := List.append_inj' hsplit rfl
      cases hx
      exact Or.inr ⟨⟨init, last, [], r, rfl, h1, h2, h3, h4, h5, h6⟩, r, h1, h2, h3, h4, h5, h6⟩
    · left
      have hs : init ++ [last] = (pre ++ e :: post') ++ [x] := by
        rw [hsplit]; simp
      obtain ⟨hinit, -⟩ := List.append_inj' hs rfl
      exact ⟨pre, e, post', r, hinit, h1, h2, h3, h4, h5, h6⟩
  · rintro (⟨pre, e, post, r, hsplit, h1, h2, h3, h4, h5, h6⟩ | ⟨h, -⟩)
    · exact ⟨pre, e, post ++ [last], r, by rw [hsplit]; simp, h1, h2, h3, h4, h5, h6⟩
    · exact h

/-- The calls of the loop, and which updates are among them. -/
theorem loop_updates (geoID : String) (regions : List GeoRegion) (db0 : Backend) :
    ∃ new, (regions.foldl (InsertAccommodation.body geoID) db0).calls = db0.calls ++ new ∧
      (∀ c, c ∈ new → (∃ t id, c = .findRegion t id) ∨ ∃ t id doc, c = .updateRegion t id doc) ∧
      ∀ collection id doc, Call.updateRegion collection id doc ∈ new ↔
        DueUpdate geoID regions db0 collection id doc := by
  induction regions using List.reverseRecOn with
  | nil =>
    refine ⟨[], by simp, by simp, ?_⟩
    intro collection id doc
    constructor
    · intro h; cases h
    · rintro ⟨pre, e, post, r, hsplit, -⟩
      exact absurd hsplit (by simp)
  | append_singleton init last ih =>
    obtain ⟨new, hnew, hkind, hiff⟩ := ih
    rw [List.foldl_append, List.foldl_cons, List.foldl_nil, body_calls, hnew]
    refine ⟨new ++ _, by rw [List.append_assoc], ?_, ?_⟩
    · intro c hc
      rcases List.mem_append.1 hc with hc | hc
      · exact hkind c hc
      · rcases List.mem_cons.1 hc with rfl | hc
        · exact Or.inl ⟨_, _, rfl⟩
        · split at hc
          · rw [List.mem_singleton] at hc
            exact Or.inr ⟨_, _, _, hc⟩
          · cases hc
    · intro collection id doc
      rw [dueUpdate_snoc, List.mem_append, hiff]
      constructor
      · rintro (h | h)
        · exact Or.inl h
        · rcases List.mem_cons.1 h with h | h
          · cases h
          · split at h
            · rename_i hcond
              rw [List.mem_singleton] at h
              cases h
              have hd : DueUpdate geoID (init ++ [last]) db0 _ _ _ :=
                ⟨init, last, [], _, rfl, hcond.1, rfl, hcond.2, rfl, rfl, rfl⟩
              exact Or.inr ⟨hd, _, hcond.1, rfl, hcond.2, rfl, rfl, rfl⟩
            · cases h
      · rintro (h | ⟨-, r, h1, h2, h3, h4, h5, h6⟩)
        · exact Or.inl h
        · right
          subst h2 h4 h5 h6
          rw [if_pos ⟨h1, h3⟩]
          exact List.mem_cons_of_mem _ (List.mem_singleton.2 rfl)

/-- C9: in `InsertAccommodation`, among the calls made after the intersection
query, a Region update is issued for exactly those intersected GeoRegions whose
Region lookup succeeded with a Region of type city, multi_city_vicinity or
neighborhood: `UpdateRegion(doc)` is called if and only if `doc` is such a
Region with the accommodation's key appended. No update is issued for an
intersected region whose Region has any other type, nor for one whose lookup
failed. -/
theorem C9_updates_exactly_for_listed_types (acc : GeoRegion) (db db0 : Backend)
    (regions : List GeoRegion)
    (hq : GetIntersectedRegions acc.Geometry [] [] db = (none, regions, db0)) :
    ∃ new, (InsertAccommodation acc db).2.2.calls = db0.calls ++ new ∧
      ∀ collection id doc, Call.updateRegion collection id doc ∈ new ↔
        ∃ pre e post r, regions = pre ++ e :: post ∧
          (GetRegionByTypeAndGeoID e.Typ e.GeoID Region.zero
            (pre.foldl (InsertAccommodation.body acc.GeoID) db0)).1 = none ∧
          (GetRegionByTypeAndGeoID e.Typ e.GeoID Region.zero
            (pre.foldl (InsertAccommodation.body acc.GeoID) db0)).2.1 = r ∧
          (r.Typ = RegionTypeCity ∨ r.Typ = RegionTypeMultiCityVicinity ∨
            r.Typ = RegionTypeNeighborhood) ∧
          collection = r.Typ ∧ id = r.GeoID ∧
          doc = { r with Descendants :=
            { r.Descendants with
              Accommodations := r.Descendants.Accommodations ++ [acc.GeoID] } } := by
  obtain ⟨new, hnew, -, hiff⟩ := loop_updates acc.GeoID regions db0
  rw [InsertAccommodation_after_query acc db db0 regions hq, save_calls, hnew]
  refine ⟨new ++ _, by rw [List.append_assoc], ?_⟩
  intro collection id doc
  rw [List.mem_append]
  constructor
  · rintro (h | h)
    · exact (hiff collection id doc).1 h
    · rw [List.mem_singleton] at h
      cases h
  · intro h
    exact Or.inl ((hiff collection id doc).2 h)

/-- C9 on `sampleBackend`: after the intersection query succeeds, the updates
called are exactly the due ones. -/
theorem C9_updates_exactly_for_listed_types_witness :
    GetIntersectedRegions sampleAccommodation.Geometry [] [] sampleBackend =
      (none, sampleIntersected, sampleAfterQuery) ∧
    ∃ new, (InsertAccommodation sampleAccommodation sampleBackend).2.2.calls =
        sampleAfterQuery.calls ++ new ∧
      ∀ collection id doc, Call.updateRegion collection id doc ∈ new ↔
        ∃ pre e post r, sampleIntersected = pre ++ e :: post ∧
          (GetRegionByTypeAndGeoID e.Typ e.GeoID Region.zero
            (pre.foldl (InsertAccommodation.body sampleAccommodation.GeoID)
              sampleAfterQuery)).1 = none ∧
          (GetRegionByTypeAndGeoID e.Typ e.GeoID Region.zero
            (pre.foldl (InsertAccommodation.body sampleAccommodation.GeoID)
              sampleAfterQuery)).2.1 = r ∧
          (r.Typ = RegionTypeCity ∨ r.Typ = RegionTypeMultiCityVicinity ∨
            r.Typ = RegionTypeNeighborhood) ∧
          collection = r.Typ ∧ id = r.GeoID ∧
          doc = { r with Descendants :=
            { r.Descendants with
              Accommodations :=
                r.Descendants.Accommodations ++ [sampleAccommodation.GeoID] } } :=
  ⟨rfl, C9_updates_exactly_for_listed_types sampleAccommodation sampleBackend
    sampleAfterQuery sampleIntersected rfl⟩

theorem loop_lookups (geoID : String) (regions : List GeoRegion) (db : Backend) :
    ∃ new, (regions.foldl (InsertAccommodation.body geoID) db).calls = db.calls ++ new ∧
      new.filterMap Call.lookupKey = regions.map (fun e => (e.Typ, e.GeoID)) := by
  induction regions generalizing db with
  | nil => exact ⟨[], by simp, rfl⟩
  | cons e es ih =>
    obtain ⟨new, hnew, hkeys⟩ := ih (InsertAccommodation.body geoID db e)
    rw [List.foldl_cons, hnew, body_calls]
    refine ⟨_, by rw [List.append_assoc], ?_⟩
    rw [List.filterMap_append, hkeys]
    split <;> simp [List.filterMap_cons, Call.lookupKey]

/-- C10: failures in step 2 are never fatal. Whatever the intersected regions
and whichever Region lookups and Region updates fail, if the intersection query
succeeds and the final `SaveGeoRegion` succeeds, then `InsertAccommodation`
returns the intersected regions with no error, every intersected region has
been looked up, in order (so the ones after a failed one too), and the
accommodation, with type accommodation and a new id, has been added to the geo
collection. -/
theorem C10_step2_failures_not_fatal (acc : GeoRegion) (db db0 : Backend)
    (regions : List GeoRegion)
    (hq : GetIntersectedRegions acc.Geometry [] [] db = (none, regions, db0))
    (hsave : (SaveGeoRegion { acc with Typ := RegionTypeAccommodation }
      (regions.foldl (InsertAccommodation.body acc.GeoID) db0)).1 = none) :
    (InsertAccommodation acc db).1 = .ok regions ∧
    (∃ new, (InsertAccommodation acc db).2.2.calls = db0.calls ++ new ∧
      new.filterMap Call.lookupKey = regions.map (fun e => (e.Typ, e.GeoID))) ∧
    ∃ id, (InsertAccommodation acc db).2.2.geo =
      db.geo ++ [{ acc with Typ := RegionTypeAccommodation, ID := id }] := by
  have hg0 : db0.geo = db.geo := by
    have := intersects_geo acc.Geometry [] [] db
    rw [hq] at this
    exact this
  obtain ⟨hdoc, hgeo⟩ := save_ok _ _ hsave
  obtain ⟨new, hnew, hkeys⟩ := loop_lookups acc.GeoID regions db0
  have hcalls := save_calls { acc with Typ := RegionTypeAccommodation }
    (regions.foldl (InsertAccommodation.body acc.GeoID) db0)
  rw [hnew, List.append_assoc] at hcalls
  rw [InsertAccommodation_after_query acc db db0 regions hq]
  refine ⟨by simp only [hsave], ⟨_, hcalls, ?_⟩, ?_⟩
  · rw [List.filterMap_append, hkeys]
    simp [Call.lookupKey]
  · refine ⟨(regions.foldl (InsertAccommodation.body acc.GeoID) db0).objectIds + 1, ?_⟩
    simp only [hgeo, foldl_body_geo, hg0]

/-- C10 on `sampleBackend`: the update of the city is refused and the Region of
the country is missing (both are logged), the query and the save succeed; the
call returns the three intersected regions and the accommodation is stored. -/
theorem C10_step2_failures_not_fatal_witness :
    GetIntersectedRegions sampleAccommodation.Geometry [] [] sampleBackend =
      (none, sampleIntersected, sampleAfterQuery) ∧
    (SaveGeoRegion { sampleAccommodation with Typ := RegionTypeAccommodation }
      (sampleIntersected.foldl (InsertAccommodation.body sampleAccommodation.GeoID)
        sampleAfterQuery)).1 = none ∧
    (InsertAccommodation sampleAccommodation sampleBackend).2.2.logged =
      ["region id: city, Type: c1", "region id: country, Type: k1"] ∧
    ((InsertAccommodation sampleAccommodation sampleBackend).1 = .ok sampleIntersected ∧
    (∃ new, (InsertAccommodation sampleAccommodation sampleBackend).2.2.calls =
        sampleAfterQuery.calls ++ new ∧
      new.filterMap Call.lookupKey = sampleIntersected.map (fun e => (e.Typ, e.GeoID))) ∧
    ∃ id, (InsertAccommodation sampleAccommodation sampleBackend).2.2.geo =
      sampleBackend.geo ++
        [{ sampleAccommodation with Typ := RegionTypeAccommodation, ID := id }]) :=
  ⟨rfl, rfl, rfl, C10_step2_failures_not_fatal sampleAccommodation sampleBackend
    sampleAfterQuery sampleIntersected rfl rfl⟩

/-! ## Accommodation ingestion: fatal failures, result and insert (C11 to C14) -/

theorem call_objectIds (db : Backend) (c : Call) : (db.call c).2.objectIds = db.objectIds := by
  unfold Backend.call
  split <;> rfl

theorem logError_objectIds (db : Backend) (t : RegionType) (id : String) :
    (db.logError t id).objectIds = db.objectIds := rfl

theorem logError_regions (db : Backend) (t : RegionType) (id : String) :
    (db.logError t id).regions = db.regions := rfl

theorem lookup_objectIds (t : RegionType) (id : String) (r : Region) (db : Backend) :
    (GetRegionByTypeAndGeoID t id r db).2.2.objectIds = db.objectIds := by
  have hc := call_objectIds db (.findRegion t id)
  unfold GetRegionByTypeAndGeoID
  split
  · rename_i h; rw [h] at hc; exact hc
  · rename_i h; rw [h] at hc; exact hc
  · rename_i h; rw [h] at hc
    split <;> exact hc

theorem update_objectIds (e : Region) (db : Backend) :
    (UpdateRegion e db).2.objectIds = db.objectIds := by
  have hc := call_objectIds db (.updateRegion e.Typ e.GeoID e)
  unfold UpdateRegion
  split
  · rename_i h; rw [h] at hc; exact hc
  · rename_i h; rw [h] at hc
    split <;> exact hc

theorem body_objectIds (geoID : String) (db : Backend) (e : GeoRegion) :
    (InsertAccommodation.body geoID db e).objectIds = db.objectIds := by
  have hg := lookup_objectIds e.Typ e.GeoID Region.zero db
  unfold InsertAccommodation.body
  simp only [make_if_empty]
  generalize GetRegionByTypeAndGeoID e.Typ e.GeoID Region.zero db = L at hg ⊢
  obtain ⟨err1, r, db1⟩ := L
  simp only at hg ⊢
  have hg1 : (if err1.isSome = true then db1.logError e.Typ e.GeoID else db1).objectIds =
      db.objectIds := by
    split <;> simp [logError_objectIds, hg]
  split
  · have hu := update_objectIds { r with Descendants :=
      { r.Descendants with Accommodations := r.Descendants.Accommodations ++ [geoID] } }
      (if err1.isSome = true then db1.logError e.Typ e.GeoID else db1)
    generalize UpdateRegion { r with Descendants :=
      { r.Descendants with Accommodations := r.Descendants.Accommodations ++ [geoID] } }
      (if err1.isSome = true then db1.logError e.Typ e.GeoID else db1) = U at hu ⊢
    obtain ⟨err2, db2⟩ := U
    simp only at hu ⊢
    split <;> simp [logError_objectIds, hu, hg1]
  · exact hg1

theorem foldl_body_objectIds (geoID : String) (regions : List GeoRegion) (db : Backend) :
    (regions.foldl (InsertAccommodation.body geoID) db).objectIds = db.objectIds := by
  induction regions generalizing db with
  | nil => rfl
  | cons e es ih => rw [List.foldl_cons, ih, body_objectIds]

theorem intersects_regions (g : Geometry) (ts : List RegionType) (r : List GeoRegion)
    (db : Backend) : (GetIntersectedRegions g ts r db).2.2.regions = db.regions := by
  have hc := call_regions db (.findIntersects (GetIntersectedRegions.dbQuery g ts))
  unfold GetIntersectedRegions
  simp only
  split
  · rename_i h; rw [h] at hc; exact hc
  · rename_i h; rw [h] at hc; exact hc
  · rename_i h; rw [h] at hc; exact hc

theorem intersects_objectIds (g : Geometry) (ts : List RegionType) (r : List GeoRegion)
    (db : Backend) : (GetIntersectedRegions g ts r db).2.2.objectIds = db.objectIds := by
  have hc := call_objectIds db (.findIntersects (GetIntersectedRegions.dbQuery g ts))
  unfold GetIntersectedRegions
  simp only
  split
  · rename_i h; rw [h] at hc; exact hc
  · rename_i h; rw [h] at hc; exact hc
  · rename_i h; rw [h] at hc; exact hc

theorem save_regions (r : GeoRegion) (db : Backend) :
    (SaveGeoRegion r db).2.2.regions = db.regions := by
  have hc := call_regions { db with objectIds := db.objectIds + 1 }
    (.insertGeoRegion { r with ID := db.objectIds + 1 })
  unfold SaveGeoRegion
  simp only
  split
  · rename_i h; rw [h] at hc; exact hc
  · rename_i h; rw [h] at hc; exact hc

/-- A save that fails returns the error `failed to save region` and leaves the
geo collection as it was. -/
theorem save_failed (r : GeoRegion) (db : Backend) (h : (SaveGeoRegion r db).1 ≠ none) :
    (SaveGeoRegion r db).1 = some (.errorf "failed to save region" []) ∧
    (SaveGeoRegion r db).2.2.geo = db.geo := by
  have hg := call_geo { db with objectIds := db.objectIds + 1 }
    (.insertGeoRegion { r with ID := db.objectIds + 1 })
  unfold SaveGeoRegion at h ⊢
  simp only at h ⊢
  split
  · rename_i hcall
    rw [hcall] at hg
    exact ⟨rfl, hg⟩
  · rename_i hcall
    rw [hcall] at h
    simp at h

/-- C11: if the final `SaveGeoRegion` insert fails, `InsertAccommodation` returns
an error (`failed to save region`) and no region list, the geo collection is as
it was before the call (no accommodation record is added), and the region
collections are as step 2 left them: every Region update applied there remains
applied, nothing is rolled back. -/
theorem C11_failed_save_is_fatal (acc : GeoRegion) (db db0 : Backend)
    (regions : List GeoRegion)
    (hq : GetIntersectedRegions acc.Geometry [] [] db = (none, regions, db0))
    (hsave : (SaveGeoRegion { acc with Typ := RegionTypeAccommodation }
      (regions.foldl (InsertAccommodation.body acc.GeoID) db0)).1 ≠ none) :
    (InsertAccommodation acc db).1 = .error (.errorf "failed to save region" []) ∧
    (InsertAccommodation acc db).2.2.geo = db.geo ∧
    (InsertAccommodation acc db).2.2.regions =
      (regions.foldl (InsertAccommodation.body acc.GeoID) db0).regions := by
  have hg0 : db0.geo = db.geo := by
    have := intersects_geo acc.Geometry [] [] db
    rw [hq] at this
    exact this
  obtain ⟨herr, hgeo⟩ := save_failed _ _ hsave
  rw [InsertAccommodation_after_query acc db db0 regions hq]
  refine ⟨by simp only [herr], ?_, ?_⟩
  · simp only [hgeo, foldl_body_geo, hg0]
  · exact save_regions _ _

/-- C11 on `sampleBackendSaveRefused`: the update of the neighborhood is applied
in step 2, then the insert is refused; the call fails, the geo collection has
its three documents as before, and the neighborhood keeps the accommodation
`a1` among its descendants. -/
theorem C11_failed_save_is_fatal_witness :
    GetIntersectedRegions sampleAccommodation.Geometry [] [] sampleBackendSaveRefused =
      (none, sampleIntersected, sampleSaveRefusedAfterQuery) ∧
    (SaveGeoRegion { sampleAccommodation with Typ := RegionTypeAccommodation }
      (sampleIntersected.foldl (InsertAccommodation.body sampleAccommodation.GeoID)
        sampleSaveRefusedAfterQuery)).1 ≠ none ∧
    (InsertAccommodation sampleAccommodation sampleBackendSaveRefused).2.2.regions =
      [("city", sampleRegion 1 "c1" RegionTypeCity ["a0"]),
       ("neighborhood", sampleRegion 2 "n1" RegionTypeNeighborhood ["a1"])] ∧
    ((InsertAccommodation sampleAccommodation sampleBackendSaveRefused).1 =
        .error (.errorf "failed to save region" []) ∧
    (InsertAccommodation sampleAccommodation sampleBackendSaveRefused).2.2.geo =
      sampleBackendSaveRefused.geo ∧
    (InsertAccommodation sampleAccommodation sampleBackendSaveRefused).2.2.regions =
      (sampleIntersected.foldl (InsertAccommodation.body sampleAccommodation.GeoID)
        sampleSaveRefusedAfterQuery).regions) :=
  ⟨rfl, by decide, rfl,
    C11_failed_save_is_fatal sampleAccommodation sampleBackendSaveRefused
      sampleSaveRefusedAfterQuery sampleIntersected rfl (by decide)⟩

/-- C12: if the initial intersection query of `InsertAccommodation` fails with
error `e`, `InsertAccommodation` returns that error `e` and no list, the query
is the only call made (no Region lookup, no Region update, no GeoRegion
insert), and the store is unchanged: the region collections, the geo
collection and the supply of object ids are as before the call. -/
theorem C12_failed_query_aborts (acc : GeoRegion) (db : Backend) (e : Error)
    (hq : (GetIntersectedRegions acc.Geometry [] [] db).1 = some e) :
    (InsertAccommodation acc db).1 = .error e ∧
    (InsertAccommodation acc db).2.2.calls =
      db.calls ++ [.findIntersects (GetIntersectedRegions.dbQuery acc.Geometry [])] ∧
    (InsertAccommodation acc db).2.2.regions = db.regions ∧
    (InsertAccommodation acc db).2.2.geo = db.geo ∧
    (InsertAccommodation acc db).2.2.objectIds = db.objectIds := by
  have h1 := intersects_calls acc.Geometry [] [] db
  have h2 := intersects_regions acc.Geometry [] [] db
  have h3 := intersects_geo acc.Geometry [] [] db
  have h4 := intersects_objectIds acc.Geometry [] [] db
  unfold InsertAccommodation
  generalize GetIntersectedRegions acc.Geometry [] [] db = Q at hq h1 h2 h3 h4 ⊢
  obtain ⟨err, l, db0⟩ := Q
  simp only at hq h1 h2 h3 h4 ⊢
  subst hq
  exact ⟨rfl, h1, h2, h3, h4⟩

/-- C12 on `sampleBackendQueryRefused`: the backend refuses the query, the call
returns the error of the query and makes no other call. -/
theorem C12_failed_query_aborts_witness :
    (GetIntersectedRegions sampleAccommodation.Geometry [] [] sampleBackendQueryRefused).1 =
      some (.wrap "failed to get regions %w" [] (.mgo (.fault "no reachable servers"))) ∧
    ((InsertAccommodation sampleAccommodation sampleBackendQueryRefused).1 =
      .error (.wrap "failed to get regions %w" [] (.mgo (.fault "no reachable servers"))) ∧
    (InsertAccommodation sampleAccommodation sampleBackendQueryRefused).2.2.calls =
      sampleBackendQueryRefused.calls ++
        [.findIntersects (GetIntersectedRegions.dbQuery sampleAccommodation.Geometry [])] ∧
    (InsertAccommodation sampleAccommodation sampleBackendQueryRefused).2.2.regions =
      sampleBackendQueryRefused.regions ∧
    (InsertAccommodation sampleAccommodation sampleBackendQueryRefused).2.2.geo =
      sampleBackendQueryRefused.geo ∧
    (InsertAccommodation sampleAccommodation sampleBackendQueryRefused).2.2.objectIds =
      sampleBackendQueryRefused.objectIds) :=
  ⟨rfl, C12_failed_query_aborts sampleAccommodation sampleBackendQueryRefused _ rfl⟩

/-- C13: whenever `InsertAccommodation` succeeds, the list it returns is the
list the step-1 intersection query produced (the same elements in the same
order), whatever Region lookups or updates failed in step 2. -/
theorem C13_returns_intersected_list (acc : GeoRegion) (db : Backend) (l : List GeoRegion)
    (h : (InsertAccommodation acc db).1 = .ok l) :
    (GetIntersectedRegions acc.Geometry [] [] db).1 = none ∧
    l = (GetIntersectedRegions acc.Geometry [] [] db).2.1 := by
  unfold InsertAccommodation at h
  generalize GetIntersectedRegions acc.Geometry [] [] db = Q at h ⊢
  obtain ⟨err, regions, db0⟩ := Q
  cases err with
  | some e => cases h
  | none =>
    simp only at h ⊢
    generalize SaveGeoRegion { acc with Typ := RegionTypeAccommodation }
      (regions.foldl (InsertAccommodation.body acc.GeoID) db0) = S at h
    obtain ⟨err2, a, d⟩ := S
    cases err2 with
    | some e => cases h
    | none =>
      simp only [Except.ok.injEq] at h
      exact ⟨trivial, h.symm⟩

/-- C13 on `sampleBackend`, where one lookup finds nothing and one update is
refused: the call returns the three regions of the query. -/
theorem C13_returns_intersected_list_witness :
    (InsertAccommodation sampleAccommodation sampleBackend).1 = .ok sampleIntersected ∧
    (InsertAccommodation sampleAccommodation sampleBackend).2.2.logged =
      ["region id: city, Type: c1", "region id: country, Type: k1"] ∧
    ((GetIntersectedRegions sampleAccommodation.Geometry [] [] sampleBackend).1 = none ∧
    sampleIntersected =
      (GetIntersectedRegions sampleAccommodation.Geometry [] [] sampleBackend).2.1) :=
  ⟨rfl, rfl, C13_returns_intersected_list sampleAccommodation sampleBackend sampleIntersected
    rfl⟩

/-- C14: on the success path of `InsertAccommodation`, the calls made after the
intersection query are Region lookups and Region updates only, followed by
exactly one insert, which comes last. The record inserted, and added to the geo
collection, has type accommodation whatever type the caller supplied, the next
id of the generator (one never handed out before, whatever id the caller
supplied), and the caller's GeoID and geometry. -/
theorem C14_one_insert_after_updates (acc : GeoRegion) (db db0 : Backend)
    (regions : List GeoRegion)
    (hq : GetIntersectedRegions acc.Geometry [] [] db = (none, regions, db0))
    (hsave : (SaveGeoRegion { acc with Typ := RegionTypeAccommodation }
      (regions.foldl (InsertAccommodation.body acc.GeoID) db0)).1 = none) :
    ∃ loop,
      (∀ c ∈ loop, (∃ t id, c = Call.findRegion t id) ∨
        ∃ t id doc, c = Call.updateRegion t id doc) ∧
      (InsertAccommodation acc db).2.2.calls =
        db.calls ++ [.findIntersects (GetIntersectedRegions.dbQuery acc.Geometry [])] ++ loop ++
          [.insertGeoRegion
            { ID := db.objectIds + 1, GeoID := acc.GeoID, Typ := RegionTypeAccommodation,
              Geometry := acc.Geometry }] ∧
      (InsertAccommodation acc db).2.2.geo =
        db.geo ++
          [{ ID := db.objectIds + 1, GeoID := acc.GeoID, Typ := RegionTypeAccommodation,
             Geometry := acc.Geometry }] ∧
      (InsertAccommodation acc db).2.1 =
        { ID := db.objectIds + 1, GeoID := acc.GeoID, Typ := RegionTypeAccommodation,
          Geometry := acc.Geometry } := by
  have hg0 : db0.geo = db.geo := by
    have := intersects_geo acc.Geometry [] [] db
    rw [hq] at this
    exact this
  have hc0 : db0.calls =
      db.calls ++ [.findIntersects (GetIntersectedRegions.dbQuery acc.Geometry [])] := by
    have := intersects_calls acc.Geometry [] [] db
    rw [hq] at this
    exact this
  have ho0 : db0.objectIds = db.objectIds := by
    have := intersects_objectIds acc.Geometry [] [] db
    rw [hq] at this
    exact this
  obtain ⟨hdoc, hgeo⟩ := save_ok _ _ hsave
  obtain ⟨loop, hloop, hkind, -⟩ := loop_updates acc.GeoID regions db0
  have hcalls := save_calls { acc with Typ := RegionTypeAccommodation }
    (regions.foldl (InsertAccommodation.body acc.GeoID) db0)
  rw [InsertAccommodation_after_query acc db db0 regions hq]
  refine ⟨loop, hkind, ?_, ?_, ?_⟩
  · simp only [hcalls, hloop, hc0, foldl_body_objectIds, ho0]
  · simp only [hgeo, foldl_body_geo, hg0, foldl_body_objectIds, ho0]
  · simp only [hdoc, foldl_body_objectIds, ho0]

/-- C14 on `sampleBackend`, where the caller supplies the type `hotel` and the
generator has handed out 20 ids: the record inserted has type accommodation and
id 21. -/
theorem C14_one_insert_after_updates_witness :
    GetIntersectedRegions sampleAccommodation.Geometry [] [] sampleBackend =
      (none, sampleIntersected, sampleAfterQuery) ∧
    (SaveGeoRegion { sampleAccommodation with Typ := RegionTypeAccommodation }
      (sampleIntersected.foldl (InsertAccommodation.body sampleAccommodation.GeoID)
        sampleAfterQuery)).1 = none ∧
    ∃ loop,
      (∀ c ∈ loop, (∃ t id, c = Call.findRegion t id) ∨
        ∃ t id doc, c = Call.updateRegion t id doc) ∧
      (InsertAccommodation sampleAccommodation sampleBackend).2.2.calls =
        sampleBackend.calls ++
          [.findIntersects (GetIntersectedRegions.dbQuery sampleAccommodation.Geometry [])] ++
          loop ++
          [.insertGeoRegion
            { ID := sampleBackend.objectIds + 1, GeoID := sampleAccommodation.GeoID,
              Typ := RegionTypeAccommodation, Geometry := sampleAccommodation.Geometry }] ∧
      (InsertAccommodation sampleAccommodation sampleBackend).2.2.geo =
        sampleBackend.geo ++
          [{ ID := sampleBackend.objectIds + 1, GeoID := sampleAccommodation.GeoID,
             Typ := RegionTypeAccommodation, Geometry := sampleAccommodation.Geometry }] ∧
      (InsertAccommodation sampleAccommodation sampleBackend).2.1 =
        { ID := sampleBackend.objectIds + 1, GeoID := sampleAccommodation.GeoID,
          Typ := RegionTypeAccommodation, Geometry := sampleAccommodation.Geometry } :=
  ⟨rfl, rfl, C14_one_insert_after_updates sampleAccommodation sampleBackend sampleAfterQuery
    sampleIntersected rfl rfl⟩

/-! ## Entities by IATA code (C15 to C18) -/

/-- C15: `GetEntitiesByIataCode` fails with `ErrMissingParameters` if and only if
`iataCode` is empty or `language` is empty, whatever the store holds and however
the goroutines would be scheduled; and in that case no lookup is made, neither
the one of the cities nor the one of the airports. -/
theorem C15_missing_parameters (lower : String → String) (iataCode language : String)
    (db : BackendV1)
    (schedule : List Bool) :
    ((GetEntitiesByIataCode lower iataCode language db schedule).1 = .error .ErrMissingParameters ↔
      iataCode = "" ∨ language = "") ∧
    (iataCode = "" ∨ language = "" →
      (GetEntitiesByIataCode lower iataCode language db schedule).2 = []) := by
  by_cases h : iataCode = "" ∨ language = ""
  · simp [GetEntitiesByIataCode, validateRequest, h]
  · simp only [GetEntitiesByIataCode, validateRequest, h, if_false, iff_false, false_implies,
      and_true]
    split
    · simp
    · simp
    · split <;> simp

/-- C15 at an empty code: the call fails with `ErrMissingParameters` and makes
no lookup. -/
theorem C15_missing_parameters_witness :
    ("" = "" ∨ "en" = "") ∧
    (GetEntitiesByIataCode ToLower "" "en" sampleV1 []).1 = .error .ErrMissingParameters ∧
    (GetEntitiesByIataCode ToLower "" "en" sampleV1 []).2 = [] :=
  ⟨Or.inl rfl, (C15_missing_parameters ToLower "" "en" sampleV1 []).1.2 (Or.inl rfl),
    (C15_missing_parameters ToLower "" "en" sampleV1 []).2 (Or.inl rfl)⟩

theorem foldl_append_singleton {α β : Type} (f : α → β) (xs : List α) (acc : List β) :
    xs.foldl (fun result x => result ++ [f x]) acc = acc ++ xs.map f := by
  induction xs generalizing acc with
  | nil => simp
  | cons x xs ih => simp [ih]

/-- C18, as the code has it: `findCities` and `findAirports` map each record
returned by the repository, in order and one-to-one, to an Entity whose ID,
IataCode and CountryID come from that record (the ids in hexadecimal), whose
Type is CITY for cities and AIRPORT for airports, and whose Name is the entry of
the record's name map under the lower-cased requested language
(`strings.ToLower(language)`, for which `lower language` stands), or the empty
string, with no error and no other language tried, when the map has no entry
under that key. -/
theorem C18_entity_projection (lower : String → String) (iataCode language : String)
    (db : BackendV1) :
    (∀ cities,
      FindCities { CountryID := "", StateID := "", IataCode := iataCode } db = .value cities →
      findCities lower iataCode language db = .value (cities.map (fun city =>
        ({ ID := city.ID.Hex, IataCode := city.IataCode,
           Name := mapIndex city.Name (lower language),
           Typ := GeoEntityTypeCity, CountryID := city.CountryID.Hex } : Entity)))) ∧
    (∀ airports,
      FindAirports { CountryID := "", StateID := "", CityID := "", IataCode := iataCode } db =
        .value airports →
      findAirports lower iataCode language db = .value (airports.map (fun airport =>
        ({ ID := airport.ID.Hex, IataCode := airport.IataCode,
           Name := mapIndex airport.Name (lower language),
           Typ := GeoEntityTypeAirport, CountryID := airport.CountryID.Hex } : Entity)))) ∧
    ∀ (names : List (Language × String)) (key : Language),
      (names.lookup key = none → mapIndex names key = "") ∧
      ∀ name, names.lookup key = some name → mapIndex names key = name := by
  refine ⟨?_, ?_, ?_⟩
  · intro cities h
    simp only [findCities, h, foldl_append_singleton, List.nil_append]
  · intro airports h
    simp only [findAirports, h, foldl_append_singleton, List.nil_append]
  · intro names key
    constructor
    · intro h; simp [mapIndex, h]
    · intro name h; simp [mapIndex, h]

/-- C18 on `sampleV1`, for the code `LON` and the language `es`: the city found
becomes one Entity of type CITY named `Londres`, the airport found, which has
no Spanish name, one Entity of type AIRPORT with the empty name. -/
theorem C18_entity_projection_witness :
    FindCities { CountryID := "", StateID := "", IataCode := "LON" } sampleV1 =
      .value sampleV1.cities ∧
    FindAirports { CountryID := "", StateID := "", CityID := "", IataCode := "LON" } sampleV1 =
      .value sampleV1.airports ∧
    findCities ToLower "LON" "es" sampleV1 = .value
      [{ ID := "000000000000000000000001", IataCode := "LON", Name := "Londres",
         Typ := "CITY", CountryID := "000000000000000000000007" }] ∧
    findAirports ToLower "LON" "es" sampleV1 = .value
      [{ ID := "000000000000000000000002", IataCode := "LON", Name := "",
         Typ := "AIRPORT", CountryID := "000000000000000000000007" }] :=
  ⟨rfl, rfl, (C18_entity_projection ToLower "LON" "es" sampleV1).1 sampleV1.cities rfl,
    (C18_entity_projection ToLower "LON" "es" sampleV1).2.1 sampleV1.airports rfl⟩

/-- C18 as stated fails for a language not written in lower case. Requested
`EN`: the name map of London in `sampleV1` has no entry for `EN`, yet the Entity
is named `London`, taken from the entry `en`; and in `sampleV1UpperKey` the
name map does have an entry for `EN`, yet the Entity has the empty name
(`strings.ToLower` of the ASCII text `EN` is `en`, as `ToLower` has it). -/
theorem C18_counterexample :
    List.lookup "EN" [("en", "London"), ("es", "Londres")] = none ∧
    findCities ToLower "LON" "EN" sampleV1 = .value
      [{ ID := "000000000000000000000001", IataCode := "LON", Name := "London",
         Typ := "CITY", CountryID := "000000000000000000000007" }] ∧
    List.lookup "EN" [("EN", "London")] = some "London" ∧
    findCities ToLower "LON" "EN" sampleV1UpperKey = .value
      [{ ID := "000000000000000000000001", IataCode := "LON", Name := "",
         Typ := "CITY", CountryID := "000000000000000000000007" }] :=
  ⟨by decide, by decide, by decide, by decide⟩

theorem run_append (lower : String → String) (iataCode language : String)
    (db : BackendV1) (s₁ s₂ : List Bool)
    (f : Fanout) :
    Fanout.run lower iataCode language db (s₁ ++ s₂) f =
      Fanout.run lower iataCode language db s₂ (Fanout.run lower iataCode language db s₁ f) := by
  induction s₁ generalizing f with
  | nil => rfl
  | cons b s ih => cases b <;> simp [Fanout.run, ih]

/-- A property kept by each step of each goroutine is kept by a run. -/
theorem run_invariant (lower : String → String) (iataCode language : String)
    (db : BackendV1) (P : Fanout → Prop)
    (hc : ∀ f, P f → P (f.stepCity lower iataCode language db))
    (ha : ∀ f, P f → P (f.stepAirport lower iataCode language db))
    (schedule : List Bool) (f : Fanout) (h : P f) :
    P (Fanout.run lower iataCode language db schedule f) := by
  induction schedule generalizing f with
  | nil => exact h
  | cons b s ih =>
    cases b
    · exact ih _ (ha f h)
    · exact ih _ (hc f h)

theorem errWeight_start (find : Answer (List Entity)) : errWeight find .start = 0 := by
  simp [errWeight, Goroutine.hasRead]

theorem errWeight_returned (find r : Answer (List Entity)) :
    errWeight find (.returned r) = 0 := by
  simp [errWeight, Goroutine.hasRead]

theorem errWeight_panicked (find : Answer (List Entity)) (msg : String) :
    errWeight find (.panicked msg) = 0 := by
  simp [errWeight, Goroutine.hasRead]

theorem errWeight_assignErrs (find : Answer (List Entity)) (v : List String) :
    errWeight find (.assignErrs v) = errWeight find .done := by
  simp [errWeight, Goroutine.hasRead]

theorem errWeight_assignResult (find : Answer (List Entity)) (v : List Entity) :
    errWeight find (.assignResult v) = errWeight find .done := by
  simp [errWeight, Goroutine.hasRead]

theorem errWeight_error_done (e : Error) : errWeight (.error e) .done = 1 := by
  simp [errWeight, Goroutine.hasRead, Answer.isError]

theorem errWeight_value_done (found : List Entity) : errWeight (.value found) .done = 0 := by
  simp [errWeight, Goroutine.hasRead, Answer.isError]

theorem errWeight_le_one (find : Answer (List Entity)) (g : Goroutine) :
    errWeight find g ≤ 1 := by
  unfold errWeight
  split <;> omega

/-- One step of a goroutine keeps the bound on `errs`, whichever goroutine it
is: `g` is the one that steps, `o` the other one. -/
theorem errsBounded_step (lookup : Lookup) (fg fo : Answer (List Entity)) (g o : Goroutine)
    (s : Shared) (h1 : g.follows fg)
    (h3 : s.errs.length ≤ errWeight fg g + errWeight fo o)
    (h4 : ∀ v, g = .assignErrs v → v.length ≤ errWeight fg g + errWeight fo o)
    (h5 : ∀ v, o = .assignErrs v → v.length ≤ errWeight fg g + errWeight fo o) :
    (Goroutine.step lookup fg g s).1.follows fg ∧
    (Goroutine.step lookup fg g s).2.errs.length ≤
      errWeight fg (Goroutine.step lookup fg g s).1 + errWeight fo o ∧
    (∀ v, (Goroutine.step lookup fg g s).1 = .assignErrs v →
      v.length ≤ errWeight fg (Goroutine.step lookup fg g s).1 + errWeight fo o) ∧
    (∀ v, o = .assignErrs v →
      v.length ≤ errWeight fg (Goroutine.step lookup fg g s).1 + errWeight fo o) := by
  cases g with
  | start =>
    simp only [Goroutine.step, errWeight_start, errWeight_returned] at *
    exact ⟨rfl, h3, (fun v hv => by cases hv), h5⟩
  | returned r =>
    simp only [Goroutine.follows] at h1
    subst h1
    cases r with
    | value found =>
      simp only [Goroutine.step, errWeight_returned, errWeight_assignResult,
        errWeight_value_done] at *
      exact ⟨⟨found, rfl⟩, h3, (fun v hv => by cases hv), h5⟩
    | error e =>
      simp only [Goroutine.step, errWeight_returned, errWeight_assignErrs,
        errWeight_error_done, Nat.zero_add] at *
      refine ⟨rfl, by omega, ?_, ?_⟩
      · intro v hv
        simp only [Goroutine.assignErrs.injEq] at hv
        subst hv
        simp only [List.length_append, List.length_singleton]
        omega
      · intro v hv
        have := h5 v hv
        omega
    | panic msg =>
      simp only [Goroutine.step, errWeight_returned, errWeight_panicked] at *
      exact ⟨rfl, h3, (fun v hv => by cases hv), h5⟩
  | assignErrs v =>
    simp only [Goroutine.follows] at h1
    simp only [Goroutine.step, errWeight_assignErrs] at *
    refine ⟨?_, h4 v rfl, (fun v' hv' => by cases hv'), h5⟩
    intro msg hmsg
    rw [hmsg] at h1
    simp [Answer.isError] at h1
  | assignResult v =>
    obtain ⟨found, hfound⟩ := h1
    simp only [Goroutine.step, errWeight_assignResult] at *
    refine ⟨?_, h3, (fun v' hv' => by cases hv'), h5⟩
    intro msg hmsg
    rw [hmsg] at hfound
    cases hfound
  | done => exact ⟨h1, h3, h4, h5⟩
  | panicked msg => exact ⟨h1, h3, h4, h5⟩

theorem errsBounded_stepCity (lower : String → String) (iataCode language : String)
    (db : BackendV1) (f : Fanout)
    (h : ErrsBounded (findCities lower iataCode language db)
      (findAirports lower iataCode language db) f) :
    ErrsBounded (findCities lower iataCode language db) (findAirports lower iataCode language db)
      (f.stepCity lower iataCode language db) := by
  obtain ⟨h1, h2, h3, h4, h5⟩ := h
  obtain ⟨k1, k3, k4, k5⟩ := errsBounded_step
    (.FindCities { CountryID := "", StateID := "", IataCode := iataCode })
    (findCities lower iataCode language db) (findAirports lower iataCode language db)
    f.city f.airport f.shared h1 h3 h4 h5
  exact ⟨k1, h2, k3, k4, k5⟩

theorem errsBounded_stepAirport (lower : String → String) (iataCode language : String)
    (db : BackendV1) (f : Fanout)
    (h : ErrsBounded (findCities lower iataCode language db)
      (findAirports lower iataCode language db) f) :
    ErrsBounded (findCities lower iataCode language db) (findAirports lower iataCode language db)
      (f.stepAirport lower iataCode language db) := by
  obtain ⟨h1, h2, h3, h4, h5⟩ := h
  obtain ⟨k1, k3, k4, k5⟩ := errsBounded_step
    (.FindAirports { CountryID := "", StateID := "", CityID := "", IataCode := iataCode })
    (findAirports lower iataCode language db) (findCities lower iataCode language db)
    f.airport f.city f.shared h2 (by omega) (fun v hv => by have := h5 v hv; omega)
    (fun v hv => by have := h4 v hv; omega)
  exact ⟨h1, k1, by simp only [Fanout.stepAirport]; omega,
    fun v hv => by have := k5 v hv; simp only [Fanout.stepAirport]; omega,
    fun v hv => by have := k4 v hv; simp only [Fanout.stepAirport]; omega⟩

theorem nothingFound_step (lookup : Lookup) (g : Goroutine) (s : Shared)
    (hr : s.result = []) (he : s.errs = []) (hg : g.foundNothing) :
    (Goroutine.step lookup (.value []) g s).2.result = [] ∧
    (Goroutine.step lookup (.value []) g s).2.errs = [] ∧
    (Goroutine.step lookup (.value []) g s).1.foundNothing := by
  rcases hg with rfl | rfl | rfl | rfl
  · exact ⟨hr, he, Or.inr (Or.inl rfl)⟩
  · refine ⟨hr, he, Or.inr (Or.inr (Or.inl ?_))⟩
    simp [Goroutine.step, hr]
  · exact ⟨rfl, he, Or.inr (Or.inr (Or.inr rfl))⟩
  · exact ⟨hr, he, Or.inr (Or.inr (Or.inr rfl))⟩

theorem nothingFound_run (lower : String → String) (iataCode language : String) (db : BackendV1)
    (hc : findCities lower iataCode language db = .value [])
    (ha : findAirports lower iataCode language db = .value [])
    (schedule : List Bool) (f : Fanout) (h : NothingFound f) :
    NothingFound (Fanout.run lower iataCode language db schedule f) := by
  refine run_invariant lower iataCode language db NothingFound ?_ ?_ schedule f h
  · rintro f ⟨h1, h2, h3, h4⟩
    have := nothingFound_step
      (.FindCities { CountryID := "", StateID := "", IataCode := iataCode }) f.city f.shared
      h1 h2 h3
    simp only [Fanout.stepCity, hc]
    exact ⟨this.1, this.2.1, this.2.2, h4⟩
  · rintro f ⟨h1, h2, h3, h4⟩
    have := nothingFound_step
      (.FindAirports { CountryID := "", StateID := "", CityID := "", IataCode := iataCode })
      f.airport f.shared h1 h2 h4
    simp only [Fanout.stepAirport, ha]
    exact ⟨this.1, this.2.1, h3, this.2.2⟩

theorem errsBounded_run (lower : String → String) (iataCode language : String) (db : BackendV1)
    (schedule : List Bool) (f : Fanout)
    (h : ErrsBounded (findCities lower iataCode language db)
      (findAirports lower iataCode language db) f) :
    ErrsBounded (findCities lower iataCode language db) (findAirports lower iataCode language db)
      (Fanout.run lower iataCode language db schedule f) :=
  run_invariant lower iataCode language db _ (errsBounded_stepCity lower iataCode language db)
    (errsBounded_stepAirport lower iataCode language db) schedule f h

theorem errWeight_pos (find : Answer (List Entity)) (g : Goroutine)
    (h : 1 ≤ errWeight find g) : ∃ e, find = .error e := by
  unfold errWeight at h
  split at h
  · rename_i hb
    cases find with
    | error e => exact ⟨e, rfl⟩
    | value a => simp [Answer.isError] at hb
    | panic m => simp [Answer.isError] at hb
  · omega

/-- A lookup by a code none of whose pieces is the code of a stored city, on a
backend that answers, finds no record and fails not. -/
theorem findCities_no_match (lower : String → String) (iataCode language : String) (db : BackendV1)
    (hi : iataCode ≠ "") (hf : db.citiesFault = none)
    (hno : ∀ c ∈ db.cities, c.IataCode ∉ Split iataCode) :
    findCities lower iataCode language db = .value [] := by
  have hfilter : db.cities.filter (fun d => decide (d.IataCode ∈ Split iataCode)) = [] := by
    rw [List.filter_eq_nil_iff]
    intro c hc
    simpa using hno c hc
  simp [findCities, FindCities, hi, hf, holds, hfilter]

theorem findAirports_no_match (lower : String → String) (iataCode language : String)
    (db : BackendV1)
    (hi : iataCode ≠ "") (hf : db.airportsFault = none)
    (hno : ∀ a ∈ db.airports, a.IataCode ∉ Split iataCode) :
    findAirports lower iataCode language db = .value [] := by
  have hfilter : db.airports.filter (fun d => decide (d.IataCode ∈ Split iataCode)) = [] := by
    rw [List.filter_eq_nil_iff]
    intro c hc
    simpa using hno c hc
  simp [findAirports, FindAirports, hi, hf, holds, hfilter]

theorem errsBounded_init (fc fa : Answer (List Entity)) :
    ErrsBounded fc fa
      { city := .start, airport := .start,
        shared := { result := [], errs := [], lookups := [] } } :=
  ⟨trivial, trivial, Nat.zero_le _, (fun v hv => by cases hv), (fun v hv => by cases hv)⟩

/-- C16, as the code has it: for non-empty `iataCode` and `language`,
`GetEntitiesByIataCode` fails with `ErrEntityNotFound` only if both the city
lookup and the airport lookup fail, however the two goroutines are scheduled;
it does fail so when both fail and one goroutine runs after the other; and a
code none of whose pieces is the code of a stored city or airport makes both
lookups succeed with no record, so that the call returns an empty result and no
error. -/
theorem C16_not_found_only_if_both_fail (lower : String → String) (iataCode language : String)
    (db : BackendV1)
    (schedule : List Bool) (hi : iataCode ≠ "") (hl : language ≠ "") :
    ((GetEntitiesByIataCode lower iataCode language db schedule).1 = .error .ErrEntityNotFound →
      (∃ e, findCities lower iataCode language db = .error e) ∧
      ∃ e, findAirports lower iataCode language db = .error e) ∧
    ((∃ e, findCities lower iataCode language db = .error e) →
      (∃ e, findAirports lower iataCode language db = .error e) →
      (GetEntitiesByIataCode lower iataCode language db []).1 = .error .ErrEntityNotFound ∧
      (GetEntitiesByIataCode lower iataCode language db [false, false, false]).1 =
        .error .ErrEntityNotFound) ∧
    (db.citiesFault = none → db.airportsFault = none →
      (∀ c ∈ db.cities, c.IataCode ∉ Split iataCode) →
      (∀ a ∈ db.airports, a.IataCode ∉ Split iataCode) →
      (GetEntitiesByIataCode lower iataCode language db schedule).1 = .value []) := by
  have hv : validateRequest iataCode language = none := by
    simp [validateRequest, hi, hl]
  refine ⟨?_, ?_, ?_⟩
  · intro h
    have hb := errsBounded_run lower iataCode language db
      (schedule ++ [true, true, true, false, false, false]) _
      (errsBounded_init (findCities lower iataCode language db)
      (findAirports lower iataCode language db))
    obtain ⟨-, -, h3, -, -⟩ := hb
    simp only [GetEntitiesByIataCode, hv] at h
    have hlen : (Fanout.run lower iataCode language db
        (schedule ++ [true, true, true, false, false, false])
        { city := .start, airport := .start,
          shared := { result := [], errs := [], lookups := [] } }).shared.errs.length = 2 := by
      split at h
      · cases h
      · cases h
      · split at h
        · rename_i hlen
          exact hlen
        · cases h
    rw [hlen] at h3
    have w1 := errWeight_le_one (findCities lower iataCode language db)
      (Fanout.run lower iataCode language db (schedule ++ [true, true, true, false, false, false])
        { city := .start, airport := .start,
          shared := { result := [], errs := [], lookups := [] } }).city
    have w2 := errWeight_le_one (findAirports lower iataCode language db)
      (Fanout.run lower iataCode language db (schedule ++ [true, true, true, false, false, false])
        { city := .start, airport := .start,
          shared := { result := [], errs := [], lookups := [] } }).airport
    have p1 : 1 ≤ errWeight (findCities lower iataCode language db)
        (Fanout.run lower iataCode language db (schedule ++ [true, true, true, false, false, false])
          { city := .start, airport := .start,
            shared := { result := [], errs := [], lookups := [] } }).city := by
      omega
    have p2 : 1 ≤ errWeight (findAirports lower iataCode language db)
        (Fanout.run lower iataCode language db (schedule ++ [true, true, true, false, false, false])
          { city := .start, airport := .start,
            shared := { result := [], errs := [], lookups := [] } }).airport := by
      omega
    exact ⟨errWeight_pos _ _ p1, errWeight_pos _ _ p2⟩
  · rintro ⟨e1, h1⟩ ⟨e2, h2⟩
    constructor <;>
      simp [GetEntitiesByIataCode, hv, Fanout.run, Fanout.stepCity, Fanout.stepAirport,
        Goroutine.step, h1, h2, ErrorsMaxCount]
  · intro hf1 hf2 hno1 hno2
    have hc := findCities_no_match lower iataCode language db hi hf1 hno1
    have ha := findAirports_no_match lower iataCode language db hi hf2 hno2
    obtain ⟨hr, he, hcity, hair⟩ := nothingFound_run lower iataCode language db hc ha
      (schedule ++ [true, true, true, false, false, false])
      { city := .start, airport := .start,
        shared := { result := [], errs := [], lookups := [] } }
      ⟨rfl, rfl, Or.inl rfl, Or.inl rfl⟩
    simp only [GetEntitiesByIataCode, hv]
    split
    · rename_i msg hp
      rcases hcity with h | h | h | h <;> rw [h] at hp <;> cases hp
    · rename_i msg hp _
      rcases hair with h | h | h | h <;> rw [h] at hp <;> cases hp
    · simp [he, hr, ErrorsMaxCount]

/-- C16 at the code `ZZZ999`: when the call fails with `ErrEntityNotFound` on
`sampleV1Down`, both lookups have failed; on `sampleV1`, where no city and no
airport has that code, the call returns the empty result. -/
theorem C16_not_found_only_if_both_fail_witness :
    "ZZZ999" ≠ "" ∧ "en" ≠ "" ∧
    (GetEntitiesByIataCode ToLower "ZZZ999" "en" sampleV1Down []).1 = .error .ErrEntityNotFound ∧
    ((∃ e, findCities ToLower "ZZZ999" "en" sampleV1Down = .error e) ∧
      ∃ e, findAirports ToLower "ZZZ999" "en" sampleV1Down = .error e) ∧
    (GetEntitiesByIataCode ToLower "ZZZ999" "en" sampleV1 [true, false]).1 = .value [] :=
  ⟨by decide, by decide, rfl,
    (C16_not_found_only_if_both_fail ToLower "ZZZ999" "en" sampleV1Down [] (by decide) (by decide)).1 rfl,
    (C16_not_found_only_if_both_fail ToLower "ZZZ999" "en" sampleV1 [true, false] (by decide)
      (by decide)).2.2 rfl rfl (by decide) (by decide)⟩

/-- C16 as stated fails at the code `ZZZ999` on `sampleV1`: no city and no
airport has that code, both lookups succeed with no record, and the call
returns the empty result with no error, not `ErrEntityNotFound`. -/
theorem C16_counterexample :
    (∀ c ∈ sampleV1.cities, c.IataCode ∉ Split "ZZZ999") ∧
    (∀ a ∈ sampleV1.airports, a.IataCode ∉ Split "ZZZ999") ∧
    findCities ToLower "ZZZ999" "en" sampleV1 = .value [] ∧
    findAirports ToLower "ZZZ999" "en" sampleV1 = .value [] ∧
    (GetEntitiesByIataCode ToLower "ZZZ999" "en" sampleV1 []).1 = .value [] :=
  ⟨by decide, by decide, rfl, rfl, rfl⟩

/-- When both lookups fail and the two goroutines evaluate `append(errs, ...)`
before either assigns to `errs`, one error is lost: `errs` ends with one
element and the call returns the empty result with no error. -/
theorem interleaved_appends_lose_error :
    (∃ e, findCities ToLower "ZZZ999" "en" sampleV1Down = .error e) ∧
    (∃ e, findAirports ToLower "ZZZ999" "en" sampleV1Down = .error e) ∧
    (GetEntitiesByIataCode ToLower "ZZZ999" "en" sampleV1Down
      [true, false, true, false, true, false]).1 = .value [] :=
  ⟨⟨_, rfl⟩, ⟨_, rfl⟩, rfl⟩

/-- C17 fails on the code: on `sampleV1` both lookups for `LON` succeed with one
record each, and when the two goroutines evaluate `append(result, ...)` before
either assigns to `result`, the call returns the airport alone: the city found
is lost, and the result has one element, not two. -/
theorem C17_interleaved_appends_lose_entities :
    findCities ToLower "LON" "en" sampleV1 = .value
      [{ ID := "000000000000000000000001", IataCode := "LON", Name := "London",
         Typ := "CITY", CountryID := "000000000000000000000007" }] ∧
    findAirports ToLower "LON" "en" sampleV1 = .value
      [{ ID := "000000000000000000000002", IataCode := "LON", Name := "Heathrow",
         Typ := "AIRPORT", CountryID := "000000000000000000000007" }] ∧
    (GetEntitiesByIataCode ToLower "LON" "en" sampleV1 [true, false, true, false, true, false]).1 =
      .value
        [{ ID := "000000000000000000000002", IataCode := "LON", Name := "Heathrow",
           Typ := "AIRPORT", CountryID := "000000000000000000000007" }] :=
  ⟨rfl, rfl, rfl⟩

/-- When one goroutine runs after the other, the call returns what the
successful lookups found, the cities first, and fails only if both failed. -/
theorem sequential_run (lower : String → String) (iataCode language : String) (db : BackendV1)
    (hi : iataCode ≠ "") (hl : language ≠ "") :
    (∀ cs as, findCities lower iataCode language db = .value cs →
      findAirports lower iataCode language db = .value as →
      (GetEntitiesByIataCode lower iataCode language db []).1 = .value (cs ++ as)) ∧
    (∀ cs e, findCities lower iataCode language db = .value cs →
      findAirports lower iataCode language db = .error e →
      (GetEntitiesByIataCode lower iataCode language db []).1 = .value cs) ∧
    (∀ e as, findCities lower iataCode language db = .error e →
      findAirports lower iataCode language db = .value as →
      (GetEntitiesByIataCode lower iataCode language db []).1 = .value as) := by
  have hv : validateRequest iataCode language = none := by
    simp [validateRequest, hi, hl]
  refine ⟨?_, ?_, ?_⟩
  · intro cs as h1 h2
    simp [GetEntitiesByIataCode, hv, Fanout.run, Fanout.stepCity, Fanout.stepAirport,
      Goroutine.step, h1, h2, ErrorsMaxCount]
  · intro cs e h1 h2
    simp [GetEntitiesByIataCode, hv, Fanout.run, Fanout.stepCity, Fanout.stepAirport,
      Goroutine.step, h1, h2, ErrorsMaxCount]
  · intro e as h1 h2
    simp [GetEntitiesByIataCode, hv, Fanout.run, Fanout.stepCity, Fanout.stepAirport,
      Goroutine.step, h1, h2, ErrorsMaxCount]

/-! ## The spatial queries (C19, C20) -/

/-- C19: `GetIntersectedRegions` makes one call, a `Find` with the query it
builds. The query always has the geo-intersects predicate on the stored bounding
geometry with the geometry given; it has a restriction on the type, and then to
exactly the region types given, if and only if the type filter is not empty;
and it selects the fields `type` and `geo_id` only. -/
theorem C19_intersects_query (geometry : Geometry) (regionTypes : List RegionType)
    (r : List GeoRegion) (db : Backend) :
    (GetIntersectedRegions geometry regionTypes r db).2.2.calls =
      db.calls ++ [.findIntersects (GetIntersectedRegions.dbQuery geometry regionTypes)] ∧
    (GetIntersectedRegions.dbQuery geometry regionTypes).geometry = geometry ∧
    ((∃ types, (GetIntersectedRegions.dbQuery geometry regionTypes).typeIn = some types) ↔
      regionTypes ≠ []) ∧
    ((GetIntersectedRegions.dbQuery geometry regionTypes).typeIn = some regionTypes ↔
      regionTypes ≠ []) ∧
    ((GetIntersectedRegions.dbQuery geometry regionTypes).typeIn = none ↔ regionTypes = []) ∧
    (GetIntersectedRegions.dbQuery geometry regionTypes).select = ["type", "geo_id"] := by
  refine ⟨intersects_calls geometry regionTypes r db, rfl, ?_, ?_, ?_, rfl⟩ <;>
    cases regionTypes <;> simp [GetIntersectedRegions.dbQuery]

theorem nearby_calls (div : Float64 → Float64 → Float64)
    (centerSphere : Geometry → NearbyQuery → Bool) (latitude longitude : Float64)
    (regionTypes : List RegionType) (radius : Float64) (db : Backend) :
    (GetNearByRegions div centerSphere latitude longitude regionTypes radius db).2.2.calls =
      db.calls ++ [.findNearby (GetNearByRegions.query div latitude longitude radius)] := by
  have hc := call_calls db (.findNearby (GetNearByRegions.query div latitude longitude radius))
  unfold GetNearByRegions
  simp only
  split
  · rename_i h; rw [h] at hc; exact hc
  · rename_i h; rw [h] at hc; exact hc

/-- C20: `GetNearByRegions` makes one call, a `Find` with a within-sphere
predicate on the stored bounding geometry, whose center is the pair
`[longitude, latitude]`, in that order, and whose angular radius is the radius
given divided by `earthRadius`, the `float64` constant 6378.1 (the `float64`
nearest to 6378.1 is 3506397556559053 / 2 ^ 39). This holds whatever the
division of `float64` computes. -/
theorem C20_nearby_query (div : Float64 → Float64 → Float64)
    (centerSphere : Geometry → NearbyQuery → Bool) (latitude longitude : Float64)
    (regionTypes : List RegionType) (radius : Float64) (db : Backend) :
    (GetNearByRegions div centerSphere latitude longitude regionTypes radius db).2.2.calls =
      db.calls ++
        [.findNearby { center := [longitude, latitude], radius := div radius earthRadius }] ∧
    earthRadius = .finite 3506397556559053 (-39) ∧
    2 * (10 * (3506397556559053 : Int) - 63781 * 2 ^ 39).natAbs ≤ 5 :=
  ⟨nearby_calls div centerSphere latitude longitude regionTypes radius db, rfl, by decide⟩

/-! ## The spatial queries and their errors -/

theorem nearby_ignores_types (div : Float64 → Float64 → Float64)
    (centerSphere : Geometry → NearbyQuery → Bool) (latitude longitude : Float64)
    (types₁ types₂ : List RegionType) (radius : Float64) (db : Backend) :
    GetNearByRegions div centerSphere latitude longitude types₁ radius db =
      GetNearByRegions div centerSphere latitude longitude types₂ radius db :=
  rfl

theorem nearby_error_nil (div : Float64 → Float64 → Float64)
    (centerSphere : Geometry → NearbyQuery → Bool) (latitude longitude : Float64)
    (regionTypes : List RegionType) (radius : Float64) (db : Backend) :
    (GetNearByRegions div centerSphere latitude longitude regionTypes radius db).2.1 = none := by
  unfold GetNearByRegions
  simp only
  split <;> rfl

theorem nearby_of_fault (div : Float64 → Float64 → Float64)
    (centerSphere : Geometry → NearbyQuery → Bool) (latitude longitude : Float64)
    (regionTypes : List RegionType) (radius : Float64) (db : Backend)
    (err : MgoError) (rest : List (Option MgoError)) (h : db.faults = some err :: rest) :
    (GetNearByRegions div centerSphere latitude longitude regionTypes radius db).1 = [] := by
  simp [GetNearByRegions, Backend.call, h]

theorem nearby_of_answer (div : Float64 → Float64 → Float64)
    (centerSphere : Geometry → NearbyQuery → Bool) (latitude longitude : Float64)
    (regionTypes : List RegionType) (radius : Float64) (db : Backend)
    (h : db.faults = [] ∨ ∃ rest, db.faults = none :: rest) :
    (GetNearByRegions div centerSphere latitude longitude regionTypes radius db).1 =
      db.geo.filter (fun d =>
        centerSphere d.Geometry (GetNearByRegions.query div latitude longitude radius)) := by
  rcases h with h | ⟨rest, h⟩ <;> simp [GetNearByRegions, Backend.call, h]

theorem intersects_of_fault (geometry : Geometry) (regionTypes : List RegionType)
    (r : List GeoRegion) (db : Backend) (msg : String) (rest : List (Option MgoError))
    (h : db.faults = some (.fault msg) :: rest) :
    (GetIntersectedRegions geometry regionTypes r db).1 =
      some (.wrap "failed to get regions %w" [] (.mgo (.fault msg))) ∧
    (GetIntersectedRegions geometry regionTypes r db).2.1 = [] := by
  simp [GetIntersectedRegions, Backend.call, h]

theorem answers_of_verdict (db : Backend) (h : db.verdict = none) :
    db.faults = [] ∨ ∃ rest, db.faults = none :: rest := by
  unfold Backend.verdict at h
  cases hf : db.faults with
  | nil => exact Or.inl rfl
  | cons f fs =>
    rw [hf] at h
    simp only at h
    exact Or.inr ⟨fs, by rw [h]⟩

theorem intersects_of_no_match (geometry : Geometry) (regionTypes : List RegionType)
    (r : List GeoRegion) (db : Backend)
    (h : db.faults = [] ∨ ∃ rest, db.faults = none :: rest)
    (hno : ∀ d ∈ db.geo, db.geoIntersects d.Geometry geometry = true →
      regionTypes ≠ [] ∧ d.Typ ∉ regionTypes) :
    (GetIntersectedRegions geometry regionTypes r db).1 = none ∧
    (GetIntersectedRegions geometry regionTypes r db).2.1 = [] := by
  have hf : ∀ a ∈ db.geo, db.geoIntersects a.Geometry geometry = true →
      (match if 0 < regionTypes.length then some regionTypes else none with
        | none => true
        | some ts => decide (a.Typ ∈ ts)) = false := by
    intro a ha hi
    obtain ⟨hne, hnot⟩ := hno a ha hi
    have hpos : 0 < regionTypes.length := List.length_pos.2 hne
    simp [hpos, hnot]
  rcases h with h | ⟨rest, h⟩ <;>
    simpa [GetIntersectedRegions, Backend.call, h, GetIntersectedRegions.dbQuery] using hf

/-- C21: the radius query does not restrict the results to the region types it
is given. On a store holding a city, a country and a neighborhood within the
sphere, `GetNearByRegions` asked for cities only and asked for countries only
makes the same call, whose query has the center and the radius and nothing else,
and answers both times with the three regions; the intersection query with the
filter `city` on the same store answers with the city alone. -/
theorem C21_type_filter_not_applied (div : Float64 → Float64 → Float64)
    (latitude longitude radius : Float64) :
    (GetNearByRegions div everywhere latitude longitude [RegionTypeCity] radius
        sampleBackend).2.2.calls =
      [.findNearby { center := [longitude, latitude], radius := div radius earthRadius }] ∧
    (GetNearByRegions div everywhere latitude longitude [RegionTypeCountry] radius
        sampleBackend).2.2.calls =
      [.findNearby { center := [longitude, latitude], radius := div radius earthRadius }] ∧
    (GetNearByRegions div everywhere latitude longitude [RegionTypeCity] radius
        sampleBackend).1 =
      [sampleGeoRegion 11 "c1" RegionTypeCity, sampleGeoRegion 12 "k1" RegionTypeCountry,
       sampleGeoRegion 13 "n1" RegionTypeNeighborhood] ∧
    (GetNearByRegions div everywhere latitude longitude [RegionTypeCountry] radius
        sampleBackend).1 =
      [sampleGeoRegion 11 "c1" RegionTypeCity, sampleGeoRegion 12 "k1" RegionTypeCountry,
       sampleGeoRegion 13 "n1" RegionTypeNeighborhood] ∧
    (GetIntersectedRegions testPoint [RegionTypeCity] [] sampleBackend).2.1 =
      [selectedGeoRegion 11 "c1" RegionTypeCity] :=
  ⟨rfl, rfl, rfl, rfl, by
    simp [GetIntersectedRegions, GetIntersectedRegions.dbQuery, Backend.call, sampleBackend,
      sampleGeoRegion, selectedGeoRegion, RegionTypeCity, RegionTypeCountry,
      RegionTypeNeighborhood]⟩

/-- C22: both spatial queries fail softly on no matches. When the store answers
the query and no stored document matches it (none is within the sphere, for
`GetNearByRegions`; none intersects the geometry and has one of the types asked
for, for `GetIntersectedRegions`), the caller receives an empty result set and
a nil error, whatever the result of the caller held before. -/
theorem C22_no_matches (div : Float64 → Float64 → Float64)
    (centerSphere : Geometry → NearbyQuery → Bool) (latitude longitude radius : Float64)
    (geometry : Geometry) (regionTypes : List RegionType) (r : List GeoRegion) (db : Backend)
    (hq : db.verdict = none) :
    ((∀ d ∈ db.geo, centerSphere d.Geometry
        (GetNearByRegions.query div latitude longitude radius) = false) →
      (GetNearByRegions div centerSphere latitude longitude regionTypes radius db).1 = [] ∧
      (GetNearByRegions div centerSphere latitude longitude regionTypes radius db).2.1 =
        none) ∧
    ((∀ d ∈ db.geo, db.geoIntersects d.Geometry geometry = true →
        regionTypes ≠ [] ∧ d.Typ ∉ regionTypes) →
      (GetIntersectedRegions geometry regionTypes r db).1 = none ∧
      (GetIntersectedRegions geometry regionTypes r db).2.1 = []) := by
  have h := answers_of_verdict db hq
  refine ⟨fun hno => ⟨?_, nearby_error_nil _ _ _ _ _ _ _⟩,
    fun hno => intersects_of_no_match _ _ _ _ h hno⟩
  rw [nearby_of_answer _ _ _ _ _ _ _ h, List.filter_eq_nil_iff]
  intro d hd
  simp [hno d hd]

/-- C22 on a store none of whose geometries is near or intersects anything, and
on `sampleBackend` asked for continents, where the three regions that intersect
the point are a city, a country and a neighborhood; the caller's result holds a
stale region before the call. -/
theorem C22_no_matches_witness :
    sampleBackendApart.verdict = none ∧ sampleBackend.verdict = none ∧
    ((GetNearByRegions (fun x _ => x) nowhere (.ofInt 51) (.ofInt 0) [] (.ofInt 10)
        sampleBackendApart).1 = [] ∧
      (GetNearByRegions (fun x _ => x) nowhere (.ofInt 51) (.ofInt 0) [] (.ofInt 10)
        sampleBackendApart).2.1 = none) ∧
    ((GetIntersectedRegions testPoint [] [sampleAccommodation] sampleBackendApart).1 = none ∧
      (GetIntersectedRegions testPoint [] [sampleAccommodation] sampleBackendApart).2.1 =
        []) ∧
    ((GetIntersectedRegions testPoint [RegionTypeContinent] [sampleAccommodation]
        sampleBackend).1 = none ∧
      (GetIntersectedRegions testPoint [RegionTypeContinent] [sampleAccommodation]
        sampleBackend).2.1 = []) :=
  ⟨rfl, rfl,
    (C22_no_matches (fun x _ => x) nowhere (.ofInt 51) (.ofInt 0) (.ofInt 10) testPoint []
      [sampleAccommodation] sampleBackendApart rfl).1 (fun _ _ => rfl),
    (C22_no_matches (fun x _ => x) nowhere (.ofInt 51) (.ofInt 0) (.ofInt 10) testPoint []
      [sampleAccommodation] sampleBackendApart rfl).2 (fun _ _ h => by cases h),
    (C22_no_matches (fun x _ => x) everywhere (.ofInt 51) (.ofInt 0) (.ofInt 10) testPoint
      [RegionTypeContinent] [sampleAccommodation] sampleBackend rfl).2
      (fun d hd _ => ⟨by decide, by
        simp only [sampleBackend, List.mem_cons, List.mem_singleton, List.not_mem_nil,
          or_false] at hd
        rcases hd with rfl | rfl | rfl <;> decide⟩)⟩

/-- C23: a backend fault on the radius query is swallowed. When the backend
refuses the query with an error other than not-found, `GetNearByRegions` returns
an empty result set and a nil error, while `GetIntersectedRegions` on the same
store returns an error that wraps the fault. -/
theorem C23_nearby_fault_swallowed (div : Float64 → Float64 → Float64)
    (centerSphere : Geometry → NearbyQuery → Bool) (latitude longitude radius : Float64)
    (regionTypes : List RegionType) :
    sampleBackendQueryRefused.faults = [some (.fault "no reachable servers")] ∧
    (GetNearByRegions div centerSphere latitude longitude regionTypes radius
      sampleBackendQueryRefused).1 = [] ∧
    (GetNearByRegions div centerSphere latitude longitude regionTypes radius
      sampleBackendQueryRefused).2.1 = none ∧
    (GetIntersectedRegions testPoint regionTypes [] sampleBackendQueryRefused).1 =
      some (.wrap "failed to get regions %w" [] (.mgo (.fault "no reachable servers"))) :=
  ⟨rfl, rfl, rfl, rfl⟩

theorem call_verdict (db : Backend) (c : Call) : (db.call c).1 = db.verdict := by
  unfold Backend.call Backend.verdict
  cases db.faults <;> rfl

/-- C24: `GetRegionByTypeAndGeoID` returns nil, and the document, when the store
finds the region. The error it returns matches `ErrEntityNotFound` (by
`errors.Is`) exactly when the store reported not-found, which is `mgo.ErrNotFound`
from the backend or no document of that collection with that key. For any other
store error it returns an error that wraps that store error and does not match
`ErrEntityNotFound`. -/
theorem C24_not_found_distinguished (regionType : RegionType) (geoID : String) (r : Region)
    (db : Backend) :
    (∀ doc, db.verdict = none → findOne db.regions regionType geoID = some doc →
      (GetRegionByTypeAndGeoID regionType geoID r db).1 = none ∧
      (GetRegionByTypeAndGeoID regionType geoID r db).2.1 = doc) ∧
    ((∃ e, (GetRegionByTypeAndGeoID regionType geoID r db).1 = some e ∧
        e.is .ErrEntityNotFound = true) ↔
      (db.verdict = some .ErrNotFound ∨
        (db.verdict = none ∧ findOne db.regions regionType geoID = none))) ∧
    (∀ msg, db.verdict = some (.fault msg) →
      ∃ e, (GetRegionByTypeAndGeoID regionType geoID r db).1 = some e ∧
        e.is (.mgo (.fault msg)) = true ∧ e.is .ErrEntityNotFound = false) := by
  have hv := call_verdict db (.findRegion regionType geoID)
  have hr := call_regions db (.findRegion regionType geoID)
  unfold GetRegionByTypeAndGeoID
  generalize db.call (.findRegion regionType geoID) = C at hv hr ⊢
  obtain ⟨v, db1⟩ := C
  simp only at hv hr
  rw [← hv, ← hr]
  clear hv hr
  rcases v with _ | _ | msg
  · cases hf : findOne db1.regions regionType geoID <;> simp [Error.is, hf]
  · simp [Error.is]
  · simp [Error.is]

theorem C24_not_found_distinguished_witness :
    ((GetRegionByTypeAndGeoID "city" "c1" Region.zero sampleBackend).1 = none ∧
      (GetRegionByTypeAndGeoID "city" "c1" Region.zero sampleBackend).2.1 =
        sampleRegion 1 "c1" RegionTypeCity ["a0"]) ∧
    (∃ e, (GetRegionByTypeAndGeoID "country" "k1" Region.zero sampleBackend).1 = some e ∧
      e.is .ErrEntityNotFound = true) ∧
    (∃ e, (GetRegionByTypeAndGeoID "city" "c1" Region.zero sampleBackendNotFound).1 = some e ∧
      e.is .ErrEntityNotFound = true) ∧
    (∃ e, (GetRegionByTypeAndGeoID "city" "c1" Region.zero sampleBackendQueryRefused).1 =
        some e ∧
      e.is (.mgo (.fault "no reachable servers")) = true ∧ e.is .ErrEntityNotFound = false) :=
  ⟨(C24_not_found_distinguished "city" "c1" Region.zero sampleBackend).1
      (sampleRegion 1 "c1" RegionTypeCity ["a0"]) rfl (by decide),
    (C24_not_found_distinguished "country" "k1" Region.zero sampleBackend).2.1.2
      (Or.inr ⟨rfl, by decide⟩),
    (C24_not_found_distinguished "city" "c1" Region.zero sampleBackendNotFound).2.1.2
      (Or.inl rfl),
    (C24_not_found_distinguished "city" "c1" Region.zero sampleBackendQueryRefused).2.2
      "no reachable servers" rfl⟩

/-! ## The constructors and `MapCoordinates` -/

/-- C28: a geometry built by `NewMultiPointGeometry` or `NewMultiPolygonGeometry`
has its kind set, the given coordinates in its typed field and empty
`Coordinates`; `MarshalJSON` writes for it the member `type` alone, whatever the
coordinates given, so neither `multipoint` / `multipolygon` nor `coordinates` is
a member of the output. -/
theorem C28_constructed_geometry_is_type_only (c : List (List Float64))
    (p : List (List (List (List Float64)))) :
    ((NewMultiPointGeometry c).Typ = GeometryMultiPoint ∧
      (NewMultiPointGeometry c).MultiPoint = c ∧
      (NewMultiPointGeometry c).Coordinates = [] ∧
      MarshalJSON (NewMultiPointGeometry c) = .ok [("type", .str "MultiPoint")]) ∧
    ((NewMultiPolygonGeometry p).Typ = GeometryMultiPolygon ∧
      (NewMultiPolygonGeometry p).MultiPolygon = p ∧
      (NewMultiPolygonGeometry p).Coordinates = [] ∧
      MarshalJSON (NewMultiPolygonGeometry p) = .ok [("type", .str "MultiPolygon")]) :=
  ⟨⟨rfl, rfl, rfl, MarshalJSON_empty _ rfl (Or.inr (Or.inl rfl))⟩,
    ⟨rfl, rfl, rfl, MarshalJSON_empty _ rfl (Or.inr (Or.inr (Or.inr rfl)))⟩⟩

theorem MapCoordinates_point (g : GeoRegion) (h : g.Geometry.Typ = GeometryPoint) :
    MapCoordinates g = (encodePoint (.slice g.Geometry.Coordinates)).map
      (fun v => { g with Geometry := { g.Geometry with Point := v } }) := by
  simp [MapCoordinates, h]

theorem MapCoordinates_polygon (g : GeoRegion) (h : g.Geometry.Typ = GeometryPolygon) :
    MapCoordinates g = (encodePolygon g.Geometry.Coordinates).map
      (fun v => { g with Geometry := { g.Geometry with Polygon := v } }) := by
  simp [MapCoordinates, h, kinds_distinct.1]

theorem MapCoordinates_multiPoint (g : GeoRegion) (h : g.Geometry.Typ = GeometryMultiPoint) :
    MapCoordinates g = (encodeMultiPoint g.Geometry.Coordinates).map
      (fun v => { g with Geometry := { g.Geometry with MultiPoint := v } }) := by
  simp [MapCoordinates, h, kinds_distinct.2.1, kinds_distinct.2.2.1]

theorem MapCoordinates_multiPolygon (g : GeoRegion)
    (h : g.Geometry.Typ = GeometryMultiPolygon) :
    MapCoordinates g = (encodeMultiPolygon g.Geometry.Coordinates).map
      (fun v => { g with Geometry := { g.Geometry with MultiPolygon := v } }) := by
  simp [MapCoordinates, h, kinds_distinct.2.2.2.1, kinds_distinct.2.2.2.2.1,
    kinds_distinct.2.2.2.2.2]

theorem MapCoordinates_other (g : GeoRegion) (h1 : g.Geometry.Typ ≠ GeometryPoint)
    (h2 : g.Geometry.Typ ≠ GeometryPolygon) (h3 : g.Geometry.Typ ≠ GeometryMultiPoint)
    (h4 : g.Geometry.Typ ≠ GeometryMultiPolygon) : MapCoordinates g = .ok g := by
  simp [MapCoordinates, h1, h2, h3, h4, pure, Except.pure]

/-- C30: for every GeoRegion whose raw coordinates are well-formed for the kind
of its geometry, `MapCoordinates` returns, and the region after it is the region
before it with one field replaced: the typed field of the kind holds the typed
decoding of `Coordinates` (the result of the kind's `encode*` function), whose
JSON value is the one `MarshalJSON` writes in the typed member when the
coordinates are non-empty. `Type`, `Coordinates`, the three other typed fields
and the base region fields are as before. For a kind outside the four the region
is unchanged. -/
theorem C30_map_coordinates_frame (g : GeoRegion) :
    (WellFormed g.Geometry.Typ g.Geometry.Coordinates = true →
      (g.Geometry.Typ = GeometryPoint →
        ∃ pt, encodePoint (.slice g.Geometry.Coordinates) = .ok pt ∧
          MapCoordinates g = .ok { g with Geometry := { g.Geometry with Point := pt } } ∧
          (g.Geometry.Coordinates ≠ [] → ∃ j, marshalPoint pt = .ok j ∧
            MarshalJSON g.Geometry =
              .ok [("type", .str g.Geometry.Typ), ("point", j), ("coordinates", j)])) ∧
      (g.Geometry.Typ = GeometryPolygon →
        ∃ rings, encodePolygon g.Geometry.Coordinates = .ok rings ∧
          MapCoordinates g = .ok { g with Geometry := { g.Geometry with Polygon := rings } } ∧
          (g.Geometry.Coordinates ≠ [] → ∃ j, marshalPolygon rings = .ok j ∧
            MarshalJSON g.Geometry =
              .ok [("type", .str g.Geometry.Typ), ("polygon", j), ("coordinates", j)])) ∧
      (g.Geometry.Typ = GeometryMultiPoint →
        ∃ pts, encodeMultiPoint g.Geometry.Coordinates = .ok pts ∧
          MapCoordinates g = .ok { g with Geometry := { g.Geometry with MultiPoint := pts } } ∧
          (g.Geometry.Coordinates ≠ [] → ∃ j, marshalMultiPoint pts = .ok j ∧
            MarshalJSON g.Geometry =
              .ok [("type", .str g.Geometry.Typ), ("multipoint", j), ("coordinates", j)])) ∧
      (g.Geometry.Typ = GeometryMultiPolygon →
        ∃ polys, encodeMultiPolygon g.Geometry.Coordinates = .ok polys ∧
          MapCoordinates g =
            .ok { g with Geometry := { g.Geometry with MultiPolygon := polys } } ∧
          (g.Geometry.Coordinates ≠ [] → ∃ j, marshalMultiPolygon polys = .ok j ∧
            MarshalJSON g.Geometry =
              .ok [("type", .str g.Geometry.Typ), ("multipolygon", j),
                ("coordinates", j)]))) ∧
    (g.Geometry.Typ ≠ GeometryPoint → g.Geometry.Typ ≠ GeometryPolygon →
      g.Geometry.Typ ≠ GeometryMultiPoint → g.Geometry.Typ ≠ GeometryMultiPolygon →
      MapCoordinates g = .ok g) := by
  refine ⟨fun hwf => ⟨fun h => ?_, fun h => ?_, fun h => ?_, fun h => ?_⟩,
    MapCoordinates_other g⟩
  · have hs := conforms_mono _ _ _ hwf
    rw [h, expectedDepth_point] at hs
    obtain ⟨pt, hpt⟩ := (encodePoint_isOk _).2 hs
    refine ⟨pt, hpt, ?_, fun hne => ?_⟩
    · rw [MapCoordinates_point g h, hpt]; rfl
    · obtain ⟨pt', j, h1, h2, -, h4⟩ := MarshalJSON_point_wf g.Geometry h hne hwf
      rw [hpt] at h1
      cases h1
      exact ⟨j, h2, h4⟩
  · have hs := conforms_mono _ _ _ hwf
    rw [h, expectedDepth_polygon] at hs
    obtain ⟨pt, hpt⟩ := (encodePolygon_isOk _).2 hs
    refine ⟨pt, hpt, ?_, fun hne => ?_⟩
    · rw [MapCoordinates_polygon g h, hpt]; rfl
    · obtain ⟨pt', j, h1, h2, -, h4⟩ := MarshalJSON_polygon_wf g.Geometry h hne hwf
      rw [hpt] at h1
      cases h1
      exact ⟨j, h2, h4⟩
  · have hs := conforms_mono _ _ _ hwf
    rw [h, expectedDepth_multiPoint] at hs
    obtain ⟨pt, hpt⟩ := (encodeMultiPoint_isOk _).2 hs
    refine ⟨pt, hpt, ?_, fun hne => ?_⟩
    · rw [MapCoordinates_multiPoint g h, hpt]; rfl
    · obtain ⟨pt', j, h1, h2, -, h4⟩ := MarshalJSON_multiPoint_wf g.Geometry h hne hwf
      rw [hpt] at h1
      cases h1
      exact ⟨j, h2, h4⟩
  · have hs := conforms_mono _ _ _ hwf
    rw [h, expectedDepth_multiPolygon] at hs
    obtain ⟨pt, hpt⟩ := (encodeMultiPolygon_isOk _).2 hs
    refine ⟨pt, hpt, ?_, fun hne => ?_⟩
    · rw [MapCoordinates_multiPolygon g h, hpt]; rfl
    · obtain ⟨pt', j, h1, h2, -, h4⟩ := MarshalJSON_multiPolygon_wf g.Geometry h hne hwf
      rw [hpt] at h1
      cases h1
      exact ⟨j, h2, h4⟩

/-- C30 at a Polygon with one ring and a stale `Point`, and at a geometry of
kind `LineString`. -/
theorem C30_map_coordinates_frame_witness :
    WellFormed samplePolygonRegion.Geometry.Typ samplePolygonRegion.Geometry.Coordinates =
      true ∧
    (∃ rings, encodePolygon samplePolygonRegion.Geometry.Coordinates = .ok rings ∧
      MapCoordinates samplePolygonRegion =
        .ok { samplePolygonRegion with
              Geometry := { samplePolygonRegion.Geometry with Polygon := rings } } ∧
      (samplePolygonRegion.Geometry.Coordinates ≠ [] → ∃ j, marshalPolygon rings = .ok j ∧
        MarshalJSON samplePolygonRegion.Geometry =
          .ok [("type", .str samplePolygonRegion.Geometry.Typ), ("polygon", j),
            ("coordinates", j)])) ∧
    MapCoordinates sampleLineRegion = .ok sampleLineRegion :=
  ⟨by decide, ((C30_map_coordinates_frame samplePolygonRegion).1 (by decide)).2.1 rfl,
    (C30_map_coordinates_frame sampleLineRegion).2 (by decide) (by decide) (by decide)
      (by decide)⟩

/-! ## Lookups that find nothing -/

theorem entities_of_nothing_found (lower : String → String) (iataCode language : String)
    (db : BackendV1)
    (schedule : List Bool) (hi : iataCode ≠ "") (hl : language ≠ "")
    (hc : findCities lower iataCode language db = .value [])
    (ha : findAirports lower iataCode language db = .value []) :
    (GetEntitiesByIataCode lower iataCode language db schedule).1 = .value [] := by
  have hv : validateRequest iataCode language = none := by
    simp [validateRequest, hi, hl]
  obtain ⟨hr, he, hcity, hair⟩ := nothingFound_run lower iataCode language db hc ha
    (schedule ++ [true, true, true, false, false, false])
    { city := .start, airport := .start,
      shared := { result := [], errs := [], lookups := [] } }
    ⟨rfl, rfl, Or.inl rfl, Or.inl rfl⟩
  simp only [GetEntitiesByIataCode, hv]
  split
  · rename_i msg hp
    rcases hcity with h | h | h | h <;> rw [h] at hp <;> cases hp
  · rename_i msg hp _
    rcases hair with h | h | h | h <;> rw [h] at hp <;> cases hp
  · simp [he, hr, ErrorsMaxCount]

theorem both_failed_of_not_found (lower : String → String) (iataCode language : String)
    (db : BackendV1)
    (schedule : List Bool) (hi : iataCode ≠ "") (hl : language ≠ "")
    (h : (GetEntitiesByIataCode lower iataCode language db schedule).1 = .error .ErrEntityNotFound) :
    (∃ e, findCities lower iataCode language db = .error e) ∧
      ∃ e, findAirports lower iataCode language db = .error e := by
  have hv : validateRequest iataCode language = none := by
    simp [validateRequest, hi, hl]
  have hb := errsBounded_run lower iataCode language db
    (schedule ++ [true, true, true, false, false, false]) _
    (errsBounded_init (findCities lower iataCode language db)
      (findAirports lower iataCode language db))
  obtain ⟨-, -, h3, -, -⟩ := hb
  simp only [GetEntitiesByIataCode, hv] at h
  have hlen : (Fanout.run lower iataCode language db
      (schedule ++ [true, true, true, false, false, false])
      { city := .start, airport := .start,
        shared := { result := [], errs := [], lookups := [] } }).shared.errs.length = 2 := by
    split at h
    · cases h
    · cases h
    · split at h
      · rename_i hlen
        exact hlen
      · cases h
  rw [hlen] at h3
  have w1 := errWeight_le_one (findCities lower iataCode language db)
    (Fanout.run lower iataCode language db (schedule ++ [true, true, true, false, false, false])
      { city := .start, airport := .start,
        shared := { result := [], errs := [], lookups := [] } }).city
  have w2 := errWeight_le_one (findAirports lower iataCode language db)
    (Fanout.run lower iataCode language db (schedule ++ [true, true, true, false, false, false])
      { city := .start, airport := .start,
        shared := { result := [], errs := [], lookups := [] } }).airport
  have p1 : 1 ≤ errWeight (findCities lower iataCode language db)
      (Fanout.run lower iataCode language db (schedule ++ [true, true, true, false, false, false])
        { city := .start, airport := .start,
          shared := { result := [], errs := [], lookups := [] } }).city := by
    omega
  have p2 : 1 ≤ errWeight (findAirports lower iataCode language db)
      (Fanout.run lower iataCode language db (schedule ++ [true, true, true, false, false, false])
        { city := .start, airport := .start,
          shared := { result := [], errs := [], lookups := [] } }).airport := by
    omega
  exact ⟨errWeight_pos _ _ p1, errWeight_pos _ _ p2⟩

theorem findCities_of_no_record (lower : String → String) (iataCode language : String)
    (db : BackendV1)
    (h : FindCities { CountryID := "", StateID := "", IataCode := iataCode } db = .value []) :
    findCities lower iataCode language db = .value [] := by
  simp [findCities, h]

theorem findAirports_of_no_record (lower : String → String) (iataCode language : String)
    (db : BackendV1)
    (h : FindAirports { CountryID := "", StateID := "", CityID := "", IataCode := iataCode } db =
      .value []) :
    findAirports lower iataCode language db = .value [] := by
  simp [findAirports, h]

theorem findCities_error_iff (lower : String → String) (iataCode language : String)
    (db : BackendV1) :
    (∃ e, findCities lower iataCode language db = .error e) ↔
      ∃ e, FindCities { CountryID := "", StateID := "", IataCode := iataCode } db = .error e := by
  cases h : FindCities { CountryID := "", StateID := "", IataCode := iataCode } db <;>
    simp [findCities, h]

theorem findAirports_error_iff (lower : String → String) (iataCode language : String)
    (db : BackendV1) :
    (∃ e, findAirports lower iataCode language db = .error e) ↔
      ∃ e, FindAirports { CountryID := "", StateID := "", CityID := "", IataCode := iataCode }
        db = .error e := by
  cases h : FindAirports { CountryID := "", StateID := "", CityID := "", IataCode := iataCode }
    db <;> simp [findAirports, h]

/-- C29: for non-empty `iataCode` and `language`, if `FindCities` and
`FindAirports` both return with no error and no record, `GetEntitiesByIataCode`
returns the empty result and a nil error, however the two goroutines are
scheduled. And it returns `ErrEntityNotFound` only if both lookups returned an
error: a lookup that returned, with records or with none, excludes it. -/
theorem C29_empty_lookups_give_empty_result (lower : String → String) (iataCode language : String)
    (db : BackendV1)
    (schedule : List Bool) (hi : iataCode ≠ "") (hl : language ≠ "") :
    (FindCities { CountryID := "", StateID := "", IataCode := iataCode } db = .value [] →
      FindAirports { CountryID := "", StateID := "", CityID := "", IataCode := iataCode } db =
        .value [] →
      (GetEntitiesByIataCode lower iataCode language db schedule).1 = .value []) ∧
    ((GetEntitiesByIataCode lower iataCode language db schedule).1 = .error .ErrEntityNotFound →
      (∃ e, FindCities { CountryID := "", StateID := "", IataCode := iataCode } db =
        .error e) ∧
      ∃ e, FindAirports { CountryID := "", StateID := "", CityID := "", IataCode := iataCode }
        db = .error e) :=
  ⟨fun hc ha => entities_of_nothing_found lower iataCode language db schedule hi hl
      (findCities_of_no_record lower iataCode language db hc)
      (findAirports_of_no_record lower iataCode language db ha),
    fun h =>
      ⟨(findCities_error_iff lower iataCode language db).1
          (both_failed_of_not_found lower iataCode language db schedule hi hl h).1,
        (findAirports_error_iff lower iataCode language db).1
          (both_failed_of_not_found lower iataCode language db schedule hi hl h).2⟩⟩

/-- C29 at the code `ZZZ999`, which no city and no airport of `sampleV1` has, with
the two goroutines interleaved; and on `sampleV1Down`, where both lookups
fail. -/
theorem C29_empty_lookups_give_empty_result_witness :
    "ZZZ999" ≠ "" ∧ "en" ≠ "" ∧
    FindCities { CountryID := "", StateID := "", IataCode := "ZZZ999" } sampleV1 = .value [] ∧
    FindAirports { CountryID := "", StateID := "", CityID := "", IataCode := "ZZZ999" } sampleV1 =
      .value [] ∧
    (GetEntitiesByIataCode ToLower "ZZZ999" "en" sampleV1 [true, false, false, true]).1 = .value [] ∧
    (GetEntitiesByIataCode ToLower "ZZZ999" "en" sampleV1Down []).1 = .error .ErrEntityNotFound ∧
    ((∃ e, FindCities { CountryID := "", StateID := "", IataCode := "ZZZ999" } sampleV1Down =
        .error e) ∧
      ∃ e, FindAirports { CountryID := "", StateID := "", CityID := "", IataCode := "ZZZ999" }
        sampleV1Down = .error e) :=
  ⟨by decide, by decide, rfl, rfl,
    (C29_empty_lookups_give_empty_result ToLower "ZZZ999" "en" sampleV1 [true, false, false, true]
      (by decide) (by decide)).1 rfl rfl,
    rfl,
    (C29_empty_lookups_give_empty_result ToLower "ZZZ999" "en" sampleV1Down [] (by decide)
      (by decide)).2 rfl⟩

/-! ## Accommodations of the V1 store -/

theorem insertEntity_error (entity : Accommodation) (db : AccommodationsV1) :
    ∃ e, (insertEntity entity db).1 = some e := by
  unfold insertEntity
  cases db.insertFault <;> exact ⟨_, rfl⟩

theorem InsertAccommodationV1_error (accommodation : Accommodation) (db : AccommodationsV1) :
    ∃ e, (InsertAccommodationV1 accommodation db).1 = .error e := by
  unfold InsertAccommodationV1
  simp only
  obtain ⟨e, he⟩ := insertEntity_error { accommodation with ID := db.objectIds + 1 }
    { db with objectIds := db.objectIds + 1 }
  generalize insertEntity { accommodation with ID := db.objectIds + 1 }
    { db with objectIds := db.objectIds + 1 } = R at he ⊢
  obtain ⟨err, db1⟩ := R
  simp only at he
  subst he
  simp only
  split <;> exact ⟨_, rfl⟩

/-- C25: `InsertAccommodationV1` returns an error and no id when the insert in
the store succeeds. On a store whose backend does what it is asked, the
accommodation is stored under the new id 27 and the call returns the error
`error saving accommodation error inserting entity %!w(<nil>)`. For every
accommodation and every store the call returns an error. -/
theorem C25_insert_returns_error_on_success (accommodation : Accommodation)
    (db : AccommodationsV1) :
    sampleAccommodationsV1.insertFault = none ∧
    (InsertAccommodationV1 newAccommodationV1 sampleAccommodationsV1).2.accommodations =
      sampleAccommodationsV1.accommodations ++ [{ newAccommodationV1 with ID := 27 }] ∧
    (InsertAccommodationV1 newAccommodationV1 sampleAccommodationsV1).1 =
      .error (.wrap "error saving accommodation %w" []
        (.errorf "error inserting entity %w" ["%!w(<nil>)"])) ∧
    (Error.wrap "error saving accommodation %w" []
        (.errorf "error inserting entity %w" ["%!w(<nil>)"])).text =
      "error saving accommodation error inserting entity %!w(<nil>)" ∧
    ∃ e, (InsertAccommodationV1 accommodation db).1 = .error e :=
  ⟨rfl, rfl, rfl, by decide, InsertAccommodationV1_error accommodation db⟩

theorem MapGeoEntityToAccommodation_error (geoEntity : GeoEntity) (db : AccommodationsV1) :
    ∃ e, (MapGeoEntityToAccommodation geoEntity db).2 = some e := by
  unfold MapGeoEntityToAccommodation
  split <;> exact ⟨_, rfl⟩

theorem MapGeoEntitiesToAccommodation_fold (db : AccommodationsV1)
    (geoEntities : List GeoEntity) (m : List (String × Option Accommodation)) :
    geoEntities.foldl (fun result geoEntity =>
      match MapGeoEntityToAccommodation geoEntity db with
      | (entity, none) => mapAssign result geoEntity.ID.Hex entity
      | (_, some _) => result) m = m := by
  induction geoEntities generalizing m with
  | nil => rfl
  | cons g gs ih =>
    rw [List.foldl_cons]
    obtain ⟨e, he⟩ := MapGeoEntityToAccommodation_error g db
    generalize MapGeoEntityToAccommodation g db = R at he ⊢
    obtain ⟨entity, err⟩ := R
    simp only at he
    subst he
    exact ih m

/-- C26: `MapGeoEntityToAccommodation` returns a non-nil error for every geo
entity and every store. For an entity of type accommodation whose lookup
succeeds, it returns the accommodation found together with an error that wraps
nothing, made by `fmt.Errorf` of the nil error of the lookup. So
`MapGeoEntitiesToAccommodation` returns the empty map for every list. -/
theorem C26_mapping_always_fails (geoEntity : GeoEntity) (geoEntities : List GeoEntity)
    (db : AccommodationsV1) :
    (∃ e, (MapGeoEntityToAccommodation geoEntity db).2 = some e) ∧
    (∀ accommodation, geoEntity.Typ = GeoEntityTypeAccommodation →
      FindAccommodationByID geoEntity.ID.Hex db = (some accommodation, none) →
      MapGeoEntityToAccommodation geoEntity db =
        (some accommodation,
          some (.errorf "error mapping geo entity, %w" ["%!w(<nil>)"]))) ∧
    MapGeoEntitiesToAccommodation geoEntities db = [] := by
  refine ⟨MapGeoEntityToAccommodation_error geoEntity db, ?_,
    MapGeoEntitiesToAccommodation_fold db geoEntities []⟩
  intro accommodation ht hf
  simp [MapGeoEntityToAccommodation, ht, hf, Errorf]

/-- C26 at the geo entity of an accommodation that the store holds: the lookup
succeeds, the mapping returns an error, and the map is empty. -/
theorem C26_mapping_always_fails_witness :
    sampleGeoEntity.Typ = GeoEntityTypeAccommodation ∧
    FindAccommodationByID sampleGeoEntity.ID.Hex sampleAccommodationsV1 =
      (some { ID := 26, Name := [("en", "Grand Hotel")], CatalogID := "c1",
              InternalID := "i1", ProviderID := "p1" }, none) ∧
    MapGeoEntityToAccommodation sampleGeoEntity sampleAccommodationsV1 =
      (some { ID := 26, Name := [("en", "Grand Hotel")], CatalogID := "c1",
              InternalID := "i1", ProviderID := "p1" },
        some (.errorf "error mapping geo entity, %w" ["%!w(<nil>)"])) ∧
    MapGeoEntitiesToAccommodation [sampleGeoEntity] sampleAccommodationsV1 = [] :=
  ⟨rfl, by decide,
    (C26_mapping_always_fails sampleGeoEntity [sampleGeoEntity] sampleAccommodationsV1).2.1
      _ rfl (by decide),
    (C26_mapping_always_fails sampleGeoEntity [sampleGeoEntity] sampleAccommodationsV1).2.2⟩

/-! ## The conversion of the type list in the handlers -/

theorem splitAux_cons (cs cur : List Char) : ∃ e es, splitAux cs cur = e :: es := by
  induction cs generalizing cur with
  | nil => exact ⟨_, _, rfl⟩
  | cons c cs ih =>
    unfold splitAux
    split
    · exact ⟨_, _, rfl⟩
    · exact ih _

theorem convertTypes_panics (list : String) :
    convertTypes list = .error (.indexOutOfRange 0 0) := by
  obtain ⟨e, es, h⟩ := splitAux_cons list.data []
  simp [convertTypes, Split, h, rangeAssign, assignIndex]

theorem length_pos_of_ne_empty (s : String) (h : s ≠ "") : 0 < s.length := by
  rcases s with ⟨cs⟩
  cases cs with
  | nil => exact absurd rfl h
  | cons c cs => simp [String.length]

/-- C27 fails for `getIntersections` when a coordinate does not parse: with a
`latitude` that `strconv.ParseFloat` rejects and the non-empty `region_types`
`city`, the handler answers 400 with the error of the parse, makes no call on
the store, and does not panic. -/
theorem C27_counterexample :
    "city" ≠ "" ∧
    (getIntersections (.error (.errorf "strconv.ParseFloat: parsing %s: invalid syntax" ["abc"]))
        (.ok (.ofInt 0)) "city" sampleBackend).1 =
      .ok (.ErrJSON 400 (.errorf "strconv.ParseFloat: parsing %s: invalid syntax" ["abc"])) ∧
    (getIntersections (.error (.errorf "strconv.ParseFloat: parsing %s: invalid syntax" ["abc"]))
        (.ok (.ofInt 0)) "city" sampleBackend).2.calls = [] :=
  ⟨by decide, rfl, rfl⟩

/-- C27, amended: the conversion of a comma-separated type list assigns by index
into a slice of length 0. `getNearbyRegions` panics with an index out of range
(index 0, length 0) for every value of `types`, the empty string included, and
the store is as before: `GetNearByRegions` is not called. `getIntersections`
panics the same way whenever `latitude` and `longitude` parse and `region_types`
is not empty. -/
theorem C27_type_list_conversion_panics (div : Float64 → Float64 → Float64)
    (centerSphere : Geometry → NearbyQuery → Bool) (longitude latitude radius : Float64)
    (types : String) (db : Backend) :
    convertTypes types = .error (.indexOutOfRange 0 0) ∧
    getNearbyRegions div centerSphere longitude latitude radius types db =
      (.error (.indexOutOfRange 0 0), db) ∧
    (types ≠ "" →
      getIntersections (.ok latitude) (.ok longitude) types db =
        (.error (.indexOutOfRange 0 0), db)) := by
  refine ⟨convertTypes_panics types, ?_, fun h => ?_⟩
  · simp [getNearbyRegions, convertTypes_panics]
  · simp [getIntersections, convertTypes_panics, length_pos_of_ne_empty types h]

/-- C27 at the parameter `city,country`, and at the empty `types`. -/
theorem C27_type_list_conversion_panics_witness :
    "city,country" ≠ "" ∧
    (getIntersections (.ok (.ofInt 51)) (.ok (.ofInt 0)) "city,country" sampleBackend).1 =
      .error (.indexOutOfRange 0 0) ∧
    (getNearbyRegions (fun x _ => x) everywhere (.ofInt 0) (.ofInt 51) (.ofInt 10) ""
      sampleBackend).1 = .error (.indexOutOfRange 0 0) :=
  ⟨by decide,
    congrArg Prod.fst ((C27_type_list_conversion_panics (fun x _ => x) everywhere (.ofInt 0)
      (.ofInt 51) (.ofInt 10) "city,country" sampleBackend).2.2 (by decide)),
    congrArg Prod.fst (C27_type_list_conversion_panics (fun x _ => x) everywhere (.ofInt 0)
      (.ofInt 51) (.ofInt 10) "" sampleBackend).2.1⟩

end ApiGeo
